import Mathlib

/-!
# moonraker2mqtt: the JSON-RPC-over-WebSocket client

A shallow embedding of `src/websocket` (client.go, retry.go, struct.go, error.go,
message.go), `src/config` (the structs, their `Validate` methods, `GetMonitoredObjects`,
`DefaultConfig`, `LoadOrCreateConfig`), `src/moonraker/client.go` (`CallMethod`) and
`src/cmd/main.go` (`periodicMonitoring`), followed by the properties proved about them.

Modelling conventions

* Go `int` and `time.Duration` are `Int`.  The two counters of the client (`nextID`,
  `Retry.attempt`) only ever move by `+1` per call and would need `2^63` calls to leave
  the 64-bit range, so no wrap-around is applied to them.  The one numeric computation
  of the package, the back-off update of `retry.go`, goes through `float64`; the
  conversions are modelled with their rounding (`float64`, `durationOfFloat64`).
  The products of a configured number of seconds with `time.Second` (`GetTimeout`,
  `periodicMonitoring`) are taken in 64 bits with their wrap-around (`int64`), `int`
  having 64 bits.
* Go `any` values that travel in frames are JSON values (`Any`); the Go `nil` interface
  is `Any.null`.
* A Go map is a function from keys to `Option` values.
* Every method takes the receiver's state and returns the new state together with what
  it returns and the calls it makes on its collaborators (`Event`).  What the outside
  world decides (the result of a dial, which branch a `select` takes, which frames
  arrive) is an explicit argument.
* A blocking method is cut at the point where it blocks: `SendRequestWithTimeout.start`
  is the code up to the second `select`, `SendRequestWithTimeout.await` is that
  `select`.  Each such piece runs atomically in the model.
* Calls on the logger are not modelled: they do not touch the client.
* `strings.ToLower` and `json.Unmarshal` belong to Go's standard library; the
  configuration code takes them as the two fields of `config.Stdlib`, and a property
  that depends on what they return for a given text says so in a hypothesis.
-/

namespace websocket

/-! ## Values and errors -/

/-- JSON values, the content of Go `any` fields of a frame. `null` is the Go `nil`. -/
inductive Any where
  | null
  | bool (b : Bool)
  | num (n : Int)
  | str (s : String)
  | arr (xs : List Any)
  | obj (kvs : List (String × Any))

instance : Inhabited Any := ⟨Any.null⟩

/-- The struct `RPCError` of struct.go. -/
structure RPCError where
  Code : Int
  Message : String
  Data : Any

/-- Go `error` values that the package makes or passes on.
`Errorf format err` is `fmt.Errorf(format, err)` with a `%w` verb; `External` stands for
an error made by a library (url, x/net/websocket, io); `Canceled` and `DeadlineExceeded`
are the two values of `ctx.Err()`. -/
inductive GoError where
  | ClientNotConnectedError (message : String)
  | ClientAlreadyConnectedError (message : String)
  | ClientNotAuthenticatedError (message : String)
  | RequestTimeoutError (message : String) (timeout : Int)
  | WebSocketError (message : String) (err : Option GoError)
  | RPC (e : RPCError)
  | Errorf (format : String) (err : GoError)
  | Canceled
  | DeadlineExceeded
  | External (text : String)

instance : Inhabited GoError := ⟨GoError.Canceled⟩

def NewClientAlreadyConnectedError (message : String) : GoError :=
  GoError.ClientAlreadyConnectedError message

def NewWebSocketError (message : String) (err : Option GoError) : GoError :=
  GoError.WebSocketError message err

def NewWebSocketNotConnectedError (message : String) : GoError :=
  GoError.ClientNotConnectedError message

def NewWebSocketTimeoutError (message : String) : GoError :=
  GoError.RequestTimeoutError message 30

/-! ## Constants of struct.go -/

def WEB_SOCKET_STATE_CONNECTING : String := "ws_connecting"

def WEB_SOCKET_STATE_CONNECTED : String := "ws_connected"

def WEB_SOCKET_STATE_STOPPING : String := "ws_stopping"

def WEB_SOCKET_STATE_STOPPED : String := "ws_stopped"

def INITIAL_RETRY_DELAY : Int := 1

def MAX_RETRY_DELAY : Int := 60

def RETRY_BACKOFF_MULTIPLIER : Int := 2

/-- The constant `time.Second`; a `time.Duration` is a number of nanoseconds, an `Int`
here. -/
def Second : Int := 1000000000

/-- The result of an operation on `int64` values (`time.Duration`, and `int` on a 64-bit
platform) whose exact result is `x`: `x` reduced modulo `2^64` into the range from
`-2^63` to `2^63 - 1`. -/
def int64 (x : Int) : Int :=
  (x + 9223372036854775808) % 18446744073709551616 - 9223372036854775808

/-! ## retry.go -/

/-- Go `float64(x)` for a 64-bit integer `x`: the nearest number with 53 significant
bits, ties to even.  The result is an integer and is returned as one. -/
def float64 (x : Int) : Int :=
  let a := x.natAbs
  if a < 2 ^ 53 then x
  else
    let e := Nat.log2 a - 52
    let q := a / 2 ^ e
    let r := a % 2 ^ e
    let h := 2 ^ (e - 1)
    let q' := if h < r ∨ (r = h ∧ q % 2 = 1) then q + 1 else q
    Int.sign x * ((q' * 2 ^ e : Nat) : Int)

/-- Go `time.Duration(f)` for an integral `float64` value `f` that is below `2^63`: the
same integer; below `-2^63` the amd64 conversion yields the least `int64`. -/
def durationOfFloat64 (f : Int) : Int :=
  if f < -(2 ^ 63) then -(2 ^ 63) else f

/-- The struct `Retry` of struct.go (the logger apart). -/
structure Retry where
  enabled : Bool
  maxAttempts : Int
  currentDelay : Int
  attempt : Int
deriving DecidableEq, Repr

def NewRetry (enabled : Bool) (maxAttempts : Int) : Retry :=
  { enabled := enabled
    maxAttempts := maxAttempts
    currentDelay := INITIAL_RETRY_DELAY * Second
    attempt := 0 }

/-- `Retry.ShouldReconnect`: it reads the state and leaves it as it is. -/
def Retry.ShouldReconnect (m : Retry) : Bool :=
  if !m.enabled then false
  else if m.maxAttempts > 0 && m.attempt >= m.maxAttempts then false
  else true

/-- What a call of `WaitBeforeReconnect` leaves: the error returned, the new state, and
the duration of the timer that ran to its end (`0` when none did). -/
structure WaitResult where
  err : Option GoError
  retry : Retry
  waited : Int

/-- `Retry.WaitBeforeReconnect`.  `ctxDone = some e` says that the `select` takes the
`ctx.Done()` case, with `ctx.Err() = e`; `none` says that it takes the timer case. -/
def Retry.WaitBeforeReconnect (m : Retry) (ctxDone : Option GoError) : WaitResult :=
  if m.attempt = 0 then
    { err := none, retry := { m with attempt := m.attempt + 1 }, waited := 0 }
  else
    match ctxDone with
    | some e => { err := some e, retry := m, waited := 0 }
    | none =>
      { err := none
        retry :=
          { m with
            currentDelay :=
              durationOfFloat64
                (min (float64 m.currentDelay * RETRY_BACKOFF_MULTIPLIER)
                  (float64 MAX_RETRY_DELAY * float64 Second))
            attempt := m.attempt + 1 }
        waited := m.currentDelay }

/-- The waits of `n` successive calls of `WaitBeforeReconnect`, none of them ended by a
cancellation, oldest first. -/
def Retry.waits (m : Retry) : Nat → List Int
  | 0 => []
  | n + 1 => (m.WaitBeforeReconnect none).waited :: (m.WaitBeforeReconnect none).retry.waits n

/-- The delay that the specification gives for a wait that starts when `attempt`
attempts have been counted: none before the first attempt, and then
`min(initial_delay * multiplier^(attempt-1), max_delay)`, in nanoseconds. -/
def specBackoffDelay (attempt : Nat) : Int :=
  if attempt = 0 then 0
  else
    min (INITIAL_RETRY_DELAY * Second * RETRY_BACKOFF_MULTIPLIER ^ (attempt - 1))
      (MAX_RETRY_DELAY * Second)

def Retry.Reset (m : Retry) : Retry :=
  { m with attempt := 0, currentDelay := INITIAL_RETRY_DELAY * Second }

def Retry.GetAttempt (m : Retry) : Int := m.attempt

def Retry.IsEnabled (m : Retry) : Bool := m.enabled

end websocket

/-! ## config: what the client reads of `MoonrakerConfig` -/

namespace config

def DEFAULT_REQUEST_TIMEOUT : Int := 30

def DEFAULT_MAX_RECONNECT_ATTEMPTS : Int := 10

/-- The struct `MoonrakerConfig` of config/struct.go. -/
structure MoonrakerConfig where
  Host : String
  Port : Int
  APIKey : String
  SSL : Bool
  Timeout : Int
  AutoReconnect : Bool
  MaxReconnectAttempts : Int
  CallInterval : Int
  MonitoredObjects : String
deriving DecidableEq, Repr

/-- `MoonrakerConfig.GetWebSocketURL`: `fmt.Sprintf("%s://%s:%d/websocket", ...)`. -/
def MoonrakerConfig.GetWebSocketURL (m : MoonrakerConfig) : String :=
  let protocol := if m.SSL then "wss" else "ws"
  protocol ++ "://" ++ m.Host ++ ":" ++ toString m.Port ++ "/websocket"

/-- `MoonrakerConfig.GetTimeout`; the product `time.Duration(m.Timeout) * time.Second`
is an `int64` product. -/
def MoonrakerConfig.GetTimeout (m : MoonrakerConfig) : Int :=
  if m.Timeout ≤ 0 then websocket.int64 (DEFAULT_REQUEST_TIMEOUT * websocket.Second)
  else websocket.int64 (m.Timeout * websocket.Second)

end config

namespace websocket

/-! ## Frames, requests and channels -/

/-- The struct `WebSocketMessage` of struct.go; `ID = none` is the nil pointer. -/
structure WebSocketMessage where
  JSONRPC : String
  Method : String
  Params : Any
  ID : Option Int
  Result : Any
  Error : Option RPCError

structure WebSocketResponse where
  Result : Any
  Error : Option RPCError

instance : Inhabited WebSocketResponse := ⟨{ Result := Any.null, Error := none }⟩

def WebSocketMessage.IsResponse (m : WebSocketMessage) : Bool := m.ID.isSome

def WebSocketMessage.IsNotification (m : WebSocketMessage) : Bool :=
  m.Method != "" && m.ID.isNone

def WebSocketResponse.IsError (r : WebSocketResponse) : Bool := r.Error.isSome

/-- Whether the `any` value is the nil interface, the one value that `omitempty` leaves
out of a field of type `any`. -/
def Any.isNil : Any → Bool
  | Any.null => true
  | _ => false

/-- The object that `encoding/json` writes for an `*RPCError`, by the tags of struct.go:
`code`, `message`, and `data` unless it is nil. -/
def RPCError.toJSON (e : RPCError) : Any :=
  Any.obj
    ([("code", Any.num e.Code), ("message", Any.str e.Message)] ++
      (if e.Data.isNil then [] else [("data", e.Data)]))

/-- `WebSocketMessage.MarshalJSON` of message.go: the JSON object whose text the call
returns, with its members in the order in which `encoding/json` writes them.  The value
marshalled is a struct that embeds `*Alias` and then declares `JSONRPC`, set to "2.0".
The encoder takes the fields in the order of their index: first the fields promoted from
the embedded struct, of which `JSONRPC` is hidden by the outer field of the same JSON
name and the others are subject to `omitempty`, then the outer `JSONRPC`. -/
def WebSocketMessage.MarshalJSON (m : WebSocketMessage) : Any :=
  Any.obj
    ((if m.Method = "" then [] else [("method", Any.str m.Method)]) ++
      (if m.Params.isNil then [] else [("params", m.Params)]) ++
      (match m.ID with
       | some id => [("id", Any.num id)]
       | none => []) ++
      (if m.Result.isNil then [] else [("result", m.Result)]) ++
      (match m.Error with
       | some e => [("error", e.toJSON)]
       | none => []) ++
      [("jsonrpc", Any.str "2.0")])

/-- The members of a JSON object, in their order; no member for another value. -/
def Any.members : Any → List (String × Any)
  | Any.obj kvs => kvs
  | _ => []

/-- A Go channel: its capacity, the values it buffers (oldest first) and whether it has
been closed. -/
structure Chan (α : Type) where
  cap : Nat
  buf : List α
  closed : Bool

/-- Go `make(chan T, cap)`. -/
def Chan.make {α : Type} (cap : Nat) : Chan α :=
  { cap := cap, buf := [], closed := false }

/-- What a send on a channel with no receiver waiting does. -/
inductive SendOutcome (α : Type) where
  | sent (ch : Chan α)
  | full
  | panicClosed

/-- A send `ch <- v` while no receiver waits on `ch`: a panic on a closed channel, the
value appended when the buffer has room, otherwise no progress (`full`: a plain send
blocks, a `select` with a `default` takes the default). -/
def Chan.send {α : Type} (ch : Chan α) (v : α) : SendOutcome α :=
  if ch.closed then SendOutcome.panicClosed
  else if ch.buf.length < ch.cap then SendOutcome.sent { ch with buf := ch.buf ++ [v] }
  else SendOutcome.full

/-- Go `close(ch)`: `none` is the panic on a channel that is closed already. -/
def Chan.close {α : Type} (ch : Chan α) : Option (Chan α) :=
  if ch.closed then none else some { ch with closed := true }

/-- A receive `<-ch`: the oldest buffered value; on an empty closed channel the zero
value; `none` when the receive is not ready (empty and open). -/
def Chan.recv {α : Type} [Inhabited α] (ch : Chan α) : Option (α × Chan α) :=
  match ch.buf with
  | v :: rest => some (v, { ch with buf := rest })
  | [] => if ch.closed then some (default, ch) else none

/-- The struct `WebSocketRequest`.  `Response` is the address of the request's channel
in the client's `chans`. -/
structure WebSocketRequest where
  ID : Int
  Method : String
  Params : Any
  Response : Nat
  timeout : Int

/-- A `StatusListener` value; only its identity is of interest. -/
structure StatusListener where
  name : Nat
deriving DecidableEq, Repr

/-- A `DataHandler` value; only its identity is of interest. -/
structure DataHandler where
  name : Nat
deriving DecidableEq, Repr

/-- The handle of an open socket (`*websocket.Conn`). -/
structure Conn where
  fd : Nat
deriving DecidableEq, Repr

/-- The calls a method makes on its collaborators, in the order it makes them: the three
callbacks of the listener, the `go` statements, and the close of and the writes to the
socket. -/
inductive Event where
  | OnStateChanged (state : String)
  | OnNotification (method : String) (params : Any)
  | OnException (err : GoError)
  | goProcessDataMessage (handler : DataHandler) (message : WebSocketMessage)
  | goDialConfig (wsURL : String) (header : List (String × String))
  | goReadLoop
  | goWriteLoop
  | goReconnectLoop
  | connClose (conn : Conn)
  | jsonSend (message : WebSocketMessage)

/-- Whether the call is the listener's `OnNotification`. -/
def Event.isOnNotification : Event → Bool
  | Event.OnNotification _ _ => true
  | _ => false

/-- Whether the call is one of the three callbacks of the listener. -/
def Event.isListenerCall : Event → Bool
  | Event.OnStateChanged _ => true
  | Event.OnNotification _ _ => true
  | Event.OnException _ => true
  | _ => false

/-- Whether the call is the listener's `OnException`. -/
def Event.isOnException : Event → Bool
  | Event.OnException _ => true
  | _ => false

/-- The state that the call reports, if it is the listener's `OnStateChanged`. -/
def Event.reportedState? : Event → Option String
  | Event.OnStateChanged state => some state
  | _ => none

/-- The states reported to the listener by the calls, oldest first. -/
def reportedStates (events : List Event) : List String :=
  events.filterMap Event.reportedState?

/-- The handler whose `ProcessDataMessage` the call starts, if it is such a call. -/
def Event.processedBy? : Event → Option DataHandler
  | Event.goProcessDataMessage handler _ => some handler
  | _ => none

/-- Go `m[k] = v` on a map. -/
def mapSet {κ ν : Type} [DecidableEq κ] (m : κ → Option ν) (k : κ) (v : ν) : κ → Option ν :=
  fun k' => if k' = k then some v else m k'

/-- Go `delete(m, k)` on a map. -/
def mapDelete {κ ν : Type} [DecidableEq κ] (m : κ → Option ν) (k : κ) : κ → Option ν :=
  fun k' => if k' = k then none else m k'

/-- The struct `WebSocketClient` (its three mutexes and its logger apart).
`listener = none` is the nil listener, `conn = none` the nil connection.
`chans` and `nextChan` are not fields of the Go struct: they are the heap cells of the
response channels that `SendRequestWithTimeout` makes, `nextChan` being the first
address not yet given out. -/
structure WebSocketClient where
  config : config.MoonrakerConfig
  listener : Option StatusListener
  conn : Option Conn
  state : String
  requests : Int → Option WebSocketRequest
  nextID : Int
  sendChan : Chan WebSocketMessage
  closeChan : Chan Unit
  dataHandlers : List DataHandler
  retry : Retry
  chans : Nat → Chan WebSocketResponse
  nextChan : Nat

/-- What a method leaves: the value it returns, the client after it, the calls made. -/
structure Out (α : Type) where
  ret : α
  client : WebSocketClient
  events : List Event

def NewWebSocketClient (config : config.MoonrakerConfig) (listener : Option StatusListener) :
    WebSocketClient :=
  { config := config
    listener := listener
    conn := none
    state := WEB_SOCKET_STATE_STOPPED
    requests := fun _ => none
    nextID := 1
    sendChan := Chan.make 100
    closeChan := Chan.make 0
    dataHandlers := []
    retry := NewRetry config.AutoReconnect config.MaxReconnectAttempts
    chans := fun _ => Chan.make 1
    nextChan := 0 }

def WebSocketClient.GetState (c : WebSocketClient) : String := c.state

def WebSocketClient.IsConnected (c : WebSocketClient) : Bool :=
  c.GetState == WEB_SOCKET_STATE_CONNECTED

/-- `WebSocketClient.setState`: the new client and the callback made. -/
def WebSocketClient.setState (c : WebSocketClient) (newState : String) :
    WebSocketClient × List Event :=
  ({ c with state := newState },
    match c.listener with
    | some _ => [Event.OnStateChanged newState]
    | none => [])

def WebSocketClient.AddDataHandler (c : WebSocketClient) (handler : DataHandler) :
    WebSocketClient :=
  { c with dataHandlers := c.dataHandlers ++ [handler] }

def WebSocketClient.RegisterDataHandler (c : WebSocketClient) (handler : DataHandler) :
    WebSocketClient :=
  c.AddDataHandler handler

/-! ## Connecting -/

/-- How the `select` of `connectOnce` ends: with `ctx.Done()` (and `ctx.Err() = err`),
or with the result of `websocket.DialConfig`. -/
inductive DialOutcome where
  | ctxDone (err : GoError)
  | failed (err : GoError)
  | connected (conn : Conn)

/-- What the outside world decides during one call of `connectOnce`: the error of
`url.Parse`, the error of `websocket.NewConfig`, and the end of the dial. -/
structure ConnectEnv where
  parseErr : Option GoError
  configErr : Option GoError
  dial : DialOutcome

/-- The environment lets no connection come about: the URL or the configuration is
refused, or the dial does not end with a connection. -/
def ConnectEnv.refuses (env : ConnectEnv) : Bool :=
  env.parseErr.isSome || env.configErr.isSome ||
    (match env.dial with
     | DialOutcome.connected _ => false
     | _ => true)

/-- `WebSocketClient.connectOnce`; it returns the error, `none` for nil. -/
def WebSocketClient.connectOnce (c : WebSocketClient) (env : ConnectEnv) :
    Out (Option GoError) :=
  if c.state ≠ WEB_SOCKET_STATE_STOPPED then
    { ret := some (NewClientAlreadyConnectedError "client already connecting or connected")
      client := c
      events := [] }
  else
    let s1 := c.setState WEB_SOCKET_STATE_CONNECTING
    let wsURL := c.config.GetWebSocketURL
    match env.parseErr with
    | some err =>
      let s2 := s1.1.setState WEB_SOCKET_STATE_STOPPED
      { ret := some (GoError.Errorf "invalid WebSocket URL: %w" err)
        client := s2.1
        events := s1.2 ++ s2.2 }
    | none =>
      match env.configErr with
      | some err =>
        let s2 := s1.1.setState WEB_SOCKET_STATE_STOPPED
        { ret := some (GoError.Errorf "failed to create WebSocket config: %w" err)
          client := s2.1
          events := s1.2 ++ s2.2 }
      | none =>
        let header := if c.config.APIKey ≠ "" then [("X-Api-Key", c.config.APIKey)] else []
        let dialing := s1.2 ++ [Event.goDialConfig wsURL header]
        match env.dial with
        | DialOutcome.ctxDone err =>
          let s2 := s1.1.setState WEB_SOCKET_STATE_STOPPED
          { ret := some (GoError.Errorf "connection cancelled: %w" err)
            client := s2.1
            events := dialing ++ s2.2 }
        | DialOutcome.failed err =>
          let s2 := s1.1.setState WEB_SOCKET_STATE_STOPPED
          { ret := some (GoError.Errorf "failed to connect to WebSocket: %w" err)
            client := s2.1
            events := dialing ++ s2.2 ++
              (match c.listener with
               | some _ => [Event.OnException (NewWebSocketError "connection failed" (some err))]
               | none => []) }
        | DialOutcome.connected conn =>
          let s2 := ({ s1.1 with conn := some conn }).setState WEB_SOCKET_STATE_CONNECTED
          { ret := none
            client := { s2.1 with sendChan := Chan.make 100, closeChan := Chan.make 0 }
            events := dialing ++ s2.2 ++ [Event.goReadLoop, Event.goWriteLoop] }

/-- `WebSocketClient.Connect`. -/
def WebSocketClient.Connect (c : WebSocketClient) (env : ConnectEnv) : Out (Option GoError) :=
  let r := c.connectOnce env
  match r.ret with
  | none => { ret := none, client := { r.client with retry := r.client.retry.Reset }, events := r.events }
  | some err =>
    if !r.client.retry.IsEnabled then { ret := some err, client := r.client, events := r.events }
    else { ret := none, client := r.client, events := r.events ++ [Event.goReconnectLoop] }

/-- What the outside world decides during one turn of the loop of `reconnectLoop`:
whether `ctx.Done()` is ready at the `select` on top, how the `select` inside
`WaitBeforeReconnect` ends, what `ctx.Err()` returns after the wait, and the
environment of the call of `connectOnce`. -/
structure LoopEnv where
  ctxDone : Bool
  waitCtx : Option GoError
  ctxErr : Option GoError
  connect : ConnectEnv

/-- The context is not cancelled at any moment of the turn. -/
def LoopEnv.live (env : LoopEnv) : Bool :=
  !env.ctxDone && env.waitCtx.isNone && env.ctxErr.isNone

/-- What a run of `reconnectLoop` leaves: the client, the calls made, the number of
calls of `connectOnce`, and the completed waits, oldest first. -/
structure LoopOut where
  client : WebSocketClient
  events : List Event
  attempts : Nat
  waits : List Int

/-- `WebSocketClient.reconnectLoop`.  The list gives the environment of the successive
turns of the loop; the result is `none` when the loop is still running after the last
of them. -/
def WebSocketClient.reconnectLoop (c : WebSocketClient) : List LoopEnv → Option LoopOut
  | [] => none
  | env :: rest =>
    if env.ctxDone then some { client := c, events := [], attempts := 0, waits := [] }
    else if !c.retry.ShouldReconnect then
      some { client := c, events := [], attempts := 0, waits := [] }
    else
      let w := c.retry.WaitBeforeReconnect env.waitCtx
      let c1 := { c with retry := w.retry }
      match w.err with
      | some _ => some { client := c1, events := [], attempts := 0, waits := [] }
      | none =>
        match env.ctxErr with
        | some _ => some { client := c1, events := [], attempts := 0, waits := [w.waited] }
        | none =>
          let r := c1.connectOnce env.connect
          match r.ret with
          | none =>
            some
              { client := { r.client with retry := r.client.retry.Reset }
                events := r.events
                attempts := 1
                waits := [w.waited] }
          | some _ =>
            match r.client.reconnectLoop rest with
            | none => none
            | some o =>
              some
                { client := o.client
                  events := r.events ++ o.events
                  attempts := o.attempts + 1
                  waits := w.waited :: o.waits }

/-! ## Inbound frames -/

/-- How a call of `handleMessage` can fail to return: the send on the response channel
blocks for ever, or a channel operation panics. -/
inductive Fault where
  | blocked
  | panicked
deriving DecidableEq, Repr

/-- Go `ch[a] = v` on the heap of response channels. -/
def chanStore (chans : Nat → Chan WebSocketResponse) (a : Nat) (ch : Chan WebSocketResponse) :
    Nat → Chan WebSocketResponse :=
  fun a' => if a' = a then ch else chans a'

/-- `WebSocketClient.handleMessage`.  It returns `none` when the call returns, and the
fault otherwise. -/
def WebSocketClient.handleMessage (c : WebSocketClient) (message : WebSocketMessage) :
    Out (Option Fault) :=
  match message.ID with
  | some id =>
    match c.requests id with
    | some req =>
      let c1 := { c with requests := mapDelete c.requests id }
      let response : WebSocketResponse := { Result := message.Result, Error := message.Error }
      match (c1.chans req.Response).send response with
      | SendOutcome.sent ch =>
        match ch.close with
        | some ch' =>
          { ret := none, client := { c1 with chans := chanStore c1.chans req.Response ch' }, events := [] }
        | none =>
          { ret := some Fault.panicked
            client := { c1 with chans := chanStore c1.chans req.Response ch }
            events := [] }
      | SendOutcome.full => { ret := some Fault.blocked, client := c1, events := [] }
      | SendOutcome.panicClosed => { ret := some Fault.panicked, client := c1, events := [] }
    | none => { ret := none, client := c, events := [] }
  | none =>
    if message.Method ≠ "" then
      let handlers := c.dataHandlers
      { ret := none
        client := c
        events :=
          handlers.map (fun handler => Event.goProcessDataMessage handler message) ++
            (match c.listener with
             | some _ => [Event.OnNotification message.Method message.Params]
             | none => []) }
    else { ret := none, client := c, events := [] }

/-- The part of `readLoop` that handles the frames received one after the other; it
ends with the first call of `handleMessage` that does not return. -/
def WebSocketClient.handleMessages (c : WebSocketClient) : List WebSocketMessage → Out (Option Fault)
  | [] => { ret := none, client := c, events := [] }
  | message :: rest =>
    let r := c.handleMessage message
    match r.ret with
    | some f => { ret := some f, client := r.client, events := r.events }
    | none =>
      let r' := r.client.handleMessages rest
      { ret := r'.ret, client := r'.client, events := r.events ++ r'.events }

/-! ## Requests -/

/-- A call of `SendRequestWithTimeout` that is blocked in its second `select`: the
request it registered and the duration of its timer. -/
structure Waiter where
  req : WebSocketRequest
  timeout : Int

/-- How far a call of `SendRequestWithTimeout` gets before it has to wait:
`notConnected` is the return of line 356, `bufferFull` the return of line 384 (the
request `req` was registered and unregistered again), `waiting` the arrival at the
second `select`, and `panicked` the panic of a send on a closed `sendChan`. -/
inductive Started where
  | notConnected (err : GoError)
  | bufferFull (req : WebSocketRequest) (err : GoError)
  | panicked (req : WebSocketRequest)
  | waiting (w : Waiter)

/-- The error of a call that has returned already. -/
def Started.err? : Started → Option GoError
  | Started.notConnected err => some err
  | Started.bufferFull _ err => some err
  | Started.panicked _ => none
  | Started.waiting _ => none

/-- The request that the call registered, with its correlation id. -/
def Started.req? : Started → Option WebSocketRequest
  | Started.notConnected _ => none
  | Started.bufferFull req _ => some req
  | Started.panicked req => some req
  | Started.waiting w => some w.req

/-- `WebSocketClient.SendRequestWithTimeout` from its entry to the second `select`. -/
def WebSocketClient.SendRequestWithTimeout.start (c : WebSocketClient) (method : String)
    (params : Any) (timeout : Int) : Out Started :=
  if c.GetState ≠ WEB_SOCKET_STATE_CONNECTED then
    { ret := Started.notConnected (NewWebSocketNotConnectedError "not connected")
      client := c
      events := [] }
  else
    let id := c.nextID
    let req : WebSocketRequest :=
      { ID := id, Method := method, Params := params, Response := c.nextChan, timeout := 0 }
    let c1 : WebSocketClient :=
      { c with
        nextID := c.nextID + 1
        chans := chanStore c.chans c.nextChan (Chan.make 1)
        nextChan := c.nextChan + 1
        requests := mapSet c.requests id req }
    let message : WebSocketMessage :=
      { ID := some id, Method := method, Params := params, JSONRPC := "2.0"
        Result := Any.null, Error := none }
    match c1.sendChan.send message with
    | SendOutcome.sent ch =>
      { ret := Started.waiting { req := req, timeout := timeout }
        client := { c1 with sendChan := ch }
        events := [] }
    | SendOutcome.full =>
      { ret := Started.bufferFull req (NewWebSocketError "send buffer full" none)
        client := { c1 with requests := mapDelete c1.requests id }
        events := [] }
    | SendOutcome.panicClosed => { ret := Started.panicked req, client := c1, events := [] }

/-- The case that a `select` takes. -/
inductive SelectCase where
  | response
  | timer
deriving DecidableEq, Repr

/-- The second `select` of `WebSocketClient.SendRequestWithTimeout`, taking the case
`sel`; `none` says that the case is not ready (nothing to receive).  The value returned
is the pair of Go, `none` for nil. -/
def WebSocketClient.SendRequestWithTimeout.await (c : WebSocketClient) (w : Waiter)
    (sel : SelectCase) : Option (Out (Option WebSocketMessage × Option GoError)) :=
  match sel with
  | SelectCase.response =>
    match (c.chans w.req.Response).recv with
    | none => none
    | some (response, ch) =>
      let c1 := { c with chans := chanStore c.chans w.req.Response ch }
      match response.Error with
      | some e => some { ret := (none, some (GoError.RPC e)), client := c1, events := [] }
      | none =>
        some
          { ret :=
              (some
                { Result := response.Result, JSONRPC := "2.0", Method := "", Params := Any.null
                  ID := none, Error := none },
                none)
            client := c1
            events := [] }
  | SelectCase.timer =>
    some
      { ret := (none, some (NewWebSocketTimeoutError "request timeout"))
        client := { c with requests := mapDelete c.requests w.req.ID }
        events := [] }

/-- `WebSocketClient.SendRequestWithTimeout` as a whole: the start, then the frames
`inbound` that the read loop handles while the call waits, then the second `select`
taking the case `sel`.  `none` says that the call does not return: the case is not
ready, or the call panicked. -/
def WebSocketClient.SendRequestWithTimeout (c : WebSocketClient) (method : String)
    (params : Any) (timeout : Int) (inbound : List WebSocketMessage) (sel : SelectCase) :
    Option (Out (Option WebSocketMessage × Option GoError)) :=
  let s := SendRequestWithTimeout.start c method params timeout
  match s.ret with
  | Started.notConnected err =>
    some { ret := (none, some err), client := s.client, events := s.events }
  | Started.bufferFull _ err =>
    some { ret := (none, some err), client := s.client, events := s.events }
  | Started.panicked _ => none
  | Started.waiting w =>
    let h := s.client.handleMessages inbound
    match SendRequestWithTimeout.await h.client w sel with
    | none => none
    | some r => some { ret := r.ret, client := r.client, events := s.events ++ h.events ++ r.events }

/-- `WebSocketClient.SendRequest`. -/
def WebSocketClient.SendRequest (c : WebSocketClient) (method : String) (params : Any)
    (inbound : List WebSocketMessage) (sel : SelectCase) :
    Option (Out (Option WebSocketMessage × Option GoError)) :=
  c.SendRequestWithTimeout method params (30 * Second) inbound sel

/-- A `context.Context` as one call sees it: `Err` is what `ctx.Err()` returns when the
call is entered, `doneLater` is the error the context is cancelled with at a later
moment of the call, if it is. -/
structure Context where
  Err : Option GoError
  doneLater : Option GoError

/-- Go `errors.Is(err, context.Canceled) || errors.Is(err, context.DeadlineExceeded)`:
the error is, or wraps through `%w`, an error of a cancelled context. -/
def GoError.isCancellation : GoError → Bool
  | GoError.Canceled => true
  | GoError.DeadlineExceeded => true
  | GoError.Errorf _ err => err.isCancellation
  | _ => false

/-- `WebSocketClient.Request`; `none` says that the call does not return (it waits, or
it panics: `msg.Result` on a nil `msg`). -/
def WebSocketClient.Request (c : WebSocketClient) (ctx : Context) (method : String)
    (params : Any) (inbound : List WebSocketMessage) (sel : SelectCase) :
    Option (Out (Option WebSocketResponse × Option GoError)) :=
  match ctx.Err with
  | some e =>
    some { ret := (none, some (GoError.Errorf "request cancelled: %w" e)), client := c, events := [] }
  | none =>
    match c.SendRequest method params inbound sel with
    | none => none
    | some r =>
      match r.ret with
      | (_, some err) => some { ret := (none, some err), client := r.client, events := r.events }
      | (some msg, none) =>
        some
          { ret := (some { Result := msg.Result, Error := msg.Error }, none)
            client := r.client
            events := r.events }
      | (none, none) => none

/-- The second `select` of `WebSocketClient.SendRequestWithTimeout` taken when `elapsed`
nanoseconds have passed since it was entered, that is since `time.After(timeout)` was
called: the case of the timer is ready only once the duration of the timer has
passed. -/
def WebSocketClient.SendRequestWithTimeout.awaitAt (c : WebSocketClient) (w : Waiter)
    (elapsed : Int) (sel : SelectCase) : Option (Out (Option WebSocketMessage × Option GoError)) :=
  match sel with
  | SelectCase.response => SendRequestWithTimeout.await c w SelectCase.response
  | SelectCase.timer =>
    if elapsed < w.timeout then none else SendRequestWithTimeout.await c w SelectCase.timer

/-- `WebSocketClient.SendRequestWithTimeout` with the clock: as the function of that
name, the second `select` being taken `elapsed` nanoseconds after it was entered. -/
def WebSocketClient.SendRequestWithTimeout.timed (c : WebSocketClient) (method : String)
    (params : Any) (timeout : Int) (inbound : List WebSocketMessage) (elapsed : Int)
    (sel : SelectCase) : Option (Out (Option WebSocketMessage × Option GoError)) :=
  let s := SendRequestWithTimeout.start c method params timeout
  match s.ret with
  | Started.notConnected err =>
    some { ret := (none, some err), client := s.client, events := s.events }
  | Started.bufferFull _ err =>
    some { ret := (none, some err), client := s.client, events := s.events }
  | Started.panicked _ => none
  | Started.waiting w =>
    let h := s.client.handleMessages inbound
    match SendRequestWithTimeout.awaitAt h.client w elapsed sel with
    | none => none
    | some r => some { ret := r.ret, client := r.client, events := s.events ++ h.events ++ r.events }

/-- `WebSocketClient.SendRequest` with the clock. -/
def WebSocketClient.SendRequest.timed (c : WebSocketClient) (method : String) (params : Any)
    (inbound : List WebSocketMessage) (elapsed : Int) (sel : SelectCase) :
    Option (Out (Option WebSocketMessage × Option GoError)) :=
  SendRequestWithTimeout.timed c method params (30 * Second) inbound elapsed sel

/-- `WebSocketClient.Request` with the clock. -/
def WebSocketClient.Request.timed (c : WebSocketClient) (ctx : Context) (method : String)
    (params : Any) (inbound : List WebSocketMessage) (elapsed : Int) (sel : SelectCase) :
    Option (Out (Option WebSocketResponse × Option GoError)) :=
  match ctx.Err with
  | some e =>
    some { ret := (none, some (GoError.Errorf "request cancelled: %w" e)), client := c, events := [] }
  | none =>
    match SendRequest.timed c method params inbound elapsed sel with
    | none => none
    | some r =>
      match r.ret with
      | (_, some err) => some { ret := (none, some err), client := r.client, events := r.events }
      | (some msg, none) =>
        some
          { ret := (some { Result := msg.Result, Error := msg.Error }, none)
            client := r.client
            events := r.events }
      | (none, none) => none

/-- `WebSocketClient.Subscribe`. -/
def WebSocketClient.Subscribe (c : WebSocketClient) (objects : List (String × Any))
    (inbound : List WebSocketMessage) (sel : SelectCase) : Option (Out (Option GoError)) :=
  match c.SendRequest "server.websocket.subscribe" (Any.obj [("objects", Any.obj objects)])
      inbound sel with
  | none => none
  | some r => some { ret := r.ret.2, client := r.client, events := r.events }

/-- `WebSocketClient.SendNotification`; `none` is the panic of a send on a closed
`sendChan`. -/
def WebSocketClient.SendNotification (c : WebSocketClient) (method : String) (params : Any) :
    Option (Out (Option GoError)) :=
  if c.GetState ≠ WEB_SOCKET_STATE_CONNECTED then
    some { ret := some (NewWebSocketNotConnectedError "not connected"), client := c, events := [] }
  else
    let message : WebSocketMessage :=
      { Method := method, Params := params, JSONRPC := "2.0", ID := none, Result := Any.null
        Error := none }
    match c.sendChan.send message with
    | SendOutcome.sent ch =>
      some { ret := none, client := { c with sendChan := ch }, events := [] }
    | SendOutcome.full =>
      some { ret := some (NewWebSocketError "send buffer full" none), client := c, events := [] }
    | SendOutcome.panicClosed => none

/-! ## Disconnect, handlers and the two loops -/

/-- `WebSocketClient.Disconnect`. -/
def WebSocketClient.Disconnect (c : WebSocketClient) : Out (Option GoError) :=
  if c.state = WEB_SOCKET_STATE_STOPPED then { ret := none, client := c, events := [] }
  else
    let s1 := c.setState WEB_SOCKET_STATE_STOPPING
    let c2 : WebSocketClient :=
      if s1.1.closeChan.closed then s1.1
      else { s1.1 with closeChan := { s1.1.closeChan with closed := true } }
    let closing : WebSocketClient × List Event :=
      match c2.conn with
      | some conn => ({ c2 with conn := none }, [Event.connClose conn])
      | none => (c2, [])
    let s3 := closing.1.setState WEB_SOCKET_STATE_STOPPED
    { ret := none, client := s3.1, events := s1.2 ++ closing.2 ++ s3.2 }

/-- `WebSocketClient.removeDataHandler`: the first entry equal to `handler` goes. -/
def WebSocketClient.removeDataHandler (c : WebSocketClient) (handler : DataHandler) :
    WebSocketClient :=
  { c with dataHandlers := c.dataHandlers.erase handler }

def WebSocketClient.UnregisterDataHandler (c : WebSocketClient) (handler : DataHandler) :
    WebSocketClient :=
  c.removeDataHandler handler

/-- What `websocket.JSON.Receive` gives the read loop. -/
inductive Received where
  | frame (message : WebSocketMessage)
  | eof
  | failed (err : GoError)

/-- How one turn of a loop ends: the loop goes on, the loop function returns, or the
turn never ends. -/
inductive Turn where
  | again
  | returned
  | stuck
deriving DecidableEq, Repr

/-- The part of a turn of the loop of `WebSocketClient.readLoop` that follows the return
of `websocket.JSON.Receive`, on the client as it is at that moment; a panic of
`handleMessage` is recovered by the deferred function and ends the loop. -/
def WebSocketClient.readLoop.received (c : WebSocketClient) (rx : Received) : Out Turn :=
  match rx with
  | Received.frame message =>
    let r := c.handleMessage message
    { ret :=
        (match r.ret with
         | none => Turn.again
         | some Fault.panicked => Turn.returned
         | some Fault.blocked => Turn.stuck)
      client := r.client
      events := r.events }
  | Received.eof =>
    let s := c.setState WEB_SOCKET_STATE_STOPPED
    { ret := Turn.returned, client := s.1, events := s.2 }
  | Received.failed err =>
    let reported : List Event :=
      if c.GetState = WEB_SOCKET_STATE_STOPPING ∨ c.GetState = WEB_SOCKET_STATE_STOPPED then []
      else
        match c.listener with
        | some _ => [Event.OnException (NewWebSocketError "read error" (some err))]
        | none => []
    let s := c.setState WEB_SOCKET_STATE_STOPPED
    { ret := Turn.returned, client := s.1, events := reported ++ s.2 }

/-- One turn of the loop of `WebSocketClient.readLoop`, the receive returning at once:
the `select` on `closeChan`, then the receive and what follows it. -/
def WebSocketClient.readLoop.turn (c : WebSocketClient) (rx : Received) : Out Turn :=
  if c.closeChan.closed then { ret := Turn.returned, client := c, events := [] }
  else readLoop.received c rx

instance : Inhabited WebSocketMessage :=
  ⟨{ JSONRPC := "", Method := "", Params := Any.null, ID := none, Result := Any.null, Error := none }⟩

/-- The case that the `select` of `writeLoop` takes. -/
inductive WriteCase where
  | closed
  | message
deriving DecidableEq, Repr

/-- One turn of the loop of `WebSocketClient.writeLoop`, the `select` taking the case
`sel` and `websocket.JSON.Send` returning `sendErr`; `none` says that the case is not
ready. -/
def WebSocketClient.writeLoop.turn (c : WebSocketClient) (sel : WriteCase)
    (sendErr : Option GoError) : Option (Out Turn) :=
  match sel with
  | WriteCase.closed =>
    if c.closeChan.closed then some { ret := Turn.returned, client := c, events := [] } else none
  | WriteCase.message =>
    match c.sendChan.recv with
    | none => none
    | some (message, ch) =>
      let c1 := { c with sendChan := ch }
      match sendErr with
      | none => some { ret := Turn.again, client := c1, events := [Event.jsonSend message] }
      | some err =>
        let s := c1.setState WEB_SOCKET_STATE_STOPPED
        some
          { ret := Turn.returned
            client := s.1
            events :=
              [Event.jsonSend message] ++ s.2 ++
                (match c.listener with
                 | some _ => [Event.OnException (NewWebSocketError "write error" (some err))]
                 | none => []) }

/-! ## Runs of a client -/

/-- The operations on a client, each with what the outside world decides during it. -/
inductive Op where
  | Connect (env : ConnectEnv)
  | connectOnce (env : ConnectEnv)
  | reconnectLoop (envs : List LoopEnv)
  | Disconnect
  | AddDataHandler (handler : DataHandler)
  | removeDataHandler (handler : DataHandler)
  | readLoopTurn (rx : Received)
  | readLoopReceived (rx : Received)
  | writeLoopTurn (sel : WriteCase) (sendErr : Option GoError)
  | handleMessage (message : WebSocketMessage)
  | start (method : String) (params : Any) (timeout : Int)
  | await (w : Waiter) (sel : SelectCase)
  | SendNotification (method : String) (params : Any)

/-- The client after one operation, and the request that the operation registered when
it is the start of a `SendRequestWithTimeout`.  An operation that is not ready leaves
the client as it is. -/
def WebSocketClient.step (c : WebSocketClient) : Op → WebSocketClient × Option WebSocketRequest
  | Op.Connect env => ((c.Connect env).client, none)
  | Op.connectOnce env => ((c.connectOnce env).client, none)
  | Op.reconnectLoop envs =>
    (match c.reconnectLoop envs with
     | some o => o.client
     | none => c, none)
  | Op.Disconnect => (c.Disconnect.client, none)
  | Op.AddDataHandler handler => (c.AddDataHandler handler, none)
  | Op.removeDataHandler handler => (c.removeDataHandler handler, none)
  | Op.readLoopTurn rx => ((readLoop.turn c rx).client, none)
  | Op.readLoopReceived rx => ((readLoop.received c rx).client, none)
  | Op.writeLoopTurn sel sendErr =>
    (match writeLoop.turn c sel sendErr with
     | some r => r.client
     | none => c, none)
  | Op.handleMessage message => ((c.handleMessage message).client, none)
  | Op.start method params timeout =>
    let r := SendRequestWithTimeout.start c method params timeout
    (r.client, r.ret.req?)
  | Op.await w sel =>
    (match SendRequestWithTimeout.await c w sel with
     | some r => r.client
     | none => c, none)
  | Op.SendNotification method params =>
    (match c.SendNotification method params with
     | some r => r.client
     | none => c, none)

/-- The client after a sequence of operations, and the correlation ids of the requests
registered on the way, oldest first. -/
def WebSocketClient.run (c : WebSocketClient) : List Op → WebSocketClient × List Int
  | [] => (c, [])
  | op :: rest =>
    let s := c.step op
    let r := s.1.run rest
    (r.1,
      match s.2 with
      | some req => req.ID :: r.2
      | none => r.2)

/-- The state that the listener knows after the calls `events`, having known `known`
before them: the last state reported, or `known` when none was. -/
def lastReported (known : String) (events : List Event) : String :=
  (reportedStates events).getLast?.getD known

/-- The calls that one operation makes. -/
def WebSocketClient.stepEvents (c : WebSocketClient) : Op → List Event
  | Op.Connect env => (c.Connect env).events
  | Op.connectOnce env => (c.connectOnce env).events
  | Op.reconnectLoop envs =>
    (match c.reconnectLoop envs with
     | some o => o.events
     | none => [])
  | Op.Disconnect => c.Disconnect.events
  | Op.AddDataHandler _ => []
  | Op.removeDataHandler _ => []
  | Op.readLoopTurn rx => (readLoop.turn c rx).events
  | Op.readLoopReceived rx => (readLoop.received c rx).events
  | Op.writeLoopTurn sel sendErr =>
    (match writeLoop.turn c sel sendErr with
     | some r => r.events
     | none => [])
  | Op.handleMessage message => (c.handleMessage message).events
  | Op.start method params timeout =>
    (SendRequestWithTimeout.start c method params timeout).events
  | Op.await w sel =>
    (match SendRequestWithTimeout.await c w sel with
     | some r => r.events
     | none => [])
  | Op.SendNotification method params =>
    (match c.SendNotification method params with
     | some r => r.events
     | none => [])

/-- The calls made along a sequence of operations, oldest first. -/
def WebSocketClient.runEvents (c : WebSocketClient) : List Op → List Event
  | [] => []
  | op :: rest => c.stepEvents op ++ (c.step op).1.runEvents rest

/-! ## Invariants -/

/-- The request side of `c'` is that of `c`: the pending table, the id counter and the
response channels. -/
def SameRequestSide (c c' : WebSocketClient) : Prop :=
  c'.requests = c.requests ∧ c'.nextID = c.nextID ∧ c'.chans = c.chans ∧ c'.nextChan = c.nextChan

/-- The invariant of the request side.  Every pending entry sits under its own id, below
the counter; its response channel has been given out, is still as `make` left it, and
belongs to no other entry.  The outbound queue is the open channel of capacity 100. -/
structure WebSocketClient.WF (c : WebSocketClient) : Prop where
  id_lt : ∀ id req, c.requests id = some req → id < c.nextID
  id_eq : ∀ id req, c.requests id = some req → req.ID = id
  chan_lt : ∀ id req, c.requests id = some req → req.Response < c.nextChan
  chan_new : ∀ id req, c.requests id = some req → c.chans req.Response = Chan.make 1
  chan_inj : ∀ id id' req req', c.requests id = some req → c.requests id' = some req' →
    req.Response = req'.Response → id = id'
  send_open : c.sendChan.closed = false
  send_cap : c.sendChan.cap = 100

/-- The listener of `c'` is that of `c`, and, when there is one, the calls `events` made
on the way from `c` to `c'` have kept it informed of the state. -/
def StateTracked (c : WebSocketClient) (events : List Event) (c' : WebSocketClient) : Prop :=
  c'.listener = c.listener ∧ (∀ l, c.listener = some l → lastReported c.state events = c'.state)

/-- The outbound queue is an open channel of capacity 100. -/
def QueueOK (c : WebSocketClient) : Prop :=
  c.sendChan.closed = false ∧ c.sendChan.cap = 100

end websocket

/-! ## moonraker/client.go -/

namespace moonraker

open websocket

/-- The struct `Client`: the WebSocket client it wraps. -/
structure Client where
  wsClient : WebSocketClient

/-- `Client.CallMethod`; the pair returned is `(any, error)`, the nil result being
`Any.null`; `none` says that the call does not return (it waits, or it panics on a nil
pointer). -/
def Client.CallMethod (c : Client) (ctx : Context) (method : String) (params : Any)
    (inbound : List WebSocketMessage) (sel : SelectCase) : Option (Out (Any × Option GoError)) :=
  match c.wsClient.Request ctx method params inbound sel with
  | none => none
  | some r =>
    match r.ret with
    | (_, some err) => some { ret := (Any.null, some err), client := r.client, events := r.events }
    | (some response, none) =>
      if response.IsError then
        match response.Error with
        | some e =>
          some
            { ret := (Any.null, some (GoError.RPC { Code := e.Code, Message := e.Message, Data := e.Data }))
              client := r.client
              events := r.events }
        | none => none
      else some { ret := (response.Result, none), client := r.client, events := r.events }
    | (none, none) => none

/-- `Client.CallMethod` with the clock: the `select` of the request is taken `elapsed`
nanoseconds after it was entered. -/
def Client.CallMethod.timed (c : Client) (ctx : Context) (method : String) (params : Any)
    (inbound : List WebSocketMessage) (elapsed : Int) (sel : SelectCase) :
    Option (Out (Any × Option GoError)) :=
  match WebSocketClient.Request.timed c.wsClient ctx method params inbound elapsed sel with
  | none => none
  | some r =>
    match r.ret with
    | (_, some err) => some { ret := (Any.null, some err), client := r.client, events := r.events }
    | (some response, none) =>
      if response.IsError then
        match response.Error with
        | some e =>
          some
            { ret := (Any.null, some (GoError.RPC { Code := e.Code, Message := e.Message, Data := e.Data }))
              client := r.client
              events := r.events }
        | none => none
      else some { ret := (response.Result, none), client := r.client, events := r.events }
    | (none, none) => none

end moonraker

/-! ## Validation of the configuration (config.go) -/

namespace websocket

/-- Whether the value is a string. -/
def Any.isString : Any → Bool
  | Any.str _ => true
  | _ => false

/-- Whether the value is null or an array whose elements are all strings. -/
def Any.isNullOrStrings : Any → Bool
  | Any.null => true
  | Any.arr items => items.all Any.isString
  | _ => false

end websocket

namespace config

open websocket

/-- The two functions of Go's standard library that the configuration code calls and
that are taken as given here: `strings.ToLower`, and `json.Unmarshal` into a
`map[string]any`, which gives the members of the object that the text denotes (each
name once), or an error. -/
structure Stdlib where
  ToLower : String → String
  Unmarshal : String → Except GoError (List (String × Any))

/-- Go `unicode.IsSpace`: the characters with the Unicode property White_Space. -/
def IsSpace (c : Char) : Bool :=
  let n := c.toNat
  (decide (9 ≤ n) && decide (n ≤ 13)) || n == 32 || n == 0x85 || n == 0xA0 || n == 0x1680 ||
    (decide (0x2000 ≤ n) && decide (n ≤ 0x200A)) || n == 0x2028 || n == 0x2029 || n == 0x202F ||
    n == 0x205F || n == 0x3000

/-- Go `strings.TrimSpace`: the string without its leading and trailing white space (the
string being valid UTF-8). -/
def TrimSpace (s : String) : String :=
  String.mk ((s.toList.dropWhile IsSpace).reverse.dropWhile IsSpace).reverse

/-- Go `strings.HasPrefix`. -/
def HasPrefix (s p : String) : Bool := p.toList.isPrefixOf s.toList

/-- Go `strings.HasSuffix`. -/
def HasSuffix (s p : String) : Bool := p.toList.isSuffixOf s.toList

/-- Go `fmt.Errorf` with a format without `%w`: the error that has the formatted text. -/
def newError (text : String) : GoError := GoError.External text

/-- What the verb `%T` prints for a value that `json.Unmarshal` stored in an `any`. -/
def typeName : Any → String
  | Any.null => "<nil>"
  | Any.bool _ => "bool"
  | Any.num _ => "float64"
  | Any.str _ => "string"
  | Any.arr _ => "[]interface \x7b\x7d"
  | Any.obj _ => "map[string]interface \x7b\x7d"

/-- The map that `GetMonitoredObjects` returns for an empty setting. -/
def defaultMonitoredObjects : List (String × Any) :=
  [("print_stats", Any.null),
   ("toolhead", Any.arr [Any.str "position"]),
   ("extruder", Any.arr [Any.str "temperature", Any.str "target"]),
   ("heater_bed", Any.arr [Any.str "temperature", Any.str "target"])]

/-- The inner loop of `GetMonitoredObjects` over the items of one array, from the index
`i` on: the error of the first item that is not a string. -/
def checkFields (objectName : String) : Nat → List Any → Option GoError
  | _, [] => none
  | i, item :: rest =>
    match item with
    | Any.str _ => checkFields objectName (i + 1) rest
    | _ =>
      some
        (newError
          ("monitored object \x27" ++ objectName ++ "\x27 field " ++ toString i ++
            " must be a string, got " ++ typeName item))

/-- The loop `for objectName, objectValue := range objects` of `GetMonitoredObjects`, in
the order of the list (Go leaves the order of a `range` over a map open). -/
def checkObjects : List (String × Any) → Option GoError
  | [] => none
  | (objectName, objectValue) :: rest =>
    match objectValue with
    | Any.null => checkObjects rest
    | Any.arr v =>
      match checkFields objectName 0 v with
      | some err => some err
      | none => checkObjects rest
    | v =>
      some
        (newError
          ("monitored object \x27" ++ objectName ++
            "\x27 must be null or an array of strings, got " ++ typeName v))

/-- `MoonrakerConfig.GetMonitoredObjects`. -/
def MoonrakerConfig.GetMonitoredObjects (lib : Stdlib) (m : MoonrakerConfig) :
    Except GoError (List (String × Any)) :=
  if m.MonitoredObjects = "" then Except.ok defaultMonitoredObjects
  else
    let trimmed := TrimSpace m.MonitoredObjects
    if !HasPrefix trimmed "\x7b" || !HasSuffix trimmed "\x7d" then
      Except.error (newError ("monitored objects must be a valid JSON object, got: " ++ trimmed))
    else
      match lib.Unmarshal trimmed with
      | Except.error err =>
        Except.error (GoError.Errorf "failed to parse monitored objects JSON: %w" err)
      | Except.ok objects =>
        match checkObjects objects with
        | some err => Except.error err
        | none => Except.ok objects

/-- The struct `MQTTConfig` of struct.go; `QoS` is a `byte`. -/
structure MQTTConfig where
  Host : String
  Port : Int
  Username : String
  Password : String
  UseTLS : Bool
  ClientID : String
  TopicPrefix : String
  QoS : Nat
  Retain : Bool
  AutoReconnect : Bool
  MaxReconnectAttempts : Int
  CommandsEnabled : Bool
deriving DecidableEq, Repr

/-- The struct `LoggingConfig` of struct.go. -/
structure LoggingConfig where
  Level : String
  Format : String
deriving DecidableEq, Repr

/-- The struct `Config` of struct.go. -/
structure Config where
  Environment : String
  Moonraker : MoonrakerConfig
  MQTT : MQTTConfig
  Logging : LoggingConfig
deriving DecidableEq, Repr

/-- `DefaultConfig`. -/
def DefaultConfig : Config :=
  { Environment := "development"
    Moonraker :=
      { Host := "localhost"
        Port := 7125
        APIKey := ""
        SSL := false
        Timeout := DEFAULT_REQUEST_TIMEOUT
        AutoReconnect := true
        MaxReconnectAttempts := DEFAULT_MAX_RECONNECT_ATTEMPTS
        CallInterval := 2
        MonitoredObjects :=
          "\x7b\"print_stats\":null,\"toolhead\":[\"position\"],\"extruder\":[\"temperature\",\"target\"],\"heater_bed\":[\"temperature\",\"target\"]\x7d" }
    MQTT :=
      { Host := "localhost"
        Port := 1883
        Username := ""
        Password := ""
        UseTLS := false
        ClientID := "moonraker2mqtt"
        TopicPrefix := "moonraker"
        QoS := 0
        Retain := false
        AutoReconnect := true
        MaxReconnectAttempts := DEFAULT_MAX_RECONNECT_ATTEMPTS
        CommandsEnabled := true }
    Logging := { Level := "info", Format := "text" } }

/-- `MoonrakerConfig.Validate`; `none` is the nil error. -/
def MoonrakerConfig.Validate (lib : Stdlib) (m : MoonrakerConfig) : Option GoError :=
  if TrimSpace m.Host = "" then some (newError "moonraker host cannot be empty")
  else if m.Port ≤ 0 ∨ m.Port > 65535 then
    some (newError ("moonraker port must be between 1 and 65535, got " ++ toString m.Port))
  else if m.Timeout ≤ 0 then
    some (newError ("moonraker timeout must be positive, got " ++ toString m.Timeout))
  else if m.MaxReconnectAttempts < 0 then
    some
      (newError
        ("moonraker max reconnect attempts must be non-negative, got " ++
          toString m.MaxReconnectAttempts))
  else if m.CallInterval ≤ 0 then
    some (newError ("moonraker call interval must be positive, got " ++ toString m.CallInterval))
  else if m.MonitoredObjects ≠ "" then
    match m.GetMonitoredObjects lib with
    | Except.error err => some (GoError.Errorf "invalid monitored objects: %w" err)
    | Except.ok _ => none
  else none

/-- `MQTTConfig.Validate`. -/
def MQTTConfig.Validate (m : MQTTConfig) : Option GoError :=
  if TrimSpace m.Host = "" then some (newError "mqtt host cannot be empty")
  else if m.Port ≤ 0 ∨ m.Port > 65535 then
    some (newError ("mqtt port must be between 1 and 65535, got " ++ toString m.Port))
  else if TrimSpace m.ClientID = "" then some (newError "mqtt client ID cannot be empty")
  else if TrimSpace m.TopicPrefix = "" then some (newError "mqtt topic prefix cannot be empty")
  else if m.QoS > 2 then
    some (newError ("mqtt QoS must be 0, 1, or 2, got " ++ toString m.QoS))
  else if m.MaxReconnectAttempts < 0 then
    some
      (newError
        ("mqtt max reconnect attempts must be non-negative, got " ++
          toString m.MaxReconnectAttempts))
  else if HasPrefix m.TopicPrefix "/" || HasSuffix m.TopicPrefix "/" then
    some
      (newError
        ("mqtt topic prefix should not start or end with \x27/\x27, got \x27" ++ m.TopicPrefix ++
          "\x27"))
  else none

def validLevels : List String := ["debug", "info", "warn", "warning", "error"]

def validFormats : List String := ["text", "json"]

def validEnvs : List String := ["development", "production", "testing"]

/-- `LoggingConfig.Validate`. -/
def LoggingConfig.Validate (lib : Stdlib) (l : LoggingConfig) : Option GoError :=
  let level := lib.ToLower l.Level
  if !validLevels.contains level then
    some
      (newError
        ("invalid log level \x27" ++ l.Level ++ "\x27, must be one of: " ++
          ", ".intercalate validLevels))
  else
    let format := lib.ToLower l.Format
    if !validFormats.contains format then
      some
        (newError
          ("invalid log format \x27" ++ l.Format ++ "\x27, must be one of: " ++
            ", ".intercalate validFormats))
    else none

/-- `Config.Validate`. -/
def Config.Validate (lib : Stdlib) (c : Config) : Option GoError :=
  match c.Moonraker.Validate lib with
  | some err => some (GoError.Errorf "moonraker config validation failed: %w" err)
  | none =>
    match c.MQTT.Validate with
    | some err => some (GoError.Errorf "mqtt config validation failed: %w" err)
    | none =>
      match c.Logging.Validate lib with
      | some err => some (GoError.Errorf "logging config validation failed: %w" err)
      | none =>
        if !validEnvs.contains c.Environment then
          some
            (newError
              ("invalid environment \x27" ++ c.Environment ++ "\x27, must be one of: " ++
                ", ".intercalate validEnvs))
        else none

/-- What the file system does during a call of `LoadOrCreateConfig`: whether `os.Stat`
reports that the file does not exist, what `SaveConfig` returns, and what `LoadConfig`
returns. -/
structure FileEnv where
  notExist : Bool
  saveErr : Option GoError
  loaded : Except GoError Config

/-- `LoadOrCreateConfig`. -/
def LoadOrCreateConfig (lib : Stdlib) (env : FileEnv) : Except GoError Config :=
  if env.notExist then
    let config := DefaultConfig
    match config.Validate lib with
    | some err => Except.error (GoError.Errorf "default config validation failed: %w" err)
    | none =>
      match env.saveErr with
      | some err => Except.error (GoError.Errorf "failed to save default config: %w" err)
      | none => Except.ok config
  else
    match env.loaded with
    | Except.error err => Except.error err
    | Except.ok config =>
      match config.Validate lib with
      | some err => Except.error (GoError.Errorf "config validation failed: %w" err)
      | none => Except.ok config

/-- A stand-in for the standard library on the texts of the examples: lower case for
ASCII letters, and a decoder that knows the default setting and the empty object. -/
def sampleLib : Stdlib :=
  { ToLower := fun s => String.mk (s.toList.map Char.toLower)
    Unmarshal := fun s =>
      if s = DefaultConfig.Moonraker.MonitoredObjects then Except.ok defaultMonitoredObjects
      else if s = "\x7b\x7d" then Except.ok []
      else if s = "\x7b\"toolhead\":\"position\"\x7d" then
        Except.ok [("toolhead", Any.str "position")]
      else Except.error (GoError.External "invalid character") }

end config

/-! ## Periodic monitoring (cmd/main.go) -/

namespace cmd

open websocket

/-- The struct `App`, as far as `periodicMonitoring` reads it. -/
structure App where
  config : config.Config

/-- Go `time.NewTicker(d)`, a ticker being known by its period; it panics (`none`) when
`d` is not positive. -/
def NewTicker (d : Int) : Option Int := if d ≤ 0 then none else some d

/-- The variables of `App.periodicMonitoring`: `consecutiveErrors`, and the period of
the ticker that `ticker` holds. -/
structure Monitoring where
  consecutiveErrors : Int
  ticker : Int
deriving DecidableEq, Repr

/-- The case `<-ticker.C` of the `select` of `App.periodicMonitoring`; `failed` says that
`publishStatus` returned an error.  The products are those of Go: `CallInterval*2` in
`int`, of 64 bits, and the product with `time.Second` in `time.Duration`. -/
def App.periodicMonitoring.tick (a : App) (s : Monitoring) (failed : Bool) : Option Monitoring :=
  let maxConsecutiveErrors : Int := 5
  if failed then
    let consecutiveErrors := s.consecutiveErrors + 1
    if consecutiveErrors ≥ maxConsecutiveErrors then
      match NewTicker (int64 (int64 (a.config.Moonraker.CallInterval * 2) * Second)) with
      | none => none
      | some ticker => some { consecutiveErrors := consecutiveErrors, ticker := ticker }
    else some { s with consecutiveErrors := consecutiveErrors }
  else if s.consecutiveErrors > 0 then
    match NewTicker (int64 (a.config.Moonraker.CallInterval * Second)) with
    | none => none
    | some ticker => some { consecutiveErrors := 0, ticker := ticker }
  else some s

/-- The loop of `App.periodicMonitoring` over the ticks that the `select` takes before
the context is done, each with the outcome of its `publishStatus`. -/
def App.periodicMonitoring.loop (a : App) (s : Monitoring) : List Bool → Option Monitoring
  | [] => some s
  | failed :: rest =>
    match App.periodicMonitoring.tick a s failed with
    | none => none
    | some s' => App.periodicMonitoring.loop a s' rest

/-- `App.periodicMonitoring`: the variables after the ticks; `none` is a panic. -/
def App.periodicMonitoring (a : App) (outcomes : List Bool) : Option Monitoring :=
  match NewTicker (int64 (a.config.Moonraker.CallInterval * Second)) with
  | none => none
  | some ticker =>
    App.periodicMonitoring.loop a { consecutiveErrors := 0, ticker := ticker } outcomes

/-- The length of the run of failures that the outcomes end with. -/
def failureStreak (outcomes : List Bool) : Nat := (outcomes.reverse.takeWhile id).length

/-- An application with the default configuration. -/
def sampleApp : App := { config := config.DefaultConfig }

end cmd

/-! ## Sample values -/

namespace websocket

/-- A configuration with auto-reconnect and no bound on the attempts. -/
def sampleConfig : config.MoonrakerConfig :=
  { Host := "localhost", Port := 7125, APIKey := "", SSL := false, Timeout := 30
    AutoReconnect := true, MaxReconnectAttempts := 0, CallInterval := 2, MonitoredObjects := "" }

/-- An environment in which the dial succeeds. -/
def dialOk : ConnectEnv :=
  { parseErr := none, configErr := none, dial := DialOutcome.connected { fd := 3 } }

/-- An environment in which the dial fails. -/
def dialRefused : ConnectEnv :=
  { parseErr := none, configErr := none
    dial := DialOutcome.failed (GoError.External "connection refused") }

/-- A client as `NewWebSocketClient` makes it, with a listener. -/
def freshClient : WebSocketClient := NewWebSocketClient sampleConfig (some { name := 0 })

/-- A turn of the reconnection loop under a live context, the dial failing. -/
def turnRefused : LoopEnv :=
  { ctxDone := false, waitCtx := none, ctxErr := none, connect := dialRefused }

/-- A client made with auto-reconnect and at most three reconnection attempts. -/
def boundedClient : WebSocketClient :=
  NewWebSocketClient { sampleConfig with MaxReconnectAttempts := 3 } (some { name := 0 })

/-- The fresh client after a `Connect` that succeeds. -/
def connectedClient : WebSocketClient := (freshClient.Connect dialOk).client

/-- The connected client after the start of its first request, `printer.info`. -/
def waitingClient : WebSocketClient :=
  (WebSocketClient.SendRequestWithTimeout.start connectedClient "printer.info" Any.null
    (30 * Second)).client

/-- The response frame with id 1 whose result is the object with the one member
`"klippy_state": "ready"`. -/
def readyFrame : WebSocketMessage :=
  { JSONRPC := "2.0", Method := "", Params := Any.null, ID := some 1
    Result := Any.obj [("klippy_state", Any.str "ready")], Error := none }

/-- The connected client with 100 notifications in its outbound queue. -/
def fullClient : WebSocketClient :=
  (connectedClient.run (List.replicate 100 (Op.SendNotification "ping" Any.null))).1

/-- A context that is live when the call starts and is cancelled during the call. -/
def cancelledLater : Context := { Err := none, doneLater := some GoError.Canceled }

/-- A context that is cancelled already when the call starts. -/
def cancelledBefore : Context := { Err := some GoError.Canceled, doneLater := none }

/-- The response frame with id 1 and an RPC error. -/
def errorFrame : WebSocketMessage :=
  { JSONRPC := "2.0", Method := "", Params := Any.null, ID := some 1, Result := Any.null
    Error := some { Code := -32601, Message := "Method not found", Data := Any.null } }

/-- A context that is never cancelled. -/
def background : Context := { Err := none, doneLater := none }

/-- The outbound queue of a client that has been constructed, has connected, and has
started one request. -/
def firstRequestQueue (cfg : config.MoonrakerConfig) (listener : Option StatusListener)
    (conn : Conn) (method : String) (params : Any) (timeout : Int) : List WebSocketMessage :=
  (WebSocketClient.SendRequestWithTimeout.start
    ((NewWebSocketClient cfg listener).Connect
      { parseErr := none, configErr := none, dial := DialOutcome.connected conn }).client
    method params timeout).client.sendChan.buf

/-- A turn of the reconnection loop under a live context, the dial succeeding. -/
def turnOk : LoopEnv :=
  { ctxDone := false, waitCtx := none, ctxErr := none, connect := dialOk }

/-- A fresh client whose retry state has counted five attempts. -/
def wornClient : WebSocketClient :=
  { freshClient with
    retry := { enabled := true, maxAttempts := 0, currentDelay := 16 * Second, attempt := 5 } }

/-- The connected client after its read loop has met a receive error. -/
def droppedClient : WebSocketClient :=
  (WebSocketClient.readLoop.received connectedClient
    (Received.failed (GoError.External "connection reset by peer"))).client

/-- A client made without auto-reconnect, after a `Connect` that succeeds. -/
def plainConnectedClient : WebSocketClient :=
  ((NewWebSocketClient { sampleConfig with AutoReconnect := false } (some { name := 0 })).Connect
    dialOk).client

/-- The notification frame `notify_status_update` of the toolhead position. -/
def statusFrame : WebSocketMessage :=
  { JSONRPC := "2.0", Method := "notify_status_update"
    Params := Any.obj [("toolhead", Any.obj [("position", Any.arr [Any.num 0, Any.num 0, Any.num 0, Any.num 0])])]
    ID := none, Result := Any.null, Error := none }

/-- A connected client whose configuration asks for a request timeout of 5 seconds. -/
def shortTimeoutClient : WebSocketClient :=
  ((NewWebSocketClient { sampleConfig with Timeout := 5 } none).Connect dialOk).client

/-- A client made with an API key, not yet connected. -/
def keyedClient : WebSocketClient :=
  NewWebSocketClient { sampleConfig with APIKey := "s3cret", SSL := true } none

/-- What `Request` returns to the connected client when the answer `readyFrame` arrives
while the call waits. -/
def answeredCall : Out (Option WebSocketResponse × Option GoError) :=
  (connectedClient.Request background "printer.info" Any.null [readyFrame]
    SelectCase.response).get rfl

/-- The frame `readyFrame` with the method of a notification added. -/
def hybridFrame : WebSocketMessage := { readyFrame with Method := "notify_status_update" }

end websocket

/-! # Properties -/

namespace websocket

/-! ## Frame lemmas: what the connection side leaves alone -/

theorem SameRequestSide.refl (c : WebSocketClient) : SameRequestSide c c :=
  ⟨rfl, rfl, rfl, rfl⟩

theorem SameRequestSide.trans {a b c : WebSocketClient} (h₁ : SameRequestSide a b)
    (h₂ : SameRequestSide b c) : SameRequestSide a c :=
  ⟨h₂.1.trans h₁.1, h₂.2.1.trans h₁.2.1, h₂.2.2.1.trans h₁.2.2.1, h₂.2.2.2.trans h₁.2.2.2⟩

theorem setState_side (c : WebSocketClient) (s : String) : SameRequestSide c (c.setState s).1 :=
  ⟨rfl, rfl, rfl, rfl⟩

theorem connectOnce_side (c : WebSocketClient) (env : ConnectEnv) :
    SameRequestSide c (c.connectOnce env).client := by
  unfold WebSocketClient.connectOnce
  split
  · exact SameRequestSide.refl c
  · rcases env with ⟨p, q, d⟩
    cases p <;> cases q <;> cases d <;> exact ⟨rfl, rfl, rfl, rfl⟩

theorem Connect_side (c : WebSocketClient) (env : ConnectEnv) :
    SameRequestSide c (c.Connect env).client := by
  have h := connectOnce_side c env
  unfold WebSocketClient.Connect
  simp only
  split
  · exact h
  · split <;> exact h

theorem reconnectLoop_side (envs : List LoopEnv) :
    ∀ (c : WebSocketClient) (o : LoopOut), c.reconnectLoop envs = some o →
      SameRequestSide c o.client := by
  induction envs with
  | nil => intro c o h; simp [WebSocketClient.reconnectLoop] at h
  | cons env rest ih =>
    intro c o h
    unfold WebSocketClient.reconnectLoop at h
    split at h
    · cases h; exact SameRequestSide.refl c
    · split at h
      · cases h; exact SameRequestSide.refl c
      · simp only at h
        split at h
        · cases h; exact ⟨rfl, rfl, rfl, rfl⟩
        · split at h
          · cases h; exact ⟨rfl, rfl, rfl, rfl⟩
          · have hc := connectOnce_side
              { c with retry := (c.retry.WaitBeforeReconnect env.waitCtx).retry } env.connect
            split at h
            · cases h; exact hc
            · split at h
              · cases h
              · rename_i o' ho'
                cases h
                exact SameRequestSide.trans hc (ih _ o' ho')

theorem Disconnect_side (c : WebSocketClient) : SameRequestSide c c.Disconnect.client := by
  unfold WebSocketClient.Disconnect
  split
  · exact SameRequestSide.refl c
  · simp only [WebSocketClient.setState]
    split <;> split <;> exact ⟨rfl, rfl, rfl, rfl⟩

theorem readLoop_received_side (c : WebSocketClient) (rx : Received)
    (h : ∀ m, rx ≠ Received.frame m) :
    SameRequestSide c (WebSocketClient.readLoop.received c rx).client := by
  cases rx with
  | frame m => exact absurd rfl (h m)
  | eof => exact ⟨rfl, rfl, rfl, rfl⟩
  | failed err => exact ⟨rfl, rfl, rfl, rfl⟩

theorem readLoop_turn_side (c : WebSocketClient) (rx : Received)
    (h : ∀ m, rx ≠ Received.frame m) : SameRequestSide c (WebSocketClient.readLoop.turn c rx).client := by
  unfold WebSocketClient.readLoop.turn
  split
  · exact SameRequestSide.refl c
  · exact readLoop_received_side c rx h

theorem writeLoop_turn_side (c : WebSocketClient) (sel : WriteCase) (sendErr : Option GoError)
    (r : Out Turn) (h : WebSocketClient.writeLoop.turn c sel sendErr = some r) :
    SameRequestSide c r.client := by
  unfold WebSocketClient.writeLoop.turn at h
  cases sel with
  | closed =>
    simp only at h
    split at h
    · cases h; exact SameRequestSide.refl c
    · cases h
  | message =>
    simp only at h
    split at h
    · cases h
    · cases sendErr <;> (cases h; exact ⟨rfl, rfl, rfl, rfl⟩)

theorem SendNotification_side (c : WebSocketClient) (method : String) (params : Any)
    (r : Out (Option GoError)) (h : c.SendNotification method params = some r) :
    SameRequestSide c r.client := by
  unfold WebSocketClient.SendNotification at h
  split at h
  · cases h; exact SameRequestSide.refl c
  · simp only at h
    split at h
    · cases h; exact ⟨rfl, rfl, rfl, rfl⟩
    · cases h; exact SameRequestSide.refl c
    · cases h

/-! ## The id counter -/

theorem handleMessage_nextID (c : WebSocketClient) (message : WebSocketMessage) :
    (c.handleMessage message).client.nextID = c.nextID := by
  unfold WebSocketClient.handleMessage
  split
  · split
    · simp only
      split
      · split <;> rfl
      · rfl
      · rfl
    · rfl
  · split <;> rfl

theorem await_nextID (c : WebSocketClient) (w : Waiter) (sel : SelectCase)
    (r : Out (Option WebSocketMessage × Option GoError))
    (h : WebSocketClient.SendRequestWithTimeout.await c w sel = some r) :
    r.client.nextID = c.nextID := by
  unfold WebSocketClient.SendRequestWithTimeout.await at h
  cases sel with
  | response =>
    simp only at h
    split at h
    · cases h
    · split at h <;> (cases h; rfl)
  | timer => cases h; rfl

/-- What the start of `SendRequestWithTimeout` does to the id counter. -/
theorem start_nextID (c : WebSocketClient) (method : String) (params : Any) (timeout : Int) :
    (c.GetState ≠ WEB_SOCKET_STATE_CONNECTED →
      (WebSocketClient.SendRequestWithTimeout.start c method params timeout).ret.req? = none ∧
      (WebSocketClient.SendRequestWithTimeout.start c method params timeout).client = c) ∧
    (c.GetState = WEB_SOCKET_STATE_CONNECTED →
      ∃ req, (WebSocketClient.SendRequestWithTimeout.start c method params timeout).ret.req? = some req ∧
        req.ID = c.nextID ∧
        (WebSocketClient.SendRequestWithTimeout.start c method params timeout).client.nextID
          = c.nextID + 1) := by
  constructor
  · intro h
    simp [WebSocketClient.SendRequestWithTimeout.start, h, Started.req?]
  · intro h
    unfold WebSocketClient.SendRequestWithTimeout.start
    simp only [h, ne_eq, not_true_eq_false, if_false]
    split <;> exact ⟨_, rfl, rfl, rfl⟩

/-- One operation either registers a request under the current value of the counter and
adds one to the counter, or leaves the counter alone. -/
theorem step_nextID (c : WebSocketClient) (op : Op) :
    ((c.step op).2 = none ∧ (c.step op).1.nextID = c.nextID) ∨
    (∃ req, (c.step op).2 = some req ∧ req.ID = c.nextID ∧ (c.step op).1.nextID = c.nextID + 1) := by
  cases op with
  | Connect env => exact Or.inl ⟨rfl, (Connect_side c env).2.1⟩
  | connectOnce env => exact Or.inl ⟨rfl, (connectOnce_side c env).2.1⟩
  | reconnectLoop envs =>
    refine Or.inl ⟨rfl, ?_⟩
    simp only [WebSocketClient.step]
    cases h : c.reconnectLoop envs with
    | none => rfl
    | some o => exact (reconnectLoop_side envs c o h).2.1
  | Disconnect => exact Or.inl ⟨rfl, (Disconnect_side c).2.1⟩
  | AddDataHandler handler => exact Or.inl ⟨rfl, rfl⟩
  | removeDataHandler handler => exact Or.inl ⟨rfl, rfl⟩
  | readLoopTurn rx =>
    refine Or.inl ⟨rfl, ?_⟩
    cases rx with
    | frame m =>
      simp only [WebSocketClient.step, WebSocketClient.readLoop.turn]
      split
      · rfl
      · exact handleMessage_nextID c m
    | eof => exact (readLoop_turn_side c Received.eof (by intro m h; cases h)).2.1
    | failed err => exact (readLoop_turn_side c (Received.failed err) (by intro m h; cases h)).2.1
  | readLoopReceived rx =>
    refine Or.inl ⟨rfl, ?_⟩
    cases rx with
    | frame m => exact handleMessage_nextID c m
    | eof => exact (readLoop_received_side c Received.eof (by intro m h; cases h)).2.1
    | failed err =>
      exact (readLoop_received_side c (Received.failed err) (by intro m h; cases h)).2.1
  | writeLoopTurn sel sendErr =>
    refine Or.inl ⟨rfl, ?_⟩
    simp only [WebSocketClient.step]
    cases h : WebSocketClient.writeLoop.turn c sel sendErr with
    | none => rfl
    | some r => exact (writeLoop_turn_side c sel sendErr r h).2.1
  | handleMessage message => exact Or.inl ⟨rfl, handleMessage_nextID c message⟩
  | start method params timeout =>
    by_cases h : c.GetState = WEB_SOCKET_STATE_CONNECTED
    · exact Or.inr ((start_nextID c method params timeout).2 h)
    · have := (start_nextID c method params timeout).1 h
      exact Or.inl ⟨this.1, by simp [WebSocketClient.step, this.2]⟩
  | await w sel =>
    refine Or.inl ⟨rfl, ?_⟩
    simp only [WebSocketClient.step]
    cases h : WebSocketClient.SendRequestWithTimeout.await c w sel with
    | none => rfl
    | some r => exact await_nextID c w sel r h
  | SendNotification method params =>
    refine Or.inl ⟨rfl, ?_⟩
    simp only [WebSocketClient.step]
    cases h : c.SendNotification method params with
    | none => rfl
    | some r => exact (SendNotification_side c method params r h).2.1

/-- The ids that a run assigns are the successive values of the counter. -/
theorem run_ids (ops : List Op) :
    ∀ c : WebSocketClient,
      (c.run ops).2 = (List.range (c.run ops).2.length).map (fun i : Nat => c.nextID + (i : Int)) ∧
      (c.run ops).1.nextID = c.nextID + ((c.run ops).2.length : Int) := by
  induction ops with
  | nil => intro c; simp [WebSocketClient.run]
  | cons op rest ih =>
    intro c
    have hi := ih (c.step op).1
    rcases step_nextID c op with ⟨h2, h1⟩ | ⟨req, h2, hid, h1⟩
    · simp only [WebSocketClient.run, h2]
      rw [h1] at hi
      exact hi
    · simp only [WebSocketClient.run, h2]
      rw [h1] at hi
      constructor
      · rw [List.length_cons, List.range_succ_eq_map, List.map_cons, List.map_map]
        refine congrArg₂ _ ?_ ?_
        · simp [hid]
        · conv_lhs => rw [hi.1]
          apply List.map_congr_left
          intro i _
          simp only [Function.comp, Nat.succ_eq_add_one]
          push_cast
          ring
      · rw [hi.2, List.length_cons]
        push_cast
        ring

/-- C1: in every run of operations on one client the correlation ids given to the calls
of `SendRequestWithTimeout` are strictly increasing, hence pairwise distinct; they are
the successive values of `nextID`, each call made in state Connected taking the current
value and adding exactly one; and the ids of a freshly constructed client start at 1. -/
theorem C1_correlation_ids_strictly_increasing (c : WebSocketClient) (ops : List Op)
    (cfg : config.MoonrakerConfig) (listener : Option StatusListener)
    (method : String) (params : Any) (timeout : Int) :
    List.Pairwise (· < ·) (c.run ops).2 ∧
    (c.run ops).2.Nodup ∧
    (c.run ops).2 = (List.range (c.run ops).2.length).map (fun i : Nat => c.nextID + (i : Int)) ∧
    (c.state = WEB_SOCKET_STATE_CONNECTED →
      ∃ req,
        (WebSocketClient.SendRequestWithTimeout.start c method params timeout).ret.req? = some req ∧
        req.ID = c.nextID ∧
        (WebSocketClient.SendRequestWithTimeout.start c method params timeout).client.nextID
          = c.nextID + 1) ∧
    ((NewWebSocketClient cfg listener).run ops).2
      = (List.range ((NewWebSocketClient cfg listener).run ops).2.length).map
          (fun i : Nat => 1 + (i : Int)) := by
  have hlt : List.Pairwise (· < ·) (c.run ops).2 := by
    rw [(run_ids ops c).1]
    refine (List.pairwise_map).2 ?_
    refine List.Pairwise.imp ?_ (List.pairwise_lt_range _)
    intro a b hab
    have : (a : Int) < (b : Int) := by exact_mod_cast hab
    linarith
  refine ⟨hlt, ?_, (run_ids ops c).1, ?_, ?_⟩
  · exact hlt.imp (fun h => ne_of_lt h)
  · intro h
    exact (start_nextID c method params timeout).2 h
  · exact (run_ids ops (NewWebSocketClient cfg listener)).1

/-- C1 at the connected sample client: its first request gets the id 1. -/
theorem C1_correlation_ids_witness :
    connectedClient.state = WEB_SOCKET_STATE_CONNECTED ∧
    ∃ req,
      (WebSocketClient.SendRequestWithTimeout.start connectedClient "printer.info" Any.null
        Second).ret.req? = some req ∧
      req.ID = 1 ∧
      (WebSocketClient.SendRequestWithTimeout.start connectedClient "printer.info" Any.null
        Second).client.nextID = 1 + 1 :=
  ⟨by decide,
    (C1_correlation_ids_strictly_increasing connectedClient [] sampleConfig none "printer.info"
      Any.null Second).2.2.2.1 (by decide)⟩

/-- C2: when the state is not Connected, `SendRequestWithTimeout` returns the
`ClientNotConnectedError` at once and leaves the client exactly as it was: the queue,
the pending table and `nextID` are those of before, and no callback is made. -/
theorem C2_not_connected_fails_unchanged (c : WebSocketClient) (method : String) (params : Any)
    (timeout : Int) (inbound : List WebSocketMessage) (sel : SelectCase)
    (h : c.state ≠ WEB_SOCKET_STATE_CONNECTED) :
    WebSocketClient.SendRequestWithTimeout.start c method params timeout
      = { ret := Started.notConnected (GoError.ClientNotConnectedError "not connected")
          client := c
          events := [] } ∧
    c.SendRequestWithTimeout method params timeout inbound sel
      = some
          { ret := (none, some (GoError.ClientNotConnectedError "not connected"))
            client := c
            events := [] } := by
  have hs : WebSocketClient.SendRequestWithTimeout.start c method params timeout
      = { ret := Started.notConnected (GoError.ClientNotConnectedError "not connected")
          client := c
          events := [] } := by
    simp [WebSocketClient.SendRequestWithTimeout.start, WebSocketClient.GetState, h,
      NewWebSocketNotConnectedError]
  refine ⟨hs, ?_⟩
  simp [WebSocketClient.SendRequestWithTimeout, hs]

/-- C2 at the fresh sample client, whose state is Stopped. -/
theorem C2_not_connected_witness :
    freshClient.state ≠ WEB_SOCKET_STATE_CONNECTED ∧
    freshClient.SendRequestWithTimeout "printer.info" Any.null Second [] SelectCase.timer
      = some
          { ret := (none, some (GoError.ClientNotConnectedError "not connected"))
            client := freshClient
            events := [] } :=
  ⟨by decide,
    (C2_not_connected_fails_unchanged freshClient "printer.info" Any.null Second []
      SelectCase.timer (by decide)).2⟩

/-! ## The invariant of the request side -/

theorem WF_new (cfg : config.MoonrakerConfig) (listener : Option StatusListener) :
    (NewWebSocketClient cfg listener).WF :=
  { id_lt := by intro id req h; simp [NewWebSocketClient] at h
    id_eq := by intro id req h; simp [NewWebSocketClient] at h
    chan_lt := by intro id req h; simp [NewWebSocketClient] at h
    chan_new := by intro id req h; simp [NewWebSocketClient] at h
    chan_inj := by intro id id' req req' h; simp [NewWebSocketClient] at h
    send_open := rfl
    send_cap := rfl }

/-- The invariant passes to a client whose table is a part of the old one, whose counters
have not gone back, and whose channels are the old ones where the table points. -/
theorem WebSocketClient.WF.mono {c c' : WebSocketClient} (h : c.WF)
    (hsub : ∀ id req, c'.requests id = some req → c.requests id = some req)
    (hid : c.nextID ≤ c'.nextID) (hnc : c.nextChan ≤ c'.nextChan)
    (hch : ∀ id req, c'.requests id = some req → c'.chans req.Response = c.chans req.Response)
    (hopen : c'.sendChan.closed = false) (hcap : c'.sendChan.cap = 100) : c'.WF :=
  { id_lt := fun id req hr => lt_of_lt_of_le (h.id_lt id req (hsub id req hr)) hid
    id_eq := fun id req hr => h.id_eq id req (hsub id req hr)
    chan_lt := fun id req hr => lt_of_lt_of_le (h.chan_lt id req (hsub id req hr)) hnc
    chan_new := fun id req hr => (hch id req hr).trans (h.chan_new id req (hsub id req hr))
    chan_inj := fun id id' req req' hr hr' => h.chan_inj id id' req req' (hsub id req hr) (hsub id' req' hr')
    send_open := hopen
    send_cap := hcap }

theorem WebSocketClient.WF.of_side {c c' : WebSocketClient} (h : c.WF) (hs : SameRequestSide c c')
    (hopen : c'.sendChan.closed = false) (hcap : c'.sendChan.cap = 100) : c'.WF :=
  h.mono (fun id req hr => by rw [← hs.1]; exact hr) (le_of_eq hs.2.1.symm) (le_of_eq hs.2.2.2.symm)
    (fun id req _ => by rw [hs.2.2.1]) hopen hcap

theorem mapDelete_some {κ ν : Type} [DecidableEq κ] {m : κ → Option ν} {k k' : κ} {v : ν}
    (h : mapDelete m k k' = some v) : k' ≠ k ∧ m k' = some v := by
  unfold mapDelete at h
  split at h
  · cases h
  · exact ⟨by assumption, h⟩

theorem mapDelete_self {κ ν : Type} [DecidableEq κ] (m : κ → Option ν) (k : κ) :
    mapDelete m k k = none := by
  simp [mapDelete]

theorem mapDelete_other {κ ν : Type} [DecidableEq κ] (m : κ → Option ν) {k k' : κ} (h : k' ≠ k) :
    mapDelete m k k' = m k' := by
  simp [mapDelete, h]

theorem mapDelete_absent {κ ν : Type} [DecidableEq κ] (m : κ → Option ν) (k : κ) (h : m k = none) :
    mapDelete m k = m := by
  funext k'
  unfold mapDelete
  split
  · rename_i hk; rw [hk, h]
  · rfl

theorem mapDelete_mapSet {κ ν : Type} [DecidableEq κ] (m : κ → Option ν) (k : κ) (v : ν)
    (h : m k = none) : mapDelete (mapSet m k v) k = m := by
  funext k'
  unfold mapDelete mapSet
  split
  · rename_i hk; rw [hk, h]
  · rename_i hk; simp [hk]

/-- What `handleMessage` does with a frame whose id is pending, the response channel of
the entry being as `make` left it. -/
theorem handleMessage_found (c : WebSocketClient) (message : WebSocketMessage) (id : Int)
    (req : WebSocketRequest) (hid : message.ID = some id) (hreq : c.requests id = some req)
    (hch : c.chans req.Response = Chan.make 1) :
    c.handleMessage message
      = { ret := none
          client :=
            { c with
              requests := mapDelete c.requests id
              chans := chanStore c.chans req.Response
                { cap := 1, buf := [{ Result := message.Result, Error := message.Error }]
                  closed := true } }
          events := [] } := by
  unfold WebSocketClient.handleMessage
  simp [hid, hreq, hch, Chan.make, Chan.send, Chan.close]

/-- What `handleMessage` does with a frame whose id is not pending: nothing. -/
theorem handleMessage_missing (c : WebSocketClient) (message : WebSocketMessage) (id : Int)
    (hid : message.ID = some id) (hreq : c.requests id = none) :
    c.handleMessage message = { ret := none, client := c, events := [] } := by
  unfold WebSocketClient.handleMessage
  simp [hid, hreq]

/-- What `handleMessage` does with a frame that has no id. -/
theorem handleMessage_no_id (c : WebSocketClient) (message : WebSocketMessage)
    (hid : message.ID = none) :
    (c.handleMessage message).ret = none ∧ (c.handleMessage message).client = c := by
  unfold WebSocketClient.handleMessage
  simp only [hid]
  split <;> exact ⟨rfl, rfl⟩

theorem handleMessage_WF (c : WebSocketClient) (message : WebSocketMessage) (h : c.WF) :
    (c.handleMessage message).client.WF ∧ (c.handleMessage message).ret = none := by
  cases hid : message.ID with
  | none =>
    have := handleMessage_no_id c message hid
    rw [this.2]
    exact ⟨h, this.1⟩
  | some id =>
    cases hreq : c.requests id with
    | none =>
      rw [handleMessage_missing c message id hid hreq]
      exact ⟨h, rfl⟩
    | some req =>
      rw [handleMessage_found c message id req hid hreq (h.chan_new id req hreq)]
      refine ⟨h.mono ?_ (le_refl _) (le_refl _) ?_ h.send_open h.send_cap, rfl⟩
      · intro id' req' hr
        exact (mapDelete_some hr).2
      · intro id' req' hr
        have hr' := mapDelete_some hr
        have hne : req'.Response ≠ req.Response := by
          intro he
          exact hr'.1 (h.chan_inj id' id req' req hr'.2 hreq he)
        simp [chanStore, hne]


/-- The start of `SendRequestWithTimeout` on a connected client whose queue has room. -/
theorem start_waiting (c : WebSocketClient) (method : String) (params : Any) (timeout : Int)
    (hs : c.state = WEB_SOCKET_STATE_CONNECTED) (hopen : c.sendChan.closed = false)
    (hroom : c.sendChan.buf.length < c.sendChan.cap) :
    WebSocketClient.SendRequestWithTimeout.start c method params timeout
      = { ret := Started.waiting
            { req := { ID := c.nextID, Method := method, Params := params
                       Response := c.nextChan, timeout := 0 }
              timeout := timeout }
          client :=
            { c with
              nextID := c.nextID + 1
              chans := chanStore c.chans c.nextChan (Chan.make 1)
              nextChan := c.nextChan + 1
              requests := mapSet c.requests c.nextID
                { ID := c.nextID, Method := method, Params := params
                  Response := c.nextChan, timeout := 0 }
              sendChan :=
                { c.sendChan with
                  buf := c.sendChan.buf ++
                    [{ ID := some c.nextID, Method := method, Params := params, JSONRPC := "2.0"
                       Result := Any.null, Error := none }] } }
          events := [] } := by
  unfold WebSocketClient.SendRequestWithTimeout.start
  simp [WebSocketClient.GetState, hs, Chan.send, hopen, hroom]

/-- The start of `SendRequestWithTimeout` on a connected client whose queue is full. -/
theorem start_full (c : WebSocketClient) (method : String) (params : Any) (timeout : Int)
    (hs : c.state = WEB_SOCKET_STATE_CONNECTED) (hopen : c.sendChan.closed = false)
    (hfull : ¬ c.sendChan.buf.length < c.sendChan.cap) :
    WebSocketClient.SendRequestWithTimeout.start c method params timeout
      = { ret := Started.bufferFull
            { ID := c.nextID, Method := method, Params := params
              Response := c.nextChan, timeout := 0 }
            (GoError.WebSocketError "send buffer full" none)
          client :=
            { c with
              nextID := c.nextID + 1
              chans := chanStore c.chans c.nextChan (Chan.make 1)
              nextChan := c.nextChan + 1
              requests := mapDelete
                (mapSet c.requests c.nextID
                  { ID := c.nextID, Method := method, Params := params
                    Response := c.nextChan, timeout := 0 })
                c.nextID }
          events := [] } := by
  unfold WebSocketClient.SendRequestWithTimeout.start
  simp [WebSocketClient.GetState, hs, Chan.send, hopen, hfull, NewWebSocketError]

theorem register_WF (c : WebSocketClient) (method : String) (params : Any) (h : c.WF)
    (q : Chan WebSocketMessage) (hopen : q.closed = false) (hcap : q.cap = 100) :
    WebSocketClient.WF
      { c with
        nextID := c.nextID + 1
        chans := chanStore c.chans c.nextChan (Chan.make 1)
        nextChan := c.nextChan + 1
        requests := mapSet c.requests c.nextID
          { ID := c.nextID, Method := method, Params := params
            Response := c.nextChan, timeout := 0 }
        sendChan := q } := by
  have key : ∀ id req,
      mapSet c.requests c.nextID
          { ID := c.nextID, Method := method, Params := params
            Response := c.nextChan, timeout := 0 } id = some req →
        (id = c.nextID ∧
          req = { ID := c.nextID, Method := method, Params := params, Response := c.nextChan,
                  timeout := 0 }) ∨
        (id ≠ c.nextID ∧ c.requests id = some req) := by
    intro id req hr
    unfold mapSet at hr
    split at hr
    · rename_i he
      exact Or.inl ⟨he, (Option.some.inj hr).symm⟩
    · rename_i he
      exact Or.inr ⟨he, hr⟩
  refine
    { id_lt := ?_, id_eq := ?_, chan_lt := ?_, chan_new := ?_, chan_inj := ?_
      send_open := hopen, send_cap := hcap }
  · intro id req hr
    rcases key id req hr with ⟨h1, _⟩ | ⟨_, h2⟩
    · simp [h1]
    · have := h.id_lt id req h2
      show id < c.nextID + 1
      omega
  · intro id req hr
    rcases key id req hr with ⟨h1, h2⟩ | ⟨_, h2⟩
    · rw [h2, h1]
    · exact h.id_eq id req h2
  · intro id req hr
    rcases key id req hr with ⟨_, h2⟩ | ⟨_, h2⟩
    · rw [h2]; show c.nextChan < c.nextChan + 1; omega
    · have := h.chan_lt id req h2
      show req.Response < c.nextChan + 1
      omega
  · intro id req hr
    rcases key id req hr with ⟨_, h2⟩ | ⟨_, h2⟩
    · rw [h2]; simp [chanStore]
    · have := h.chan_lt id req h2
      have hne : req.Response ≠ c.nextChan := by omega
      simp only [chanStore, hne, if_false]
      exact h.chan_new id req h2
  · intro id id' req req' hr hr' he
    rcases key id req hr with ⟨h1, h2⟩ | ⟨h1, h2⟩ <;>
      rcases key id' req' hr' with ⟨h1', h2'⟩ | ⟨h1', h2'⟩
    · rw [h1, h1']
    · have := h.chan_lt id' req' h2'
      rw [h2] at he
      simp only at he
      omega
    · have := h.chan_lt id req h2
      rw [h2'] at he
      simp only at he
      omega
    · exact h.chan_inj id id' req req' h2 h2' he

theorem start_WF (c : WebSocketClient) (method : String) (params : Any) (timeout : Int)
    (h : c.WF) : (WebSocketClient.SendRequestWithTimeout.start c method params timeout).client.WF := by
  by_cases hs : c.state = WEB_SOCKET_STATE_CONNECTED
  · by_cases hroom : c.sendChan.buf.length < c.sendChan.cap
    · rw [start_waiting c method params timeout hs h.send_open hroom]
      exact register_WF c method params h _ h.send_open h.send_cap
    · rw [start_full c method params timeout hs h.send_open hroom]
      have h1 := register_WF c method params h c.sendChan h.send_open h.send_cap
      exact h1.mono (fun id req hr => (mapDelete_some hr).2) (le_refl _) (le_refl _)
        (fun _ _ _ => rfl) h.send_open h.send_cap
  · have : (WebSocketClient.SendRequestWithTimeout.start c method params timeout).client = c := by
      simp [WebSocketClient.SendRequestWithTimeout.start, WebSocketClient.GetState, hs]
    rw [this]
    exact h

theorem await_WF (c : WebSocketClient) (w : Waiter) (sel : SelectCase)
    (r : Out (Option WebSocketMessage × Option GoError))
    (hr : WebSocketClient.SendRequestWithTimeout.await c w sel = some r) (h : c.WF) :
    r.client.WF := by
  unfold WebSocketClient.SendRequestWithTimeout.await at hr
  cases sel with
  | timer =>
    cases hr
    exact h.mono (fun id req hr => (mapDelete_some hr).2) (le_refl _) (le_refl _)
      (fun _ _ _ => rfl) h.send_open h.send_cap
  | response =>
    simp only at hr
    split at hr
    · cases hr
    · rename_i response ch hrecv
      have hkeep : ∀ id req, c.requests id = some req →
          chanStore c.chans w.req.Response ch req.Response = c.chans req.Response := by
        intro id req hq
        by_cases he : req.Response = w.req.Response
        · have hn := h.chan_new id req hq
          rw [he] at hn
          rw [hn] at hrecv
          simp [Chan.recv, Chan.make] at hrecv
        · simp [chanStore, he]
      split at hr <;>
        (cases hr
         exact h.mono (fun _ _ hq => hq) (le_refl _) (le_refl _) hkeep h.send_open h.send_cap)

/-! ## The outbound queue keeps its shape -/

theorem connectOnce_queue (c : WebSocketClient) (env : ConnectEnv) (h : QueueOK c) :
    QueueOK (c.connectOnce env).client := by
  unfold WebSocketClient.connectOnce
  split
  · exact h
  · rcases env with ⟨p, q, d⟩
    cases p <;> cases q <;> cases d <;> first | exact h | exact ⟨rfl, rfl⟩

theorem Connect_queue (c : WebSocketClient) (env : ConnectEnv) (h : QueueOK c) :
    QueueOK (c.Connect env).client := by
  have hq := connectOnce_queue c env h
  unfold WebSocketClient.Connect
  simp only
  split
  · exact hq
  · split <;> exact hq

theorem reconnectLoop_queue (envs : List LoopEnv) :
    ∀ (c : WebSocketClient) (o : LoopOut), c.reconnectLoop envs = some o → QueueOK c →
      QueueOK o.client := by
  induction envs with
  | nil => intro c o h; simp [WebSocketClient.reconnectLoop] at h
  | cons env rest ih =>
    intro c o h hq
    unfold WebSocketClient.reconnectLoop at h
    split at h
    · cases h; exact hq
    · split at h
      · cases h; exact hq
      · simp only at h
        split at h
        · cases h; exact hq
        · split at h
          · cases h; exact hq
          · have hc := connectOnce_queue
              { c with retry := (c.retry.WaitBeforeReconnect env.waitCtx).retry } env.connect hq
            split at h
            · cases h; exact hc
            · split at h
              · cases h
              · rename_i o' ho'
                cases h
                exact ih _ o' ho' hc

theorem Disconnect_queue (c : WebSocketClient) (h : QueueOK c) : QueueOK c.Disconnect.client := by
  unfold WebSocketClient.Disconnect
  split
  · exact h
  · simp only [WebSocketClient.setState]
    split <;> split <;> exact h

theorem writeLoop_turn_queue (c : WebSocketClient) (sel : WriteCase) (sendErr : Option GoError)
    (r : Out Turn) (h : WebSocketClient.writeLoop.turn c sel sendErr = some r) (hq : QueueOK c) :
    QueueOK r.client := by
  unfold WebSocketClient.writeLoop.turn at h
  cases sel with
  | closed =>
    simp only at h
    split at h
    · cases h; exact hq
    · cases h
  | message =>
    simp only at h
    split at h
    · cases h
    · rename_i message ch hrecv
      have hch : ch.closed = c.sendChan.closed ∧ ch.cap = c.sendChan.cap := by
        unfold Chan.recv at hrecv
        split at hrecv
        · cases hrecv; exact ⟨rfl, rfl⟩
        · split at hrecv
          · cases hrecv; exact ⟨rfl, rfl⟩
          · cases hrecv
      have hq' : ch.closed = false ∧ ch.cap = 100 := ⟨hch.1.trans hq.1, hch.2.trans hq.2⟩
      cases sendErr <;> (cases h; exact hq')

theorem SendNotification_queue (c : WebSocketClient) (method : String) (params : Any)
    (r : Out (Option GoError)) (h : c.SendNotification method params = some r) (hq : QueueOK c) :
    QueueOK r.client := by
  unfold WebSocketClient.SendNotification at h
  split at h
  · cases h; exact hq
  · simp only at h
    split at h
    · rename_i ch hsend
      cases h
      unfold Chan.send at hsend
      split at hsend
      · cases hsend
      · split at hsend
        · cases hsend; exact hq
        · cases hsend
    · cases h; exact hq
    · cases h

/-- Every operation keeps the invariant of the request side. -/
theorem step_WF (c : WebSocketClient) (op : Op) (h : c.WF) : (c.step op).1.WF := by
  have hq : QueueOK c := ⟨h.send_open, h.send_cap⟩
  cases op with
  | Connect env =>
    have q := Connect_queue c env hq
    exact h.of_side (Connect_side c env) q.1 q.2
  | connectOnce env =>
    have q := connectOnce_queue c env hq
    exact h.of_side (connectOnce_side c env) q.1 q.2
  | reconnectLoop envs =>
    simp only [WebSocketClient.step]
    cases ho : c.reconnectLoop envs with
    | none => exact h
    | some o =>
      have q := reconnectLoop_queue envs c o ho hq
      exact h.of_side (reconnectLoop_side envs c o ho) q.1 q.2
  | Disconnect =>
    have q := Disconnect_queue c hq
    exact h.of_side (Disconnect_side c) q.1 q.2
  | AddDataHandler handler => exact h.of_side ⟨rfl, rfl, rfl, rfl⟩ h.send_open h.send_cap
  | removeDataHandler handler => exact h.of_side ⟨rfl, rfl, rfl, rfl⟩ h.send_open h.send_cap
  | readLoopTurn rx =>
    cases rx with
    | frame m =>
      simp only [WebSocketClient.step, WebSocketClient.readLoop.turn]
      split
      · exact h
      · exact (handleMessage_WF c m h).1
    | eof =>
      simp only [WebSocketClient.step, WebSocketClient.readLoop.turn]
      split
      · exact h
      · exact h.of_side ⟨rfl, rfl, rfl, rfl⟩ h.send_open h.send_cap
    | failed err =>
      simp only [WebSocketClient.step, WebSocketClient.readLoop.turn]
      split
      · exact h
      · exact h.of_side ⟨rfl, rfl, rfl, rfl⟩ h.send_open h.send_cap
  | readLoopReceived rx =>
    cases rx with
    | frame m => exact (handleMessage_WF c m h).1
    | eof => exact h.of_side ⟨rfl, rfl, rfl, rfl⟩ h.send_open h.send_cap
    | failed err => exact h.of_side ⟨rfl, rfl, rfl, rfl⟩ h.send_open h.send_cap
  | writeLoopTurn sel sendErr =>
    simp only [WebSocketClient.step]
    cases hr : WebSocketClient.writeLoop.turn c sel sendErr with
    | none => exact h
    | some r =>
      have q := writeLoop_turn_queue c sel sendErr r hr hq
      exact h.of_side (writeLoop_turn_side c sel sendErr r hr) q.1 q.2
  | handleMessage message => exact (handleMessage_WF c message h).1
  | start method params timeout => exact start_WF c method params timeout h
  | await w sel =>
    simp only [WebSocketClient.step]
    cases hr : WebSocketClient.SendRequestWithTimeout.await c w sel with
    | none => exact h
    | some r => exact await_WF c w sel r hr h
  | SendNotification method params =>
    simp only [WebSocketClient.step]
    cases hr : c.SendNotification method params with
    | none => exact h
    | some r =>
      have q := SendNotification_queue c method params r hr hq
      exact h.of_side (SendNotification_side c method params r hr) q.1 q.2

/-- The invariant holds all along every run that starts in it. -/
theorem run_WF (ops : List Op) : ∀ c : WebSocketClient, c.WF → (c.run ops).1.WF := by
  induction ops with
  | nil => intro c h; exact h
  | cons op rest ih =>
    intro c h
    exact ih _ (step_WF c op h)

/-- The invariant holds in every state that a freshly constructed client reaches. -/
theorem reachable_WF (cfg : config.MoonrakerConfig) (listener : Option StatusListener)
    (ops : List Op) : ((NewWebSocketClient cfg listener).run ops).1.WF :=
  run_WF ops _ (WF_new cfg listener)

theorem connectedClient_WF : connectedClient.WF :=
  reachable_WF sampleConfig (some { name := 0 }) [Op.Connect dialOk]

/-! ## Inbound frames -/

/-- C3: a frame with id `N` whose request is pending removes exactly the entry `N` from
the table, puts the frame's result and error into the response channel of that entry,
once, and closes it, and touches nothing else; a frame whose id is not pending leaves
the client as it is and delivers nothing; so handling the same frame a second time
changes nothing. -/
theorem C3_response_resolves_exactly_once (c : WebSocketClient) (message : WebSocketMessage)
    (N : Int) (hwf : c.WF) (hid : message.ID = some N) :
    (∀ req, c.requests N = some req →
      c.handleMessage message
        = { ret := none
            client :=
              { c with
                requests := mapDelete c.requests N
                chans := chanStore c.chans req.Response
                  { cap := 1, buf := [{ Result := message.Result, Error := message.Error }]
                    closed := true } }
            events := [] } ∧
      (c.handleMessage message).client.requests N = none ∧
      (∀ k, k ≠ N → (c.handleMessage message).client.requests k = c.requests k) ∧
      ((c.handleMessage message).client.chans req.Response).buf
        = [{ Result := message.Result, Error := message.Error }] ∧
      (∀ a, a ≠ req.Response → (c.handleMessage message).client.chans a = c.chans a)) ∧
    (c.requests N = none → c.handleMessage message = { ret := none, client := c, events := [] }) ∧
    (c.handleMessage message).client.handleMessage message
      = { ret := none, client := (c.handleMessage message).client, events := [] } := by
  have hfound : ∀ req, c.requests N = some req →
      c.handleMessage message
        = { ret := none
            client :=
              { c with
                requests := mapDelete c.requests N
                chans := chanStore c.chans req.Response
                  { cap := 1, buf := [{ Result := message.Result, Error := message.Error }]
                    closed := true } }
            events := [] } :=
    fun req hreq => handleMessage_found c message N req hid hreq (hwf.chan_new N req hreq)
  refine ⟨?_, handleMessage_missing c message N hid, ?_⟩
  · intro req hreq
    refine ⟨hfound req hreq, ?_, ?_, ?_, ?_⟩
    · rw [hfound req hreq]; exact mapDelete_self _ _
    · intro k hk; rw [hfound req hreq]; exact mapDelete_other _ hk
    · rw [hfound req hreq]; simp [chanStore]
    · intro a ha; rw [hfound req hreq]; simp [chanStore, ha]
  · cases hreq : c.requests N with
    | none =>
      rw [handleMessage_missing c message N hid hreq]
      exact handleMessage_missing c message N hid hreq
    | some req =>
      rw [hfound req hreq]
      exact handleMessage_missing _ message N hid (mapDelete_self _ _)

/-- C3 at the sample client that waits for the answer to its request 1. -/
theorem C3_response_resolves_witness :
    waitingClient.WF ∧ readyFrame.ID = some 1 ∧
    (waitingClient.handleMessage readyFrame).client.handleMessage readyFrame
      = { ret := none, client := (waitingClient.handleMessage readyFrame).client, events := [] } :=
  ⟨start_WF connectedClient "printer.info" Any.null (30 * Second) connectedClient_WF, rfl,
    (C3_response_resolves_exactly_once waitingClient readyFrame 1
      (start_WF connectedClient "printer.info" Any.null (30 * Second) connectedClient_WF) rfl).2.2⟩

/-- C4: a frame with no id and a non-empty method starts `ProcessDataMessage` once for
each registered data handler, in the order of registration, and then calls the
listener's `OnNotification` with the frame's method and params exactly once (no call
when the client has no listener); the client, its pending table and `nextID` included,
is left as it was. -/
theorem C4_notification_dispatch (c : WebSocketClient) (message : WebSocketMessage)
    (hid : message.ID = none) (hm : message.Method ≠ "") :
    (c.handleMessage message).ret = none ∧
    (c.handleMessage message).client = c ∧
    (c.handleMessage message).events
      = c.dataHandlers.map (fun handler => Event.goProcessDataMessage handler message) ++
          (match c.listener with
           | some _ => [Event.OnNotification message.Method message.Params]
           | none => []) ∧
    (c.handleMessage message).events.filterMap Event.processedBy? = c.dataHandlers ∧
    (∀ l, c.listener = some l →
      (c.handleMessage message).events.filter Event.isOnNotification
        = [Event.OnNotification message.Method message.Params]) := by
  have hev : (c.handleMessage message).events
      = c.dataHandlers.map (fun handler => Event.goProcessDataMessage handler message) ++
          (match c.listener with
           | some _ => [Event.OnNotification message.Method message.Params]
           | none => []) := by
    unfold WebSocketClient.handleMessage
    simp [hid, hm]
  have hproc : ∀ hs : List DataHandler,
      (hs.map (fun handler => Event.goProcessDataMessage handler message)).filterMap
        Event.processedBy? = hs := by
    intro hs
    induction hs with
    | nil => rfl
    | cons a t ih => simp [List.filterMap_cons, Event.processedBy?, ih]
  have hnot : ∀ hs : List DataHandler,
      (hs.map (fun handler => Event.goProcessDataMessage handler message)).filter
        Event.isOnNotification = [] := by
    intro hs
    induction hs with
    | nil => rfl
    | cons a t ih => simp [List.filter_cons, Event.isOnNotification, ih]
  refine ⟨(handleMessage_no_id c message hid).1, (handleMessage_no_id c message hid).2, hev, ?_, ?_⟩
  · rw [hev, List.filterMap_append, hproc]
    cases c.listener <;> simp [Event.processedBy?]
  · intro l hl
    rw [hev, List.filter_append, hnot, hl]
    simp [Event.isOnNotification]

/-- C4 at the waiting sample client, with two handlers, and the status frame. -/
theorem C4_notification_dispatch_witness :
    statusFrame.ID = none ∧ statusFrame.Method ≠ "" ∧
    (((waitingClient.AddDataHandler { name := 1 }).AddDataHandler { name := 2 }).handleMessage
        statusFrame).events
      = [Event.goProcessDataMessage { name := 1 } statusFrame,
         Event.goProcessDataMessage { name := 2 } statusFrame,
         Event.OnNotification "notify_status_update" statusFrame.Params] :=
  ⟨rfl, by decide,
    (C4_notification_dispatch ((waitingClient.AddDataHandler { name := 1 }).AddDataHandler { name := 2 })
      statusFrame rfl (by decide)).2.2.1⟩

/-! ## Back-pressure and time-out -/

set_option maxRecDepth 100000 in
theorem fullClient_state : fullClient.state = WEB_SOCKET_STATE_CONNECTED := by decide

set_option maxRecDepth 100000 in
theorem fullClient_length : fullClient.sendChan.buf.length = 100 := by decide

theorem fullClient_WF : fullClient.WF :=
  run_WF _ connectedClient connectedClient_WF

/-- C5: on a connected client whose outbound queue holds 100 frames,
`SendRequestWithTimeout` returns without waiting, whatever arrives and whichever case
would be ready, with the `send buffer full` `WebSocketError`; the queue is the one of
before and the pending table is the one of before; the id of the call is used up. -/
theorem C5_full_queue_fails_fast (c : WebSocketClient) (method : String) (params : Any)
    (timeout : Int) (inbound : List WebSocketMessage) (sel : SelectCase) (hwf : c.WF)
    (hs : c.state = WEB_SOCKET_STATE_CONNECTED) (hfull : c.sendChan.buf.length = 100) :
    ∃ r, c.SendRequestWithTimeout method params timeout inbound sel = some r ∧
      r.ret = (none, some (GoError.WebSocketError "send buffer full" none)) ∧
      r.client.sendChan = c.sendChan ∧
      r.client.requests = c.requests ∧
      r.client.nextID = c.nextID + 1 ∧
      r.events = [] := by
  have hnot : ¬ c.sendChan.buf.length < c.sendChan.cap := by
    rw [hfull, hwf.send_cap]; decide
  have hfresh : c.requests c.nextID = none := by
    cases h : c.requests c.nextID with
    | none => rfl
    | some req => exact absurd (hwf.id_lt _ req h) (lt_irrefl _)
  have hst := start_full c method params timeout hs hwf.send_open hnot
  have hcomp : c.SendRequestWithTimeout method params timeout inbound sel
      = some
          { ret := (none, some (GoError.WebSocketError "send buffer full" none))
            client := (WebSocketClient.SendRequestWithTimeout.start c method params timeout).client
            events := [] } := by
    unfold WebSocketClient.SendRequestWithTimeout
    simp only [hst]
  refine ⟨_, hcomp, rfl, ?_, ?_, ?_, rfl⟩
  · rw [hst]
  · rw [hst]; exact mapDelete_mapSet _ _ _ hfresh
  · rw [hst]

/-- C5 at the connected sample client with 100 notifications queued. -/
theorem C5_full_queue_witness :
    fullClient.WF ∧ fullClient.state = WEB_SOCKET_STATE_CONNECTED ∧
    fullClient.sendChan.buf.length = 100 ∧
    ∃ r, fullClient.SendRequestWithTimeout "printer.info" Any.null Second [] SelectCase.response
        = some r ∧
      r.ret = (none, some (GoError.WebSocketError "send buffer full" none)) ∧
      r.client.sendChan = fullClient.sendChan ∧
      r.client.requests = fullClient.requests ∧
      r.client.nextID = fullClient.nextID + 1 ∧
      r.events = [] :=
  ⟨fullClient_WF, fullClient_state, fullClient_length,
    C5_full_queue_fails_fast fullClient "printer.info" Any.null Second [] SelectCase.response
      fullClient_WF fullClient_state fullClient_length⟩

/-- C6: when the second `select` of `SendRequestWithTimeout` takes the timer case, the
call returns nil and the `RequestTimeoutError` "request timeout"; the entry under the
call's id is gone from the pending table and every other entry is as before; nothing
else of the client changes.  For a whole call on a connected client with room in the
queue, the id in question is the value of `nextID` at the call. -/
theorem C6_timeout_removes_pending (c : WebSocketClient) (w : Waiter) (method : String)
    (params : Any) (timeout : Int) (inbound : List WebSocketMessage) :
    WebSocketClient.SendRequestWithTimeout.await c w SelectCase.timer
      = some
          { ret := (none, some (GoError.RequestTimeoutError "request timeout" 30))
            client := { c with requests := mapDelete c.requests w.req.ID }
            events := [] } ∧
    mapDelete c.requests w.req.ID w.req.ID = none ∧
    (∀ k, k ≠ w.req.ID → mapDelete c.requests w.req.ID k = c.requests k) ∧
    (c.state = WEB_SOCKET_STATE_CONNECTED → c.sendChan.closed = false →
      c.sendChan.buf.length < c.sendChan.cap →
      ∃ r, c.SendRequestWithTimeout method params timeout inbound SelectCase.timer = some r ∧
        r.ret = (none, some (GoError.RequestTimeoutError "request timeout" 30)) ∧
        r.client.requests c.nextID = none ∧
        (∀ k, k ≠ c.nextID → r.client.requests k
          = ((WebSocketClient.SendRequestWithTimeout.start c method params
              timeout).client.handleMessages inbound).client.requests k)) := by
  refine ⟨rfl, mapDelete_self _ _, fun k hk => mapDelete_other _ hk, ?_⟩
  intro hs hopen hroom
  have hst := start_waiting c method params timeout hs hopen hroom
  refine ⟨{ ret := (none, some (GoError.RequestTimeoutError "request timeout" 30))
            client :=
              { ((WebSocketClient.SendRequestWithTimeout.start c method params
                    timeout).client.handleMessages inbound).client with
                requests := mapDelete
                  ((WebSocketClient.SendRequestWithTimeout.start c method params
                    timeout).client.handleMessages inbound).client.requests c.nextID }
            events :=
              ((WebSocketClient.SendRequestWithTimeout.start c method params
                    timeout).client.handleMessages inbound).events }, ?_, rfl, ?_, ?_⟩
  · unfold WebSocketClient.SendRequestWithTimeout
    simp only [hst, WebSocketClient.SendRequestWithTimeout.await, NewWebSocketTimeoutError,
      List.nil_append, List.append_nil]
  · exact mapDelete_self _ _
  · intro k hk
    exact mapDelete_other _ hk

/-- C6 at the connected sample client: the request 1 times out. -/
theorem C6_timeout_witness :
    connectedClient.state = WEB_SOCKET_STATE_CONNECTED ∧
    connectedClient.sendChan.closed = false ∧
    connectedClient.sendChan.buf.length < connectedClient.sendChan.cap ∧
    ∃ r, connectedClient.SendRequestWithTimeout "printer.info" Any.null Second []
        SelectCase.timer = some r ∧
      r.ret = (none, some (GoError.RequestTimeoutError "request timeout" 30)) ∧
      r.client.requests connectedClient.nextID = none ∧
      (∀ k, k ≠ connectedClient.nextID → r.client.requests k
        = ((WebSocketClient.SendRequestWithTimeout.start connectedClient "printer.info" Any.null
            Second).client.handleMessages []).client.requests k) :=
  ⟨by decide, by decide, by decide,
    (C6_timeout_removes_pending connectedClient
      { req := { ID := 1, Method := "printer.info", Params := Any.null, Response := 0, timeout := 0 }
        timeout := Second }
      "printer.info" Any.null Second []).2.2.2 (by decide) (by decide) (by decide)⟩

/-! ## Cancellation -/

/-- C7, as stated, fails: with a context that is cancelled while the request of the
connected sample client waits, `Request` does not return as long as nothing arrives and
the timer has not fired; when the timer fires it returns the time-out error, which is
not a cancellation error; and when the response arrives it returns the response. -/
theorem C7_cancel_while_waiting_counterexample :
    cancelledLater.doneLater = some GoError.Canceled ∧
    (connectedClient.Request cancelledLater "printer.info" Any.null [] SelectCase.response).isNone
      = true ∧
    (connectedClient.Request cancelledLater "printer.info" Any.null [] SelectCase.timer).map
        (fun r => r.ret.2.map GoError.isCancellation) = some (some false) ∧
    (connectedClient.Request cancelledLater "printer.info" Any.null [readyFrame]
        SelectCase.response).map (fun r => r.ret.2.map GoError.isCancellation) = some none := by
  refine ⟨rfl, ?_, ?_, ?_⟩ <;> decide

/-- C7, amended: a context that is cancelled already when `Request` is entered makes the
call return the `request cancelled` error around `ctx.Err()` at once, the client being
left as it was; a cancellation that comes later is not looked at, the call ends as it
does under a live context; and when it ends with the timer, on a connected client with
room in the queue, it returns the time-out error and its id is gone from the table. -/
theorem C7_cancellation_only_at_entry (c : WebSocketClient) (ctx : Context) (method : String)
    (params : Any) (inbound : List WebSocketMessage) (sel : SelectCase) :
    (∀ e, ctx.Err = some e →
      c.Request ctx method params inbound sel
        = some
            { ret := (none, some (GoError.Errorf "request cancelled: %w" e))
              client := c
              events := [] }) ∧
    (ctx.Err = none →
      c.Request ctx method params inbound sel
        = c.Request { Err := none, doneLater := none } method params inbound sel) ∧
    (ctx.Err = none → c.state = WEB_SOCKET_STATE_CONNECTED → c.sendChan.closed = false →
      c.sendChan.buf.length < c.sendChan.cap →
      ∃ r, c.Request ctx method params inbound SelectCase.timer = some r ∧
        r.ret = (none, some (GoError.RequestTimeoutError "request timeout" 30)) ∧
        r.client.requests c.nextID = none) := by
  refine ⟨?_, ?_, ?_⟩
  · intro e he
    simp [WebSocketClient.Request, he]
  · intro he
    simp [WebSocketClient.Request, he]
  · intro he hs hopen hroom
    have hst := start_waiting c method params (30 * Second) hs hopen hroom
    refine ⟨{ ret := (none, some (GoError.RequestTimeoutError "request timeout" 30))
              client :=
                { ((WebSocketClient.SendRequestWithTimeout.start c method params
                      (30 * Second)).client.handleMessages inbound).client with
                  requests := mapDelete
                    ((WebSocketClient.SendRequestWithTimeout.start c method params
                      (30 * Second)).client.handleMessages inbound).client.requests c.nextID }
              events :=
                ((WebSocketClient.SendRequestWithTimeout.start c method params
                      (30 * Second)).client.handleMessages inbound).events }, ?_, rfl, ?_⟩
    · unfold WebSocketClient.Request WebSocketClient.SendRequest
        WebSocketClient.SendRequestWithTimeout
      simp only [he, hst, WebSocketClient.SendRequestWithTimeout.await, NewWebSocketTimeoutError,
        List.nil_append, List.append_nil]
    · exact mapDelete_self _ _

/-- C7, amended, at the connected sample client: under a context cancelled beforehand,
and under a context cancelled during the wait, the timer firing. -/
theorem C7_cancellation_only_at_entry_witness :
    (cancelledBefore.Err = some GoError.Canceled ∧
      connectedClient.Request cancelledBefore "printer.info" Any.null [] SelectCase.response
        = some
            { ret := (none, some (GoError.Errorf "request cancelled: %w" GoError.Canceled))
              client := connectedClient
              events := [] }) ∧
    (cancelledLater.Err = none ∧ connectedClient.state = WEB_SOCKET_STATE_CONNECTED ∧
      connectedClient.sendChan.closed = false ∧
      connectedClient.sendChan.buf.length < connectedClient.sendChan.cap ∧
      ∃ r, connectedClient.Request cancelledLater "printer.info" Any.null [] SelectCase.timer
          = some r ∧
        r.ret = (none, some (GoError.RequestTimeoutError "request timeout" 30)) ∧
        r.client.requests connectedClient.nextID = none) :=
  ⟨⟨rfl,
      (C7_cancellation_only_at_entry connectedClient cancelledBefore "printer.info" Any.null []
        SelectCase.response).1 GoError.Canceled rfl⟩,
    ⟨rfl, by decide, by decide, by decide,
      (C7_cancellation_only_at_entry connectedClient cancelledLater "printer.info" Any.null []
        SelectCase.response).2.2 rfl (by decide) (by decide) (by decide)⟩⟩

/-! ## From the frame to the caller -/

/-- One frame handled on a client in which no pending entry owns the channel `a`: the
invariant stays, the call returns, still no entry owns `a`, and `a` is not written. -/
theorem handleMessage_foreign_chan (c : WebSocketClient) (message : WebSocketMessage) (a : Nat)
    (h : c.WF) (hno : ∀ id req, c.requests id = some req → req.Response ≠ a) :
    (c.handleMessage message).client.WF ∧
    (∀ id req, (c.handleMessage message).client.requests id = some req → req.Response ≠ a) ∧
    (c.handleMessage message).client.chans a = c.chans a := by
  refine ⟨(handleMessage_WF c message h).1, ?_, ?_⟩
  · cases hid : message.ID with
    | none => rw [(handleMessage_no_id c message hid).2]; exact hno
    | some id =>
      cases hreq : c.requests id with
      | none => rw [handleMessage_missing c message id hid hreq]; exact hno
      | some req =>
        rw [handleMessage_found c message id req hid hreq (h.chan_new id req hreq)]
        intro id' req' hr
        exact hno id' req' (mapDelete_some hr).2
  · cases hid : message.ID with
    | none => rw [(handleMessage_no_id c message hid).2]
    | some id =>
      cases hreq : c.requests id with
      | none => rw [handleMessage_missing c message id hid hreq]
      | some req =>
        rw [handleMessage_found c message id req hid hreq (h.chan_new id req hreq)]
        have hne : a ≠ req.Response := fun he => hno id req hreq he.symm
        simp [chanStore, hne]

theorem handleMessages_foreign_chan (ms : List WebSocketMessage) (a : Nat) :
    ∀ c : WebSocketClient, c.WF → (∀ id req, c.requests id = some req → req.Response ≠ a) →
      (c.handleMessages ms).client.chans a = c.chans a := by
  induction ms with
  | nil => intro c _ _; rfl
  | cons m rest ih =>
    intro c h hno
    have h1 := handleMessage_foreign_chan c m a h hno
    have hret := (handleMessage_WF c m h).2
    simp only [WebSocketClient.handleMessages, hret]
    rw [ih _ h1.1 h1.2.1, h1.2.2]

/-- One frame with another id handled: the entry under `id` stays. -/
theorem handleMessage_other_id (c : WebSocketClient) (message : WebSocketMessage) (id : Int)
    (req : WebSocketRequest) (h : c.WF) (hreq : c.requests id = some req)
    (hne : message.ID ≠ some id) : (c.handleMessage message).client.requests id = some req := by
  cases hid : message.ID with
  | none => rw [(handleMessage_no_id c message hid).2]; exact hreq
  | some id' =>
    cases hreq' : c.requests id' with
    | none => rw [handleMessage_missing c message id' hid hreq']; exact hreq
    | some req' =>
      rw [handleMessage_found c message id' req' hid hreq' (h.chan_new id' req' hreq')]
      have : id ≠ id' := by
        intro he
        exact hne (by rw [hid, he])
      simp only [mapDelete_other _ this]
      exact hreq

/-- The frames `pre`, none with the id `id`, then a frame with the id `id`, then the
frames `post`, handled on a client in which `id` is pending: afterwards the response
channel of that entry holds the result and error of the frame, once, and is closed. -/
theorem handleMessages_delivers (pre post : List WebSocketMessage) (frame : WebSocketMessage)
    (id : Int) (req : WebSocketRequest) (hframe : frame.ID = some id) :
    ∀ c : WebSocketClient, c.WF → c.requests id = some req → (∀ m ∈ pre, m.ID ≠ some id) →
      (c.handleMessages (pre ++ frame :: post)).client.chans req.Response
        = { cap := 1, buf := [{ Result := frame.Result, Error := frame.Error }], closed := true } := by
  induction pre with
  | nil =>
    intro c h hreq _
    have hf := handleMessage_found c frame id req hframe hreq (h.chan_new id req hreq)
    have hwf' := (handleMessage_WF c frame h).1
    simp only [List.nil_append, WebSocketClient.handleMessages, (handleMessage_WF c frame h).2]
    rw [handleMessages_foreign_chan post req.Response _ hwf']
    · rw [hf]; simp [chanStore]
    · rw [hf]
      intro id' req' hr he
      have hr' := mapDelete_some hr
      exact hr'.1 (h.chan_inj id' id req' req hr'.2 hreq he)
  | cons m rest ih =>
    intro c h hreq hpre
    have hm : m.ID ≠ some id := hpre m (List.mem_cons_self _ _)
    simp only [List.cons_append, WebSocketClient.handleMessages, (handleMessage_WF c m h).2]
    exact ih _ (handleMessage_WF c m h).1 (handleMessage_other_id c m id req h hreq hm)
      (fun m' hm' => hpre m' (List.mem_cons_of_mem _ hm'))

/-- What the whole call returns when the frame with its id arrives while it waits. -/
theorem SendRequestWithTimeout_response (c : WebSocketClient) (method : String) (params : Any)
    (timeout : Int) (pre post : List WebSocketMessage) (frame : WebSocketMessage)
    (hwf : c.WF) (hs : c.state = WEB_SOCKET_STATE_CONNECTED)
    (hroom : c.sendChan.buf.length < 100) (hframe : frame.ID = some c.nextID)
    (hpre : ∀ m ∈ pre, m.ID ≠ some c.nextID) :
    (c.SendRequestWithTimeout method params timeout (pre ++ frame :: post)
        SelectCase.response).map (fun r => r.ret)
      = some
          (match frame.Error with
           | some e => (none, some (GoError.RPC e))
           | none =>
             (some
               { Result := frame.Result, JSONRPC := "2.0", Method := "", Params := Any.null
                 ID := none, Error := none },
               none)) := by
  have hroom' : c.sendChan.buf.length < c.sendChan.cap := by rw [hwf.send_cap]; exact hroom
  have hst := start_waiting c method params timeout hs hwf.send_open hroom'
  have hwf1 := start_WF c method params timeout hwf
  have hreq1 : (WebSocketClient.SendRequestWithTimeout.start c method params timeout).client.requests
      c.nextID = some { ID := c.nextID, Method := method, Params := params
                        Response := c.nextChan, timeout := 0 } := by
    rw [hst]; simp [mapSet]
  have hdel := handleMessages_delivers pre post frame c.nextID _ hframe _ hwf1 hreq1 hpre
  simp only at hdel
  unfold WebSocketClient.SendRequestWithTimeout
  simp only [hst] at hdel ⊢
  unfold WebSocketClient.SendRequestWithTimeout.await
  simp only [hdel, Chan.recv]
  cases frame.Error <;> rfl


/-- C8: a response that sits in the channel of a waiting call is returned by the
`select` as it is: without an error, as a message with that result; with an RPC error,
as a nil message and that very `RPCError`.  For a whole call on a connected client with
room in the queue, whose answer frame arrives among the inbound frames: a frame without
an error makes `SendRequestWithTimeout` return a message with the frame's result, and
`Request` and `CallMethod` return that result with a nil error; a frame with an RPC
error makes all three return no result and the `RPCError` of the frame, with its code,
message and data. -/
theorem C8_response_reaches_caller (c : WebSocketClient) (ctx : Context) (method : String)
    (params : Any) (timeout : Int) (pre post : List WebSocketMessage)
    (frame : WebSocketMessage) (w : Waiter) (response : WebSocketResponse)
    (rest : List WebSocketResponse) (hwf : c.WF) (hs : c.state = WEB_SOCKET_STATE_CONNECTED)
    (hroom : c.sendChan.buf.length < 100) (hctx : ctx.Err = none)
    (hframe : frame.ID = some c.nextID) (hpre : ∀ m ∈ pre, m.ID ≠ some c.nextID) :
    ((c.chans w.req.Response).buf = response :: rest →
      (WebSocketClient.SendRequestWithTimeout.await c w SelectCase.response).map (fun r => r.ret)
        = some
            (match response.Error with
             | some e => (none, some (GoError.RPC e))
             | none =>
               (some
                 { Result := response.Result, JSONRPC := "2.0", Method := "", Params := Any.null
                   ID := none, Error := none },
                 none))) ∧
    (frame.Error = none →
      (∃ msg : WebSocketMessage,
        (c.SendRequestWithTimeout method params timeout (pre ++ frame :: post)
          SelectCase.response).map (fun r => r.ret) = some (some msg, none) ∧
        msg.Result = frame.Result) ∧
      (c.Request ctx method params (pre ++ frame :: post) SelectCase.response).map (fun r => r.ret)
        = some (some { Result := frame.Result, Error := none }, none) ∧
      (moonraker.Client.CallMethod { wsClient := c } ctx method params (pre ++ frame :: post)
          SelectCase.response).map (fun r => r.ret)
        = some (frame.Result, none)) ∧
    (∀ e, frame.Error = some e →
      (c.SendRequestWithTimeout method params timeout (pre ++ frame :: post)
          SelectCase.response).map (fun r => r.ret)
        = some (none, some (GoError.RPC e)) ∧
      (c.Request ctx method params (pre ++ frame :: post) SelectCase.response).map (fun r => r.ret)
        = some (none, some (GoError.RPC e)) ∧
      (moonraker.Client.CallMethod { wsClient := c } ctx method params (pre ++ frame :: post)
          SelectCase.response).map (fun r => r.ret)
        = some (Any.null, some (GoError.RPC e))) := by
  have hany := SendRequestWithTimeout_response c method params timeout pre post frame hwf hs hroom
    hframe hpre
  have h30 := SendRequestWithTimeout_response c method params (30 * Second) pre post frame hwf hs
    hroom hframe hpre
  refine ⟨?_, ?_, ?_⟩
  · intro hbuf
    unfold WebSocketClient.SendRequestWithTimeout.await
    simp only [Chan.recv, hbuf]
    cases response.Error <;> rfl
  · intro hnone
    rw [hnone] at hany h30
    simp only at hany h30
    obtain ⟨r, hr, hret⟩ := Option.map_eq_some'.1 h30
    have hreq : (c.Request ctx method params (pre ++ frame :: post) SelectCase.response).map
        (fun r => r.ret) = some (some { Result := frame.Result, Error := none }, none) := by
      unfold WebSocketClient.Request WebSocketClient.SendRequest
      simp only [hctx, hr]
      rcases r with ⟨ret, cl, ev⟩
      simp only at hret
      subst hret
      rfl
    refine ⟨⟨_, hany, rfl⟩, hreq, ?_⟩
    obtain ⟨r', hr', hret'⟩ := Option.map_eq_some'.1 hreq
    unfold moonraker.Client.CallMethod
    simp only [hr']
    rcases r' with ⟨ret, cl, ev⟩
    simp only at hret'
    subst hret'
    rfl
  · intro e he
    rw [he] at hany h30
    simp only at hany h30
    obtain ⟨r, hr, hret⟩ := Option.map_eq_some'.1 h30
    have hreq : (c.Request ctx method params (pre ++ frame :: post) SelectCase.response).map
        (fun r => r.ret) = some (none, some (GoError.RPC e)) := by
      unfold WebSocketClient.Request WebSocketClient.SendRequest
      simp only [hctx, hr]
      rcases r with ⟨ret, cl, ev⟩
      simp only at hret
      subst hret
      rfl
    refine ⟨hany, hreq, ?_⟩
    obtain ⟨r', hr', hret'⟩ := Option.map_eq_some'.1 hreq
    unfold moonraker.Client.CallMethod
    simp only [hr']
    rcases r' with ⟨ret, cl, ev⟩
    simp only at hret'
    subst hret'
    rfl

theorem sample_pre_foreign :
    ∀ m ∈ [statusFrame], m.ID ≠ some connectedClient.nextID := by
  intro m hm
  rw [List.mem_singleton] at hm
  subst hm
  decide

/-- C8 at the connected sample client: a notification arrives, then the answer to the
request 1, then the same answer again; once without and once with an RPC error. -/
theorem C8_response_reaches_caller_witness :
    connectedClient.WF ∧ connectedClient.state = WEB_SOCKET_STATE_CONNECTED ∧
    connectedClient.sendChan.buf.length < 100 ∧ background.Err = none ∧
    readyFrame.ID = some connectedClient.nextID ∧ errorFrame.ID = some connectedClient.nextID ∧
    (∀ m ∈ [statusFrame], m.ID ≠ some connectedClient.nextID) ∧
    readyFrame.Error = none ∧
    (moonraker.Client.CallMethod { wsClient := connectedClient } background "printer.info"
        Any.null ([statusFrame] ++ readyFrame :: [readyFrame]) SelectCase.response).map
        (fun r => r.ret)
      = some (Any.obj [("klippy_state", Any.str "ready")], none) ∧
    (moonraker.Client.CallMethod { wsClient := connectedClient } background "printer.info"
        Any.null ([statusFrame] ++ errorFrame :: [errorFrame]) SelectCase.response).map
        (fun r => r.ret)
      = some (Any.null,
          some (GoError.RPC { Code := -32601, Message := "Method not found", Data := Any.null })) :=
  ⟨connectedClient_WF, by decide, by decide, rfl, rfl, rfl, sample_pre_foreign, rfl,
    ((C8_response_reaches_caller connectedClient background "printer.info" Any.null Second
      [statusFrame] [readyFrame] readyFrame
      { req := { ID := 1, Method := "printer.info", Params := Any.null, Response := 0, timeout := 0 }
        timeout := Second }
      default [] connectedClient_WF (by decide) (by decide) rfl rfl sample_pre_foreign).2.1
      rfl).2.2,
    ((C8_response_reaches_caller connectedClient background "printer.info" Any.null Second
      [statusFrame] [errorFrame] errorFrame
      { req := { ID := 1, Method := "printer.info", Params := Any.null, Response := 0, timeout := 0 }
        timeout := Second }
      default [] connectedClient_WF (by decide) (by decide) rfl rfl sample_pre_foreign).2.2
      { Code := -32601, Message := "Method not found", Data := Any.null } rfl).2.2⟩

/-! ## Back-off -/

theorem float64_small (x : Int) (h : x.natAbs < 2 ^ 53) : float64 x = x := by
  unfold float64
  exact if_pos h

/-- The back-off update on a delay between zero and a minute: the double, capped at a
minute. -/
theorem WaitBeforeReconnect_timer (m : Retry) (h0 : m.attempt ≠ 0) (hlo : 0 ≤ m.currentDelay)
    (hhi : m.currentDelay ≤ 60 * Second) :
    m.WaitBeforeReconnect none
      = { err := none
          retry := { m with currentDelay := min (m.currentDelay * 2) (60 * Second)
                            attempt := m.attempt + 1 }
          waited := m.currentDelay } := by
  have hs : m.currentDelay.natAbs < 2 ^ 53 := by
    unfold Second at hhi
    omega
  have h1 : float64 m.currentDelay = m.currentDelay := float64_small _ hs
  have h2 : float64 MAX_RETRY_DELAY = 60 := by decide
  have h3 : float64 Second = Second := by decide
  have h4 : ¬ (min (m.currentDelay * 2) (60 * Second) < -(2 ^ 63)) := by
    unfold Second
    omega
  unfold Retry.WaitBeforeReconnect
  simp only [h0, if_false, h1, h2, h3, RETRY_BACKOFF_MULTIPLIER, durationOfFloat64, h4]

theorem WaitBeforeReconnect_first (m : Retry) (ctxDone : Option GoError) (h0 : m.attempt = 0) :
    m.WaitBeforeReconnect ctxDone
      = { err := none, retry := { m with attempt := 1 }, waited := 0 } := by
  unfold Retry.WaitBeforeReconnect
  simp [h0]

theorem specBackoffDelay_succ (a : Nat) (ha : 1 ≤ a) :
    min (specBackoffDelay a * 2) (60 * Second) = specBackoffDelay (a + 1) := by
  obtain ⟨k, rfl⟩ : ∃ k, a = k + 1 := ⟨a - 1, by omega⟩
  unfold specBackoffDelay
  simp only [Nat.add_sub_cancel, Nat.succ_ne_zero, if_false, INITIAL_RETRY_DELAY,
    RETRY_BACKOFF_MULTIPLIER, MAX_RETRY_DELAY, Second, pow_succ]
  generalize (2 : Int) ^ k = x
  omega

theorem specBackoffDelay_bounds (a : Nat) :
    0 ≤ specBackoffDelay a ∧ specBackoffDelay a ≤ 60 * Second := by
  unfold specBackoffDelay
  split
  · unfold Second; omega
  · have hp : (0 : Int) < 2 ^ (a - 1) := by positivity
    simp only [INITIAL_RETRY_DELAY, RETRY_BACKOFF_MULTIPLIER, MAX_RETRY_DELAY, Second]
    generalize (2 : Int) ^ (a - 1) = x at hp
    omega

/-- The waits of a state that has counted `a ≥ 1` attempts and holds the delay that the
specification gives for `a`. -/
theorem waits_from (n : Nat) :
    ∀ (m : Retry) (a : Nat), 1 ≤ a → m.attempt = (a : Int) → m.currentDelay = specBackoffDelay a →
      m.waits n = (List.range n).map (fun i => specBackoffDelay (a + i)) := by
  induction n with
  | zero => intro m a _ _ _; rfl
  | succ n ih =>
    intro m a ha hatt hdel
    have hb := specBackoffDelay_bounds a
    have h0 : m.attempt ≠ 0 := by rw [hatt]; omega
    have hstep := WaitBeforeReconnect_timer m h0 (by rw [hdel]; exact hb.1) (by rw [hdel]; exact hb.2)
    rw [Retry.waits, hstep, List.range_succ_eq_map, List.map_cons, List.map_map]
    simp only
    rw [ih _ (a + 1) (by omega) (by simp [hatt]) (by rw [hdel]; exact specBackoffDelay_succ a ha)]
    refine congrArg₂ _ (by simp [hdel]) ?_
    apply List.map_congr_left
    intro i _
    simp only [Function.comp, Nat.succ_eq_add_one]
    congr 1
    omega

/-- The waits of a state that has counted no attempt and holds the first delay. -/
theorem waits_fresh (m : Retry) (n : Nat) (hatt : m.attempt = 0)
    (hdel : m.currentDelay = INITIAL_RETRY_DELAY * Second) :
    m.waits n = (List.range n).map specBackoffDelay := by
  cases n with
  | zero => rfl
  | succ n =>
    rw [Retry.waits, WaitBeforeReconnect_first m none hatt, List.range_succ_eq_map, List.map_cons,
      List.map_map]
    simp only
    rw [waits_from n _ 1 (le_refl _) rfl (by simp only [hdel]; decide)]
    refine congrArg₂ _ rfl ?_
    apply List.map_congr_left
    intro i _
    simp only [Function.comp, Nat.succ_eq_add_one]
    congr 1
    omega

/-- C9: from a state as `NewRetry` makes it or as `Reset` leaves it, the successive
uncancelled calls of `WaitBeforeReconnect` wait what the specification says for the
attempt count at the start of the wait: nothing at the first call, then
`min(1s * 2^(attempt-1), 60s)`; that is 0, 1, 2, 4, 8, 16, 32 seconds and then 60
seconds at every later call. -/
theorem C9_backoff_delay_sequence (enabled : Bool) (maxAttempts : Int) (m : Retry) (n : Nat) :
    (NewRetry enabled maxAttempts).waits n = (List.range n).map specBackoffDelay ∧
    m.Reset.waits n = (List.range n).map specBackoffDelay ∧
    (NewRetry true 0).waits 7
      = [0, 1 * Second, 2 * Second, 4 * Second, 8 * Second, 16 * Second, 32 * Second] ∧
    (7 ≤ n → specBackoffDelay n = 60 * Second) ∧
    (7 ≤ n → ((NewRetry true 0).waits (n + 1)).getLast? = some (60 * Second)) := by
  have hlate : 7 ≤ n → specBackoffDelay n = 60 * Second := by
    intro hn
    obtain ⟨k, rfl⟩ : ∃ k, n = k + 7 := ⟨n - 7, by omega⟩
    unfold specBackoffDelay
    have hp : (0 : Int) < 2 ^ k := by positivity
    simp only [INITIAL_RETRY_DELAY, RETRY_BACKOFF_MULTIPLIER, MAX_RETRY_DELAY, Second]
    rw [if_neg (by omega), show k + 7 - 1 = k + 6 from rfl, pow_add]
    generalize (2 : Int) ^ k = x at hp
    norm_num
    omega
  refine ⟨waits_fresh _ n rfl rfl, waits_fresh _ n rfl rfl, by decide, hlate, ?_⟩
  intro hn
  rw [waits_fresh _ (n + 1) rfl rfl, List.range_succ, List.map_append, List.map_singleton,
    List.getLast?_append, List.getLast?_singleton]
  simp [hlate hn]

/-- C9 at the eighth and at the tenth call. -/
theorem C9_backoff_delay_witness :
    specBackoffDelay 7 = 60 * Second ∧ specBackoffDelay 9 = 60 * Second :=
  ⟨(C9_backoff_delay_sequence true 0 (NewRetry true 0) 7).2.2.2.1 (by decide),
    (C9_backoff_delay_sequence true 0 (NewRetry true 0) 9).2.2.2.1 (by decide)⟩

/-! ## The reconnection driver -/

theorem connectOnce_retry (c : WebSocketClient) (env : ConnectEnv) :
    (c.connectOnce env).client.retry = c.retry := by
  unfold WebSocketClient.connectOnce
  split
  · rfl
  · rcases env with ⟨p, q, d⟩
    cases p <;> cases q <;> cases d <;> rfl

theorem connectOnce_refused (c : WebSocketClient) (env : ConnectEnv) (h : env.refuses = true) :
    ∃ err, (c.connectOnce env).ret = some err := by
  unfold WebSocketClient.connectOnce
  split
  · exact ⟨_, rfl⟩
  · rcases env with ⟨p, q, d⟩
    cases p <;> cases q <;> cases d <;>
      first
        | exact ⟨_, rfl⟩
        | (simp [ConnectEnv.refuses] at h)

theorem ShouldReconnect_iff (m : Retry) (K : Nat) (hen : m.enabled = true) (hK : 0 < K)
    (hmax : m.maxAttempts = (K : Int)) : m.ShouldReconnect = true ↔ m.attempt < (K : Int) := by
  unfold Retry.ShouldReconnect
  have hpos : (0 : Int) < (K : Int) := by exact_mod_cast hK
  by_cases hlt : m.attempt < (K : Int)
  · simp [hen, hmax, hpos, hlt]
  · simp [hen, hmax, hpos, hlt, not_lt.1 hlt]

/-- A call of `WaitBeforeReconnect` that returns nil has added one to the attempt count,
and has changed neither the flag nor the bound. -/
theorem WaitBeforeReconnect_ok (m : Retry) (ctxDone : Option GoError)
    (h : (m.WaitBeforeReconnect ctxDone).err = none) :
    (m.WaitBeforeReconnect ctxDone).retry.attempt = m.attempt + 1 ∧
    (m.WaitBeforeReconnect ctxDone).retry.enabled = m.enabled ∧
    (m.WaitBeforeReconnect ctxDone).retry.maxAttempts = m.maxAttempts := by
  unfold Retry.WaitBeforeReconnect at h ⊢
  split
  · exact ⟨rfl, rfl, rfl⟩
  · rename_i h0
    simp only [h0, if_false] at h
    cases ctxDone with
    | some e => simp at h
    | none => exact ⟨rfl, rfl, rfl⟩

theorem WaitBeforeReconnect_live (m : Retry) : (m.WaitBeforeReconnect none).err = none := by
  unfold Retry.WaitBeforeReconnect
  split <;> rfl

/-- With a bound of `K > 0`, whatever happens, a run of the loop that starts with
`a ≤ K` attempts counted calls `connectOnce` at most `K - a` times. -/
theorem reconnectLoop_attempts_le (K : Nat) (hK : 0 < K) (envs : List LoopEnv) :
    ∀ (c : WebSocketClient) (a : Nat) (o : LoopOut), c.retry.enabled = true →
      c.retry.maxAttempts = (K : Int) → c.retry.attempt = (a : Int) → a ≤ K →
      c.reconnectLoop envs = some o → o.attempts + a ≤ K := by
  induction envs with
  | nil => intro c a o _ _ _ _ h; simp [WebSocketClient.reconnectLoop] at h
  | cons env rest ih =>
    intro c a o hen hmax hatt hle h
    unfold WebSocketClient.reconnectLoop at h
    split at h
    · cases h; simpa using hle
    · split at h
      · cases h; simpa using hle
      · rename_i hsr
        have hlt : c.retry.attempt < (K : Int) :=
          (ShouldReconnect_iff c.retry K hen hK hmax).1 (by simpa using hsr)
        have halt : a < K := by rw [hatt] at hlt; exact_mod_cast hlt
        simp only at h
        split at h
        · cases h; simpa using hle
        · rename_i hw
          have hok := WaitBeforeReconnect_ok c.retry env.waitCtx hw
          split at h
          · cases h; simpa using hle
          · split at h
            · cases h
              show 1 + a ≤ K
              omega
            · split at h
              · cases h
              · rename_i o' ho'
                cases h
                have := ih _ (a + 1) o'
                  (by rw [connectOnce_retry]; exact hok.2.1.trans hen)
                  (by rw [connectOnce_retry]; exact hok.2.2.trans hmax)
                  (by rw [connectOnce_retry]; simp only [hok.1, hatt]; push_cast; rfl)
                  halt ho'
                show o'.attempts + 1 + a ≤ K
                omega

/-- With a bound of `K > 0`, a live context and every dial refused, a run of the loop
that starts with `a ≤ K` attempts counted and has turns enough ends after `K - a` calls
of `connectOnce`, with `K` attempts counted. -/
theorem reconnectLoop_exhausts (K : Nat) (hK : 0 < K) (envs : List LoopEnv) :
    ∀ (c : WebSocketClient) (a : Nat), c.retry.enabled = true →
      c.retry.maxAttempts = (K : Int) → c.retry.attempt = (a : Int) → a ≤ K →
      K - a < envs.length → (∀ e ∈ envs, e.live = true ∧ e.connect.refuses = true) →
      ∃ o, c.reconnectLoop envs = some o ∧ o.attempts = K - a ∧
        o.client.retry.attempt = (K : Int) := by
  induction envs with
  | nil => intro c a _ _ _ _ hlen; simp at hlen
  | cons env rest ih =>
    intro c a hen hmax hatt hle hlen henv
    have he := henv env (List.mem_cons_self _ _)
    have hlive : env.ctxDone = false ∧ env.waitCtx = none ∧ env.ctxErr = none := by
      have := he.1
      simp only [LoopEnv.live, Bool.and_eq_true, Bool.not_eq_true', Option.isNone_iff_eq_none] at this
      exact ⟨this.1.1, this.1.2, this.2⟩
    unfold WebSocketClient.reconnectLoop
    simp only [hlive.1, Bool.false_eq_true, if_false]
    by_cases hlt : a < K
    · have hsr : c.retry.ShouldReconnect = true :=
        (ShouldReconnect_iff c.retry K hen hK hmax).2 (by rw [hatt]; exact_mod_cast hlt)
      have hw := WaitBeforeReconnect_live c.retry
      have hok := WaitBeforeReconnect_ok c.retry none hw
      obtain ⟨err, herr⟩ := connectOnce_refused
        { c with retry := (c.retry.WaitBeforeReconnect none).retry } env.connect he.2
      obtain ⟨o', ho', hatt', hfin⟩ := ih
        ({ c with retry := (c.retry.WaitBeforeReconnect none).retry }.connectOnce env.connect).client
        (a + 1)
        (by rw [connectOnce_retry]; exact hok.2.1.trans hen)
        (by rw [connectOnce_retry]; exact hok.2.2.trans hmax)
        (by rw [connectOnce_retry]; simp only [hok.1, hatt]; push_cast; rfl)
        hlt
        (by simp only [List.length_cons] at hlen; omega)
        (fun e he' => henv e (List.mem_cons_of_mem _ he'))
      simp only [hsr, Bool.not_true, Bool.false_eq_true, if_false, hlive.2.1, hw, hlive.2.2, herr, ho']
      refine ⟨_, rfl, ?_, hfin⟩
      show o'.attempts + 1 = K - a
      omega
    · have hKa : a = K := by omega
      have hsr : c.retry.ShouldReconnect = false := by
        cases h : c.retry.ShouldReconnect with
        | false => rfl
        | true =>
          have := (ShouldReconnect_iff c.retry K hen hK hmax).1 h
          rw [hatt] at this
          exact absurd (by exact_mod_cast this) hlt
      simp only [hsr, Bool.not_false, if_true]
      refine ⟨_, rfl, ?_, ?_⟩
      · show 0 = K - a
        omega
      · show c.retry.attempt = (K : Int)
        rw [hatt, hKa]

/-- C10: with auto-reconnect enabled, a bound of `K > 0` attempts, no attempt counted
yet, a context that is never cancelled and every connection refused, `reconnectLoop`
returns, given turns enough, after exactly `K` calls of `connectOnce`, the attempt count
standing at `K`; and under any environment at all a run that returns has made at most
`K` calls: there is no call number `K + 1`. -/
theorem C10_reconnect_stops_after_max_attempts (c : WebSocketClient) (K : Nat)
    (envs other : List LoopEnv) (hK : 0 < K) (hen : c.retry.enabled = true)
    (hmax : c.retry.maxAttempts = (K : Int)) (hatt : c.retry.attempt = 0)
    (hlen : K < envs.length) (henv : ∀ e ∈ envs, e.live = true ∧ e.connect.refuses = true) :
    (∃ o, c.reconnectLoop envs = some o ∧ o.attempts = K ∧ o.client.retry.attempt = (K : Int)) ∧
    (∀ o, c.reconnectLoop other = some o → o.attempts ≤ K) := by
  constructor
  · obtain ⟨o, ho, h1, h2⟩ := reconnectLoop_exhausts K hK envs c 0 hen hmax (by simpa using hatt)
      (Nat.zero_le _) (by simpa using hlen) henv
    exact ⟨o, ho, by simpa using h1, h2⟩
  · intro o ho
    have := reconnectLoop_attempts_le K hK other c 0 o hen hmax (by simpa using hatt)
      (Nat.zero_le _) ho
    simpa using this

theorem sample_turns_refused :
    ∀ e ∈ List.replicate 4 turnRefused, e.live = true ∧ e.connect.refuses = true := by
  intro e he
  rw [List.eq_of_mem_replicate he]
  decide

/-- C10 at the sample client with a bound of three attempts, after a `Connect` whose
dial is refused: the loop makes three attempts, after waits of 0, 1 and 2 seconds. -/
theorem C10_reconnect_stops_witness :
    (0 < 3 ∧ (boundedClient.Connect dialRefused).client.retry.enabled = true ∧
      (boundedClient.Connect dialRefused).client.retry.maxAttempts = ((3 : Nat) : Int) ∧
      (boundedClient.Connect dialRefused).client.retry.attempt = 0 ∧
      3 < (List.replicate 4 turnRefused).length) ∧
    (∃ o, (boundedClient.Connect dialRefused).client.reconnectLoop (List.replicate 4 turnRefused)
        = some o ∧ o.attempts = 3 ∧ o.client.retry.attempt = ((3 : Nat) : Int)) ∧
    ((boundedClient.Connect dialRefused).client.reconnectLoop (List.replicate 4 turnRefused)).map
        (fun o => o.waits) = some [0, 1 * Second, 2 * Second] :=
  ⟨⟨by decide, by decide, by decide, by decide, by decide⟩,
    (C10_reconnect_stops_after_max_attempts (boundedClient.Connect dialRefused).client 3
      (List.replicate 4 turnRefused) [] (by decide) (by decide) (by decide) (by decide)
      (by decide) sample_turns_refused).1,
    by decide⟩

/-! ## The retry state -/

/-- C11: `ShouldReconnect` returns false exactly when retry is disabled or the bound is
positive and reached; it is a function of the state alone and assigns nothing, so that
the loop which leaves on its answer leaves the client as it was; with retry enabled and
a bound of 0 it returns true whatever the attempt count. -/
theorem C11_should_reconnect_iff (m : Retry) (c : WebSocketClient) (env : LoopEnv)
    (rest : List LoopEnv) :
    (m.ShouldReconnect = false ↔
      (m.enabled = false ∨ (m.maxAttempts > 0 ∧ m.attempt ≥ m.maxAttempts))) ∧
    (m.enabled = true → m.maxAttempts = 0 → m.ShouldReconnect = true) ∧
    (env.ctxDone = false → c.retry.ShouldReconnect = false →
      c.reconnectLoop (env :: rest)
        = some { client := c, events := [], attempts := 0, waits := [] }) := by
  refine ⟨?_, ?_, ?_⟩
  · unfold Retry.ShouldReconnect
    cases he : m.enabled
    · simp
    · by_cases h1 : m.maxAttempts > 0
      · by_cases h2 : m.attempt ≥ m.maxAttempts
        · simp [h1, h2]
        · simp [h1, h2]
      · simp [h1]
  · intro he h0
    unfold Retry.ShouldReconnect
    simp [he, h0]
  · intro hc hs
    unfold WebSocketClient.reconnectLoop
    simp [hc, hs]

/-- C11 for unbounded retry after a million attempts, and for a bound of three reached. -/
theorem C11_should_reconnect_witness :
    (({ enabled := true, maxAttempts := 0, currentDelay := 60 * Second, attempt := 1000000 } :
        Retry).ShouldReconnect = true) ∧
    (turnRefused.ctxDone = false ∧
      ({ boundedClient with retry := { boundedClient.retry with attempt := 3 } } :
        WebSocketClient).retry.ShouldReconnect = false ∧
      ({ boundedClient with retry := { boundedClient.retry with attempt := 3 } } :
        WebSocketClient).reconnectLoop [turnRefused]
        = some
            { client := { boundedClient with retry := { boundedClient.retry with attempt := 3 } }
              events := [], attempts := 0, waits := [] }) :=
  ⟨(C11_should_reconnect_iff
      { enabled := true, maxAttempts := 0, currentDelay := 60 * Second, attempt := 1000000 }
      boundedClient turnRefused []).2.1 rfl rfl,
    rfl, by decide,
    (C11_should_reconnect_iff boundedClient.retry
      { boundedClient with retry := { boundedClient.retry with attempt := 3 } } turnRefused
      []).2.2 rfl (by decide)⟩

theorem connectOnce_ok_iff (c : WebSocketClient) (env : ConnectEnv) :
    (c.connectOnce env).ret = none ↔ Event.goReadLoop ∈ (c.connectOnce env).events := by
  unfold WebSocketClient.connectOnce
  split
  · simp [NewClientAlreadyConnectedError]
  · rcases env with ⟨p, q, d⟩
    cases p <;> cases q <;> cases d <;> cases hl : c.listener <;>
      simp [WebSocketClient.setState, hl]

theorem WaitBeforeReconnect_flags (m : Retry) (ctxDone : Option GoError) :
    (m.WaitBeforeReconnect ctxDone).retry.enabled = m.enabled ∧
    (m.WaitBeforeReconnect ctxDone).retry.maxAttempts = m.maxAttempts := by
  unfold Retry.WaitBeforeReconnect
  split
  · exact ⟨rfl, rfl⟩
  · cases ctxDone <;> exact ⟨rfl, rfl⟩

/-- A run of the loop in which a call of `connectOnce` succeeds ends with the retry
state reset. -/
theorem reconnectLoop_resets (envs : List LoopEnv) :
    ∀ (c : WebSocketClient) (o : LoopOut), c.reconnectLoop envs = some o →
      Event.goReadLoop ∈ o.events →
      o.client.retry.attempt = 0 ∧ o.client.retry.currentDelay = 1 * Second ∧
      o.client.retry.enabled = c.retry.enabled ∧
      o.client.retry.maxAttempts = c.retry.maxAttempts := by
  induction envs with
  | nil => intro c o h; simp [WebSocketClient.reconnectLoop] at h
  | cons env rest ih =>
    intro c o h hmem
    have hf := WaitBeforeReconnect_flags c.retry env.waitCtx
    unfold WebSocketClient.reconnectLoop at h
    split at h
    · cases h; simp at hmem
    · split at h
      · cases h; simp at hmem
      · simp only at h
        split at h
        · cases h; simp at hmem
        · split at h
          · cases h; simp at hmem
          · split at h
            · cases h
              refine ⟨rfl, rfl, ?_, ?_⟩
              · show (WebSocketClient.connectOnce _ env.connect).client.retry.enabled = _
                rw [connectOnce_retry]; exact hf.1
              · show (WebSocketClient.connectOnce _ env.connect).client.retry.maxAttempts = _
                rw [connectOnce_retry]; exact hf.2
            · rename_i err herr
              split at h
              · cases h
              · rename_i o' ho'
                cases h
                have hnot : Event.goReadLoop ∉
                    (WebSocketClient.connectOnce
                      { c with retry := (c.retry.WaitBeforeReconnect env.waitCtx).retry }
                      env.connect).events := by
                  intro hin
                  have := (connectOnce_ok_iff _ _).2 hin
                  rw [herr] at this
                  cases this
                have hin' : Event.goReadLoop ∈ o'.events := by
                  rcases List.mem_append.1 hmem with h1 | h1
                  · exact absurd h1 hnot
                  · exact h1
                have := ih _ o' ho' hin'
                rw [connectOnce_retry] at this
                exact ⟨this.1, this.2.1, this.2.2.1.trans hf.1, this.2.2.2.trans hf.2⟩

/-- C12: `Reset` puts the attempt count to 0 and the delay to one second and keeps the
flag and the bound; a `Connect` whose `connectOnce` succeeds leaves the retry state so
reset, whatever it was; a call of `connectOnce` succeeds exactly when it starts the read
loop, and a run of `reconnectLoop` in which that happens ends with the retry state so
reset. -/
theorem C12_success_resets_retry (m : Retry) (c : WebSocketClient) (env : ConnectEnv)
    (envs : List LoopEnv) (o : LoopOut) :
    m.Reset
      = { enabled := m.enabled, maxAttempts := m.maxAttempts, currentDelay := 1 * Second
          attempt := 0 } ∧
    ((c.connectOnce env).ret = none →
      (c.Connect env).client.retry
        = { enabled := c.retry.enabled, maxAttempts := c.retry.maxAttempts
            currentDelay := 1 * Second, attempt := 0 }) ∧
    ((c.connectOnce env).ret = none ↔ Event.goReadLoop ∈ (c.connectOnce env).events) ∧
    (c.reconnectLoop envs = some o → Event.goReadLoop ∈ o.events →
      o.client.retry
        = { enabled := c.retry.enabled, maxAttempts := c.retry.maxAttempts
            currentDelay := 1 * Second, attempt := 0 }) := by
  refine ⟨rfl, ?_, connectOnce_ok_iff c env, ?_⟩
  · intro h
    have hr := connectOnce_retry c env
    unfold WebSocketClient.Connect
    simp only [h]
    show (c.connectOnce env).client.retry.Reset = _
    rw [hr]
    rfl
  · intro h hmem
    have := reconnectLoop_resets envs c o h hmem
    rcases hr : o.client.retry with ⟨e, k, d, a⟩
    rw [hr] at this
    simp only at this
    rw [this.1, this.2.1, this.2.2.1, this.2.2.2]

theorem wornClient_loop_returns :
    (wornClient.reconnectLoop [turnRefused, turnOk]).isSome = true := by decide

theorem wornClient_loop_connects :
    Event.goReadLoop ∈
      ((wornClient.reconnectLoop [turnRefused, turnOk]).get wornClient_loop_returns).events := by
  rw [show ((wornClient.reconnectLoop [turnRefused, turnOk]).get wornClient_loop_returns).events
    = [Event.OnStateChanged "ws_connecting",
       Event.goDialConfig "ws://localhost:7125/websocket" [],
       Event.OnStateChanged "ws_stopped",
       Event.OnException (GoError.WebSocketError "connection failed"
         (some (GoError.External "connection refused"))),
       Event.OnStateChanged "ws_connecting",
       Event.goDialConfig "ws://localhost:7125/websocket" [],
       Event.OnStateChanged "ws_connected", Event.goReadLoop, Event.goWriteLoop] from rfl]
  simp

/-- C12 at a client that has counted five attempts: a `Connect` that succeeds, and a
run of the loop whose second turn succeeds. -/
theorem C12_success_resets_witness :
    ((wornClient.connectOnce dialOk).ret = none ∧
      (wornClient.Connect dialOk).client.retry
        = { enabled := true, maxAttempts := 0, currentDelay := 1 * Second, attempt := 0 }) ∧
    (wornClient.reconnectLoop [turnRefused, turnOk]
        = some ((wornClient.reconnectLoop [turnRefused, turnOk]).get wornClient_loop_returns) ∧
      Event.goReadLoop ∈
        ((wornClient.reconnectLoop [turnRefused, turnOk]).get wornClient_loop_returns).events ∧
      ((wornClient.reconnectLoop [turnRefused, turnOk]).get wornClient_loop_returns).client.retry
        = { enabled := true, maxAttempts := 0, currentDelay := 1 * Second, attempt := 0 }) :=
  ⟨⟨rfl,
      (C12_success_resets_retry wornClient.retry wornClient dialOk []
        { client := wornClient, events := [], attempts := 0, waits := [] }).2.1 rfl⟩,
    (Option.some_get _).symm, wornClient_loop_connects,
    (C12_success_resets_retry wornClient.retry wornClient dialOk [turnRefused, turnOk]
      ((wornClient.reconnectLoop [turnRefused, turnOk]).get wornClient_loop_returns)).2.2.2
      (Option.some_get _).symm wornClient_loop_connects⟩

/-! ## Connect and Disconnect outside their states -/

/-- C13, as stated, fails: on the connected sample client, made with auto-reconnect, a
`Connect` call returns nil, not the error, and starts the reconnection loop. -/
theorem C13_connect_not_stopped_counterexample :
    connectedClient.state = WEB_SOCKET_STATE_CONNECTED ∧
    connectedClient.config.AutoReconnect = true ∧
    (connectedClient.Connect dialOk).ret = none ∧
    (connectedClient.Connect dialOk).events = [Event.goReconnectLoop] :=
  ⟨by decide, by decide, rfl, rfl⟩

/-- C13, amended: on a client whose state is not Stopped `connectOnce` returns at once
the `ClientAlreadyConnectedError` "client already connecting or connected" and touches
nothing; a `Connect` call then leaves the client, its state included, as it was, makes
no call on the listener and starts no dial, whatever the configuration; and with
auto-reconnect disabled it returns that error and starts nothing at all. -/
theorem C13_connect_not_stopped (c : WebSocketClient) (env : ConnectEnv)
    (h : c.state ≠ WEB_SOCKET_STATE_STOPPED) :
    c.connectOnce env
      = { ret := some (GoError.ClientAlreadyConnectedError "client already connecting or connected")
          client := c
          events := [] } ∧
    (c.Connect env).client = c ∧
    (c.Connect env).events.filter Event.isListenerCall = [] ∧
    (∀ wsURL header, Event.goDialConfig wsURL header ∉ (c.Connect env).events) ∧
    (c.retry.enabled = false →
      c.Connect env
        = { ret := some (GoError.ClientAlreadyConnectedError "client already connecting or connected")
            client := c
            events := [] }) := by
  have h1 : c.connectOnce env
      = { ret := some (GoError.ClientAlreadyConnectedError "client already connecting or connected")
          client := c
          events := [] } := by
    unfold WebSocketClient.connectOnce
    simp [h, NewClientAlreadyConnectedError]
  refine ⟨h1, ?_, ?_, ?_, ?_⟩
  · unfold WebSocketClient.Connect
    simp only [h1]
    split <;> rfl
  · unfold WebSocketClient.Connect
    simp only [h1]
    split <;> simp [Event.isListenerCall]
  · intro wsURL header
    unfold WebSocketClient.Connect
    simp only [h1]
    split <;> simp
  · intro he
    unfold WebSocketClient.Connect
    simp [h1, Retry.IsEnabled, he]

/-- C13, amended, at the connected sample client made without auto-reconnect. -/
theorem C13_connect_not_stopped_witness :
    plainConnectedClient.state ≠ WEB_SOCKET_STATE_STOPPED ∧
    plainConnectedClient.retry.enabled = false ∧
    plainConnectedClient.Connect dialOk
      = { ret := some (GoError.ClientAlreadyConnectedError "client already connecting or connected")
          client := plainConnectedClient
          events := [] } :=
  ⟨by decide, by decide,
    (C13_connect_not_stopped plainConnectedClient dialOk (by decide)).2.2.2.2 (by decide)⟩

/-- C14, as stated, fails: the sample client whose read loop met a receive error is in
state Stopped and still holds its socket, and `Disconnect` returns leaving it so. -/
theorem C14_disconnect_counterexample :
    droppedClient.state = WEB_SOCKET_STATE_STOPPED ∧
    droppedClient.Disconnect.ret = none ∧
    droppedClient.Disconnect.client.state = WEB_SOCKET_STATE_STOPPED ∧
    droppedClient.Disconnect.client.conn = some { fd := 3 } :=
  ⟨by decide, rfl, by decide, by decide⟩

/-- C14, amended: `Disconnect` always returns nil and ends in state Stopped; on a client
that is not Stopped it ends with no socket owned, and the listener, when there is one,
sees exactly the two calls `OnStateChanged` Stopping and then Stopped (no call when
there is none); on a client that is Stopped already it changes nothing and makes no
call; so a second `Disconnect` changes nothing. -/
theorem C14_disconnect (c : WebSocketClient) :
    c.Disconnect.ret = none ∧
    c.Disconnect.client.state = WEB_SOCKET_STATE_STOPPED ∧
    (c.state ≠ WEB_SOCKET_STATE_STOPPED →
      c.Disconnect.client.conn = none ∧
      (∀ l, c.listener = some l →
        c.Disconnect.events.filter Event.isListenerCall
          = [Event.OnStateChanged WEB_SOCKET_STATE_STOPPING,
             Event.OnStateChanged WEB_SOCKET_STATE_STOPPED]) ∧
      (c.listener = none → c.Disconnect.events.filter Event.isListenerCall = [])) ∧
    (c.state = WEB_SOCKET_STATE_STOPPED →
      c.Disconnect = { ret := none, client := c, events := [] }) ∧
    c.Disconnect.client.Disconnect
      = { ret := none, client := c.Disconnect.client, events := [] } := by
  have hstop : ∀ d : WebSocketClient, d.state = WEB_SOCKET_STATE_STOPPED →
      d.Disconnect = { ret := none, client := d, events := [] } := by
    intro d hd
    unfold WebSocketClient.Disconnect
    simp [hd]
  have hfin : c.Disconnect.client.state = WEB_SOCKET_STATE_STOPPED := by
    by_cases hs : c.state = WEB_SOCKET_STATE_STOPPED
    · rw [hstop c hs]; exact hs
    · unfold WebSocketClient.Disconnect
      simp only [hs, if_false]
      rfl
  refine ⟨?_, hfin, ?_, hstop c, hstop _ hfin⟩
  · unfold WebSocketClient.Disconnect
    split <;> rfl
  · intro hs
    unfold WebSocketClient.Disconnect
    simp only [hs, if_false]
    refine ⟨?_, ?_, ?_⟩
    · cases hc : c.conn <;> cases hcl : c.closeChan.closed <;>
        simp [WebSocketClient.setState, hc, hcl]
    · intro l hl
      cases hc : c.conn <;> cases hcl : c.closeChan.closed <;>
        simp [WebSocketClient.setState, hc, hcl, hl, Event.isListenerCall]
    · intro hl
      cases hc : c.conn <;> cases hcl : c.closeChan.closed <;>
        simp [WebSocketClient.setState, hc, hcl, hl, Event.isListenerCall]

/-- C14, amended, at the connected sample client. -/
theorem C14_disconnect_witness :
    connectedClient.state ≠ WEB_SOCKET_STATE_STOPPED ∧
    connectedClient.listener = some { name := 0 } ∧
    connectedClient.Disconnect.client.conn = none ∧
    connectedClient.Disconnect.events.filter Event.isListenerCall
      = [Event.OnStateChanged WEB_SOCKET_STATE_STOPPING,
         Event.OnStateChanged WEB_SOCKET_STATE_STOPPED] :=
  ⟨by decide, rfl, ((C14_disconnect connectedClient).2.2.1 (by decide)).1,
    ((C14_disconnect connectedClient).2.2.1 (by decide)).2.1 { name := 0 } rfl⟩

/-! ## The listener is kept informed of the state -/

theorem lastReported_append (known : String) (a b : List Event) :
    lastReported known (a ++ b) = lastReported (lastReported known a) b := by
  unfold lastReported reportedStates
  rw [List.filterMap_append, List.getLast?_append]
  cases (List.filterMap Event.reportedState? b).getLast? <;> simp

theorem StateTracked_refl (c : WebSocketClient) : StateTracked c [] c :=
  ⟨rfl, fun _ _ => rfl⟩

theorem StateTracked_trans {a b c : WebSocketClient} {e₁ e₂ : List Event}
    (h₁ : StateTracked a e₁ b) (h₂ : StateTracked b e₂ c) : StateTracked a (e₁ ++ e₂) c := by
  refine ⟨h₂.1.trans h₁.1, ?_⟩
  intro l hl
  rw [lastReported_append, h₁.2 l hl]
  exact h₂.2 l (h₁.1.trans hl)

/-- Calls that report no state, on the way between two clients of the same state and
listener. -/
theorem StateTracked_quiet {c c' : WebSocketClient} {events : List Event}
    (hl : c'.listener = c.listener) (hs : c'.state = c.state)
    (hq : reportedStates events = []) : StateTracked c events c' := by
  refine ⟨hl, fun _ _ => ?_⟩
  unfold lastReported
  rw [hq, hs]
  rfl

theorem setState_tracked (c : WebSocketClient) (s : String) :
    StateTracked c (c.setState s).2 (c.setState s).1 := by
  refine ⟨rfl, ?_⟩
  intro l hl
  simp [WebSocketClient.setState, hl, lastReported, reportedStates, Event.reportedState?]

theorem connectOnce_tracked (c : WebSocketClient) (env : ConnectEnv) :
    StateTracked c (c.connectOnce env).events (c.connectOnce env).client := by
  unfold WebSocketClient.connectOnce
  split
  · exact StateTracked_refl c
  · rcases env with ⟨p, q, d⟩
    refine ⟨?_, ?_⟩
    · cases p <;> cases q <;> cases d <;> rfl
    · intro l hl
      cases p <;> cases q <;> cases d <;>
        simp [WebSocketClient.setState, hl, lastReported, reportedStates, Event.reportedState?]

theorem Connect_tracked (c : WebSocketClient) (env : ConnectEnv) :
    StateTracked c (c.Connect env).events (c.Connect env).client := by
  have h := connectOnce_tracked c env
  unfold WebSocketClient.Connect
  simp only
  split
  · exact h
  · split
    · exact h
    · have hq : StateTracked (c.connectOnce env).client [Event.goReconnectLoop]
          (c.connectOnce env).client := StateTracked_quiet rfl rfl rfl
      exact StateTracked_trans h hq

theorem reconnectLoop_tracked (envs : List LoopEnv) :
    ∀ (c : WebSocketClient) (o : LoopOut), c.reconnectLoop envs = some o →
      StateTracked c o.events o.client := by
  induction envs with
  | nil => intro c o h; simp [WebSocketClient.reconnectLoop] at h
  | cons env rest ih =>
    intro c o h
    unfold WebSocketClient.reconnectLoop at h
    split at h
    · cases h; exact StateTracked_refl c
    · split at h
      · cases h; exact StateTracked_refl c
      · simp only at h
        split at h
        · cases h; exact StateTracked_quiet rfl rfl rfl
        · split at h
          · cases h; exact StateTracked_quiet rfl rfl rfl
          · have hc := connectOnce_tracked
              { c with retry := (c.retry.WaitBeforeReconnect env.waitCtx).retry } env.connect
            have hc' : StateTracked c
                (WebSocketClient.connectOnce
                  { c with retry := (c.retry.WaitBeforeReconnect env.waitCtx).retry }
                  env.connect).events
                (WebSocketClient.connectOnce
                  { c with retry := (c.retry.WaitBeforeReconnect env.waitCtx).retry }
                  env.connect).client := hc
            split at h
            · cases h
              exact ⟨hc'.1, hc'.2⟩
            · split at h
              · cases h
              · rename_i o' ho'
                cases h
                exact StateTracked_trans hc' (ih _ o' ho')

theorem Disconnect_tracked (c : WebSocketClient) :
    StateTracked c c.Disconnect.events c.Disconnect.client := by
  unfold WebSocketClient.Disconnect
  split
  · exact StateTracked_refl c
  · refine ⟨?_, ?_⟩
    · cases hc : c.conn <;> cases hcl : c.closeChan.closed <;>
        simp [WebSocketClient.setState, hc, hcl]
    · intro l hl
      cases hc : c.conn <;> cases hcl : c.closeChan.closed <;>
        simp [WebSocketClient.setState, hc, hcl, hl, lastReported, reportedStates,
          Event.reportedState?]

theorem handleMessage_quiet (c : WebSocketClient) (message : WebSocketMessage) :
    (c.handleMessage message).client.listener = c.listener ∧
    (c.handleMessage message).client.state = c.state ∧
    reportedStates (c.handleMessage message).events = [] := by
  have hmap : ∀ hs : List DataHandler,
      reportedStates (hs.map (fun handler => Event.goProcessDataMessage handler message)) = [] := by
    intro hs
    induction hs with
    | nil => rfl
    | cons a t ih =>
      unfold reportedStates at ih ⊢
      simp [List.filterMap_cons, Event.reportedState?, ih]
  unfold WebSocketClient.handleMessage
  split
  · split
    · simp only
      split
      · split <;> exact ⟨rfl, rfl, rfl⟩
      · exact ⟨rfl, rfl, rfl⟩
      · exact ⟨rfl, rfl, rfl⟩
    · exact ⟨rfl, rfl, rfl⟩
  · split
    · refine ⟨rfl, rfl, ?_⟩
      simp only
      unfold reportedStates at hmap ⊢
      rw [List.filterMap_append, hmap]
      cases c.listener <;> simp [Event.reportedState?]
    · exact ⟨rfl, rfl, rfl⟩

theorem handleMessage_tracked (c : WebSocketClient) (message : WebSocketMessage) :
    StateTracked c (c.handleMessage message).events (c.handleMessage message).client :=
  StateTracked_quiet (handleMessage_quiet c message).1 (handleMessage_quiet c message).2.1
    (handleMessage_quiet c message).2.2

theorem readLoop_received_tracked (c : WebSocketClient) (rx : Received) :
    StateTracked c (WebSocketClient.readLoop.received c rx).events
      (WebSocketClient.readLoop.received c rx).client := by
  cases rx with
  | frame m => exact handleMessage_tracked c m
  | eof => exact setState_tracked c WEB_SOCKET_STATE_STOPPED
  | failed err =>
    refine ⟨rfl, ?_⟩
    intro l hl
    simp only [WebSocketClient.readLoop.received, WebSocketClient.setState, hl]
    split <;> simp [lastReported, reportedStates, Event.reportedState?]

theorem readLoop_turn_tracked (c : WebSocketClient) (rx : Received) :
    StateTracked c (WebSocketClient.readLoop.turn c rx).events
      (WebSocketClient.readLoop.turn c rx).client := by
  unfold WebSocketClient.readLoop.turn
  split
  · exact StateTracked_refl c
  · exact readLoop_received_tracked c rx

theorem writeLoop_turn_tracked (c : WebSocketClient) (sel : WriteCase) (sendErr : Option GoError)
    (r : Out Turn) (h : WebSocketClient.writeLoop.turn c sel sendErr = some r) :
    StateTracked c r.events r.client := by
  unfold WebSocketClient.writeLoop.turn at h
  cases sel with
  | closed =>
    simp only at h
    split at h
    · cases h; exact StateTracked_refl c
    · cases h
  | message =>
    simp only at h
    split at h
    · cases h
    · cases sendErr with
      | none => cases h; exact StateTracked_quiet rfl rfl rfl
      | some err =>
        cases h
        refine ⟨rfl, ?_⟩
        intro l hl
        simp [WebSocketClient.setState, hl, lastReported, reportedStates, Event.reportedState?]

theorem start_quiet (c : WebSocketClient) (method : String) (params : Any) (timeout : Int) :
    StateTracked c (WebSocketClient.SendRequestWithTimeout.start c method params timeout).events
      (WebSocketClient.SendRequestWithTimeout.start c method params timeout).client := by
  unfold WebSocketClient.SendRequestWithTimeout.start
  split
  · exact StateTracked_refl c
  · simp only
    split <;> exact StateTracked_quiet rfl rfl rfl

theorem await_quiet (c : WebSocketClient) (w : Waiter) (sel : SelectCase)
    (r : Out (Option WebSocketMessage × Option GoError))
    (h : WebSocketClient.SendRequestWithTimeout.await c w sel = some r) :
    StateTracked c r.events r.client := by
  unfold WebSocketClient.SendRequestWithTimeout.await at h
  cases sel with
  | response =>
    simp only at h
    split at h
    · cases h
    · split at h <;> (cases h; exact StateTracked_quiet rfl rfl rfl)
  | timer => cases h; exact StateTracked_quiet rfl rfl rfl

theorem SendNotification_quiet (c : WebSocketClient) (method : String) (params : Any)
    (r : Out (Option GoError)) (h : c.SendNotification method params = some r) :
    StateTracked c r.events r.client := by
  unfold WebSocketClient.SendNotification at h
  split at h
  · cases h; exact StateTracked_refl c
  · simp only at h
    split at h
    · cases h; exact StateTracked_quiet rfl rfl rfl
    · cases h; exact StateTracked_refl c
    · cases h

/-- Every operation keeps the listener informed of the state. -/
theorem step_tracked (c : WebSocketClient) (op : Op) :
    StateTracked c (c.stepEvents op) (c.step op).1 := by
  cases op with
  | Connect env => exact Connect_tracked c env
  | connectOnce env => exact connectOnce_tracked c env
  | reconnectLoop envs =>
    simp only [WebSocketClient.step, WebSocketClient.stepEvents]
    cases h : c.reconnectLoop envs with
    | none => exact StateTracked_refl c
    | some o => exact reconnectLoop_tracked envs c o h
  | Disconnect => exact Disconnect_tracked c
  | AddDataHandler handler => exact StateTracked_quiet rfl rfl rfl
  | removeDataHandler handler => exact StateTracked_quiet rfl rfl rfl
  | readLoopTurn rx => exact readLoop_turn_tracked c rx
  | readLoopReceived rx => exact readLoop_received_tracked c rx
  | writeLoopTurn sel sendErr =>
    simp only [WebSocketClient.step, WebSocketClient.stepEvents]
    cases h : WebSocketClient.writeLoop.turn c sel sendErr with
    | none => exact StateTracked_refl c
    | some r => exact writeLoop_turn_tracked c sel sendErr r h
  | handleMessage message => exact handleMessage_tracked c message
  | start method params timeout => exact start_quiet c method params timeout
  | await w sel =>
    simp only [WebSocketClient.step, WebSocketClient.stepEvents]
    cases h : WebSocketClient.SendRequestWithTimeout.await c w sel with
    | none => exact StateTracked_refl c
    | some r => exact await_quiet c w sel r h
  | SendNotification method params =>
    simp only [WebSocketClient.step, WebSocketClient.stepEvents]
    cases h : c.SendNotification method params with
    | none => exact StateTracked_refl c
    | some r => exact SendNotification_quiet c method params r h

theorem run_tracked (ops : List Op) :
    ∀ c : WebSocketClient, StateTracked c (c.runEvents ops) (c.run ops).1 := by
  induction ops with
  | nil => intro c; exact StateTracked_refl c
  | cons op rest ih =>
    intro c
    exact StateTracked_trans (step_tracked c op) (ih (c.step op).1)

/-- C15: on a client with a listener every assignment of the state is one call of
`OnStateChanged` with the new state, made within the operation: `connectOnce` on a
Stopped client reports Connecting and then the state it ends in (nothing on another
client, whose state it keeps), `Disconnect` reports Stopping and Stopped (nothing on a
Stopped client), a receive failure of the read loop and a send failure of the write
loop report Stopped; so after any sequence of operations the state last reported is the
one `GetState` returns, and when nothing was reported the state is the one of before,
Stopped on a client as constructed. -/
theorem C15_state_changes_reported (c : WebSocketClient) (l : StatusListener) (s : String)
    (env : ConnectEnv) (rx : Received) (sendErr : GoError) (ops : List Op)
    (cfg : config.MoonrakerConfig) (hl : c.listener = some l) :
    ((c.setState s).1.state = s ∧ (c.setState s).2 = [Event.OnStateChanged s]) ∧
    (c.state ≠ WEB_SOCKET_STATE_STOPPED →
      reportedStates (c.connectOnce env).events = [] ∧
      (c.connectOnce env).client.state = c.state) ∧
    (c.state = WEB_SOCKET_STATE_STOPPED →
      reportedStates (c.connectOnce env).events
        = [WEB_SOCKET_STATE_CONNECTING, (c.connectOnce env).client.state]) ∧
    (c.state ≠ WEB_SOCKET_STATE_STOPPED →
      reportedStates c.Disconnect.events
        = [WEB_SOCKET_STATE_STOPPING, WEB_SOCKET_STATE_STOPPED]) ∧
    (c.state = WEB_SOCKET_STATE_STOPPED →
      reportedStates c.Disconnect.events = [] ∧ c.Disconnect.client.state = c.state) ∧
    ((∀ m, rx ≠ Received.frame m) →
      reportedStates (WebSocketClient.readLoop.received c rx).events = [WEB_SOCKET_STATE_STOPPED] ∧
      (WebSocketClient.readLoop.received c rx).client.state = WEB_SOCKET_STATE_STOPPED) ∧
    (∀ r, WebSocketClient.writeLoop.turn c WriteCase.message (some sendErr) = some r →
      reportedStates r.events = [WEB_SOCKET_STATE_STOPPED] ∧
      r.client.state = WEB_SOCKET_STATE_STOPPED) ∧
    lastReported c.state (c.runEvents ops) = (c.run ops).1.GetState ∧
    lastReported WEB_SOCKET_STATE_STOPPED ((NewWebSocketClient cfg (some l)).runEvents ops)
      = ((NewWebSocketClient cfg (some l)).run ops).1.GetState := by
  refine ⟨?_, ?_, ?_, ?_, ?_, ?_, ?_, ?_, ?_⟩
  · simp [WebSocketClient.setState, hl]
  · intro hs
    unfold WebSocketClient.connectOnce
    simp [hs, reportedStates]
  · intro hs
    unfold WebSocketClient.connectOnce
    rcases env with ⟨p, q, d⟩
    cases p <;> cases q <;> cases d <;>
      simp [hs, WebSocketClient.setState, hl, reportedStates, Event.reportedState?]
  · intro hs
    unfold WebSocketClient.Disconnect
    cases hc : c.conn <;> cases hcl : c.closeChan.closed <;>
      simp [hs, WebSocketClient.setState, hc, hcl, hl, reportedStates, Event.reportedState?]
  · intro hs
    unfold WebSocketClient.Disconnect
    simp [hs, reportedStates]
  · intro hrx
    cases rx with
    | frame m => exact absurd rfl (hrx m)
    | eof =>
      simp [WebSocketClient.readLoop.received, WebSocketClient.setState, hl, reportedStates,
        Event.reportedState?]
    | failed err =>
      simp only [WebSocketClient.readLoop.received, WebSocketClient.setState, hl]
      split <;> simp [reportedStates, Event.reportedState?]
  · intro r hr
    unfold WebSocketClient.writeLoop.turn at hr
    simp only at hr
    split at hr
    · cases hr
    · cases hr
      simp [WebSocketClient.setState, hl, reportedStates, Event.reportedState?]
  · exact (run_tracked ops c).2 l hl
  · exact (run_tracked ops (NewWebSocketClient cfg (some l))).2 l rfl

/-- C15 at the connected sample client: a `Disconnect`, and a receive error. -/
theorem C15_state_changes_reported_witness :
    connectedClient.listener = some { name := 0 } ∧
    connectedClient.state ≠ WEB_SOCKET_STATE_STOPPED ∧
    reportedStates connectedClient.Disconnect.events
      = [WEB_SOCKET_STATE_STOPPING, WEB_SOCKET_STATE_STOPPED] ∧
    (∀ m, Received.failed (GoError.External "connection reset by peer") ≠ Received.frame m) ∧
    reportedStates
        (WebSocketClient.readLoop.received connectedClient
          (Received.failed (GoError.External "connection reset by peer"))).events
      = [WEB_SOCKET_STATE_STOPPED] :=
  ⟨rfl, by decide,
    (C15_state_changes_reported connectedClient { name := 0 } "" dialOk
      (Received.failed (GoError.External "connection reset by peer")) GoError.Canceled []
      sampleConfig rfl).2.2.2.1 (by decide),
    (fun m h => by cases h),
    ((C15_state_changes_reported connectedClient { name := 0 } "" dialOk
      (Received.failed (GoError.External "connection reset by peer")) GoError.Canceled []
      sampleConfig rfl).2.2.2.2.2.1 (fun m h => by cases h)).1⟩

/-! ## Frames on the wire -/

/-- C16: the first request of a freshly constructed client, once connected, with method
`printer.info` and nil params, is the one frame in the outbound queue, and `MarshalJSON`
makes of it the object with the three members `jsonrpc` "2.0", `id` 1 and `method`
"printer.info" and no other member, so none named `params`, `result` or `error`; the
encoder writes them in the order `method`, `id`, `jsonrpc`. -/
theorem C16_first_request_frame (cfg : config.MoonrakerConfig)
    (listener : Option StatusListener) (conn : Conn) (timeout : Int) :
    ∃ frame, firstRequestQueue cfg listener conn "printer.info" Any.null timeout = [frame] ∧
      frame.ID = some 1 ∧
      frame.MarshalJSON
        = Any.obj [("method", Any.str "printer.info"), ("id", Any.num 1),
            ("jsonrpc", Any.str "2.0")] ∧
      List.Perm frame.MarshalJSON.members
        [("jsonrpc", Any.str "2.0"), ("id", Any.num 1), ("method", Any.str "printer.info")] ∧
      frame.MarshalJSON.members.map (fun kv => kv.1) = ["method", "id", "jsonrpc"] :=
  ⟨{ ID := some 1, Method := "printer.info", Params := Any.null, JSONRPC := "2.0"
     Result := Any.null, Error := none },
    rfl, rfl, rfl,
    List.reverse_perm
      [("jsonrpc", Any.str "2.0"), ("id", Any.num 1), ("method", Any.str "printer.info")],
    rfl⟩

/-- C17: whatever the fields of the message, its `JSONRPC` field included, the object
that `MarshalJSON` makes has exactly one member named `jsonrpc`, the last one, and its
value is "2.0". -/
theorem C17_jsonrpc_member_is_2_0 (m : WebSocketMessage) (version : String) :
    m.MarshalJSON.members.filter (fun kv => kv.1 == "jsonrpc") = [("jsonrpc", Any.str "2.0")] ∧
    m.MarshalJSON.members.getLast? = some ("jsonrpc", Any.str "2.0") ∧
    { m with JSONRPC := version }.MarshalJSON = m.MarshalJSON := by
  refine ⟨?_, ?_, rfl⟩
  · unfold WebSocketMessage.MarshalJSON Any.members
    simp only [List.filter_append]
    split_ifs <;> cases m.ID <;> cases m.Error <;> simp
  · unfold WebSocketMessage.MarshalJSON Any.members
    simp

/-! ## What a failure of an I/O loop does -/

/-- C18, as stated, fails: on the connected sample client, made with auto-reconnect and
never disconnected, a receive error of the read loop and a send error of the write loop
force the state to Stopped, and the calls they make are the report to the listener
alone: the reconnection loop is not started and no dial follows. -/
theorem C18_forced_stop_counterexample :
    connectedClient.config.AutoReconnect = true ∧ connectedClient.retry.enabled = true ∧
    connectedClient.state = WEB_SOCKET_STATE_CONNECTED ∧
    (WebSocketClient.readLoop.turn connectedClient
        (Received.failed (GoError.External "connection reset by peer"))).events
      = [Event.OnException (GoError.WebSocketError "read error"
            (some (GoError.External "connection reset by peer"))),
         Event.OnStateChanged WEB_SOCKET_STATE_STOPPED] ∧
    (WebSocketClient.writeLoop.turn waitingClient WriteCase.message
        (some (GoError.External "broken pipe"))).map (fun r => r.events)
      = some
          [Event.jsonSend
             { ID := some 1, Method := "printer.info", Params := Any.null, JSONRPC := "2.0"
               Result := Any.null, Error := none },
           Event.OnStateChanged WEB_SOCKET_STATE_STOPPED,
           Event.OnException (GoError.WebSocketError "write error"
             (some (GoError.External "broken pipe")))] :=
  ⟨by decide, by decide, by decide, rfl, rfl⟩

theorem connectOnce_no_driver (c : WebSocketClient) (env : ConnectEnv) :
    Event.goReconnectLoop ∉ (c.connectOnce env).events := by
  unfold WebSocketClient.connectOnce
  split
  · simp
  · rcases env with ⟨p, q, d⟩
    cases p <;> cases q <;> cases d <;> cases hl : c.listener <;>
      simp [WebSocketClient.setState, hl]

theorem reconnectLoop_no_driver (envs : List LoopEnv) :
    ∀ (c : WebSocketClient) (o : LoopOut), c.reconnectLoop envs = some o →
      Event.goReconnectLoop ∉ o.events := by
  induction envs with
  | nil => intro c o h; simp [WebSocketClient.reconnectLoop] at h
  | cons env rest ih =>
    intro c o h
    unfold WebSocketClient.reconnectLoop at h
    split at h
    · cases h; simp
    · split at h
      · cases h; simp
      · simp only at h
        split at h
        · cases h; simp
        · split at h
          · cases h; simp
          · have hc := connectOnce_no_driver
              { c with retry := (c.retry.WaitBeforeReconnect env.waitCtx).retry } env.connect
            split at h
            · cases h; exact hc
            · split at h
              · cases h
              · rename_i o' ho'
                cases h
                intro hin
                rcases List.mem_append.1 hin with h1 | h1
                · exact hc h1
                · exact ih _ o' ho' h1

theorem Disconnect_no_driver (c : WebSocketClient) :
    Event.goReconnectLoop ∉ c.Disconnect.events := by
  unfold WebSocketClient.Disconnect
  split
  · simp
  · cases hc : c.conn <;> cases hcl : c.closeChan.closed <;> cases hl : c.listener <;>
      simp [WebSocketClient.setState, hc, hcl, hl]

theorem handleMessage_no_driver (c : WebSocketClient) (message : WebSocketMessage) :
    Event.goReconnectLoop ∉ (c.handleMessage message).events := by
  unfold WebSocketClient.handleMessage
  split
  · split
    · simp only
      split
      · split <;> simp
      · simp
      · simp
    · simp
  · split
    · cases c.listener <;> simp
    · simp

theorem readLoop_received_no_driver (c : WebSocketClient) (rx : Received) :
    Event.goReconnectLoop ∉ (WebSocketClient.readLoop.received c rx).events := by
  cases rx with
  | frame m => exact handleMessage_no_driver c m
  | eof => cases hl : c.listener <;> simp [WebSocketClient.readLoop.received, WebSocketClient.setState, hl]
  | failed err =>
    simp only [WebSocketClient.readLoop.received, WebSocketClient.setState]
    cases hl : c.listener <;> split <;> simp

theorem readLoop_turn_no_driver (c : WebSocketClient) (rx : Received) :
    Event.goReconnectLoop ∉ (WebSocketClient.readLoop.turn c rx).events := by
  unfold WebSocketClient.readLoop.turn
  split
  · simp
  · exact readLoop_received_no_driver c rx

theorem writeLoop_turn_no_driver (c : WebSocketClient) (sel : WriteCase)
    (sendErr : Option GoError) (r : Out Turn)
    (h : WebSocketClient.writeLoop.turn c sel sendErr = some r) :
    Event.goReconnectLoop ∉ r.events := by
  unfold WebSocketClient.writeLoop.turn at h
  cases sel with
  | closed =>
    simp only at h
    split at h
    · cases h; simp
    · cases h
  | message =>
    simp only at h
    split at h
    · cases h
    · cases sendErr with
      | none => cases h; simp
      | some err =>
        cases h
        cases hl : c.listener <;> simp [WebSocketClient.setState, hl]

theorem start_events (c : WebSocketClient) (method : String) (params : Any) (timeout : Int) :
    (WebSocketClient.SendRequestWithTimeout.start c method params timeout).events = [] := by
  unfold WebSocketClient.SendRequestWithTimeout.start
  split
  · rfl
  · simp only
    split <;> rfl

theorem await_events (c : WebSocketClient) (w : Waiter) (sel : SelectCase)
    (r : Out (Option WebSocketMessage × Option GoError))
    (h : WebSocketClient.SendRequestWithTimeout.await c w sel = some r) : r.events = [] := by
  unfold WebSocketClient.SendRequestWithTimeout.await at h
  cases sel with
  | response =>
    simp only at h
    split at h
    · cases h
    · split at h <;> (cases h; rfl)
  | timer => cases h; rfl

theorem SendNotification_events (c : WebSocketClient) (method : String) (params : Any)
    (r : Out (Option GoError)) (h : c.SendNotification method params = some r) :
    r.events = [] := by
  unfold WebSocketClient.SendNotification at h
  split at h
  · cases h; rfl
  · simp only at h
    split at h
    · cases h; rfl
    · cases h; rfl
    · cases h

/-- The one operation that starts the reconnection loop is a `Connect` whose
`connectOnce` fails on a client with retry enabled. -/
theorem step_driver_only_by_Connect (c : WebSocketClient) (op : Op)
    (h : Event.goReconnectLoop ∈ c.stepEvents op) :
    ∃ env, op = Op.Connect env ∧ (c.connectOnce env).ret ≠ none ∧ c.retry.enabled = true := by
  cases op with
  | Connect env =>
    refine ⟨env, rfl, ?_⟩
    have hno := connectOnce_no_driver c env
    have hr := connectOnce_retry c env
    simp only [WebSocketClient.stepEvents, WebSocketClient.Connect] at h
    split at h
    · exact absurd h hno
    · rename_i err herr
      split at h
      · exact absurd h hno
      · rename_i hen
        refine ⟨by rw [herr]; simp, ?_⟩
        simpa [Retry.IsEnabled, hr] using hen
  | connectOnce env => exact absurd h (connectOnce_no_driver c env)
  | reconnectLoop envs =>
    simp only [WebSocketClient.stepEvents] at h
    cases ho : c.reconnectLoop envs with
    | none => simp [ho] at h
    | some o =>
      rw [ho] at h
      exact absurd h (reconnectLoop_no_driver envs c o ho)
  | Disconnect => exact absurd h (Disconnect_no_driver c)
  | AddDataHandler handler => simp [WebSocketClient.stepEvents] at h
  | removeDataHandler handler => simp [WebSocketClient.stepEvents] at h
  | readLoopTurn rx => exact absurd h (readLoop_turn_no_driver c rx)
  | readLoopReceived rx => exact absurd h (readLoop_received_no_driver c rx)
  | writeLoopTurn sel sendErr =>
    simp only [WebSocketClient.stepEvents] at h
    cases hr : WebSocketClient.writeLoop.turn c sel sendErr with
    | none => simp [hr] at h
    | some r =>
      rw [hr] at h
      exact absurd h (writeLoop_turn_no_driver c sel sendErr r hr)
  | handleMessage message => exact absurd h (handleMessage_no_driver c message)
  | start method params timeout =>
    simp only [WebSocketClient.stepEvents, start_events] at h
    simp at h
  | await w sel =>
    simp only [WebSocketClient.stepEvents] at h
    cases hr : WebSocketClient.SendRequestWithTimeout.await c w sel with
    | none => simp [hr] at h
    | some r =>
      rw [hr] at h
      simp only [await_events c w sel r hr] at h
      simp at h
  | SendNotification method params =>
    simp only [WebSocketClient.stepEvents] at h
    cases hr : c.SendNotification method params with
    | none => simp [hr] at h
    | some r =>
      rw [hr] at h
      simp only [SendNotification_events c method params r hr] at h
      simp at h

/-- C18, amended: a receive failure of the read loop and a send failure of the write
loop force the state to Stopped and end the loop, and nothing follows from them: the
retry state is untouched, the reconnection loop is not started and no dial is made,
whatever the auto-reconnect setting; among all the operations of the client the one that
starts the reconnection loop is a `Connect` whose connect attempt fails while retry is
enabled. -/
theorem C18_forced_stop_starts_nothing (c : WebSocketClient) (rx : Received)
    (sendErr : GoError) (op : Op) :
    ((∀ m, rx ≠ Received.frame m) →
      (WebSocketClient.readLoop.received c rx).ret = Turn.returned ∧
      (WebSocketClient.readLoop.received c rx).client.state = WEB_SOCKET_STATE_STOPPED ∧
      (WebSocketClient.readLoop.received c rx).client.retry = c.retry ∧
      Event.goReconnectLoop ∉ (WebSocketClient.readLoop.received c rx).events ∧
      (∀ wsURL header,
        Event.goDialConfig wsURL header ∉ (WebSocketClient.readLoop.received c rx).events)) ∧
    (∀ r, WebSocketClient.writeLoop.turn c WriteCase.message (some sendErr) = some r →
      r.ret = Turn.returned ∧ r.client.state = WEB_SOCKET_STATE_STOPPED ∧
      r.client.retry = c.retry ∧ Event.goReconnectLoop ∉ r.events ∧
      (∀ wsURL header, Event.goDialConfig wsURL header ∉ r.events)) ∧
    (Event.goReconnectLoop ∈ c.stepEvents op →
      ∃ env, op = Op.Connect env ∧ (c.connectOnce env).ret ≠ none ∧ c.retry.enabled = true) := by
  refine ⟨?_, ?_, step_driver_only_by_Connect c op⟩
  · intro hrx
    refine ⟨?_, ?_, ?_, readLoop_received_no_driver c rx, ?_⟩
    · cases rx with
      | frame m => exact absurd rfl (hrx m)
      | eof => rfl
      | failed err => rfl
    · cases rx with
      | frame m => exact absurd rfl (hrx m)
      | eof => rfl
      | failed err => rfl
    · cases rx with
      | frame m => exact absurd rfl (hrx m)
      | eof => rfl
      | failed err => rfl
    · intro wsURL header
      cases rx with
      | frame m => exact absurd rfl (hrx m)
      | eof =>
        cases hl : c.listener <;>
          simp [WebSocketClient.readLoop.received, WebSocketClient.setState, hl]
      | failed err =>
        simp only [WebSocketClient.readLoop.received, WebSocketClient.setState]
        cases hl : c.listener <;> split <;> simp
  · intro r hr
    have hno := writeLoop_turn_no_driver c WriteCase.message (some sendErr) r hr
    unfold WebSocketClient.writeLoop.turn at hr
    simp only at hr
    split at hr
    · cases hr
    · cases hr
      refine ⟨rfl, rfl, rfl, hno, ?_⟩
      intro wsURL header
      cases hl : c.listener <;> simp [WebSocketClient.setState, hl]

/-- C18, amended, at the connected sample client and a receive error. -/
theorem C18_forced_stop_starts_nothing_witness :
    (∀ m, Received.failed (GoError.External "connection reset by peer") ≠ Received.frame m) ∧
    (WebSocketClient.readLoop.received connectedClient
        (Received.failed (GoError.External "connection reset by peer"))).client.state
      = WEB_SOCKET_STATE_STOPPED ∧
    Event.goReconnectLoop ∉
      (WebSocketClient.readLoop.received connectedClient
        (Received.failed (GoError.External "connection reset by peer"))).events :=
  ⟨(fun m h => by cases h),
    ((C18_forced_stop_starts_nothing connectedClient
      (Received.failed (GoError.External "connection reset by peer")) GoError.Canceled
      Op.Disconnect).1 (fun m h => by cases h)).2.1,
    ((C18_forced_stop_starts_nothing connectedClient
      (Received.failed (GoError.External "connection reset by peer")) GoError.Canceled
      Op.Disconnect).1 (fun m h => by cases h)).2.2.2.1⟩

/-- C19, as stated, fails: on the connected sample client the end of the stream forces
the state to Stopped and the only call made is the report of the state: `OnException`
is not called although the state at that moment is Connected. -/
theorem C19_end_of_stream_counterexample :
    connectedClient.state = WEB_SOCKET_STATE_CONNECTED ∧
    connectedClient.listener = some { name := 0 } ∧
    (WebSocketClient.readLoop.received connectedClient Received.eof).events
      = [Event.OnStateChanged WEB_SOCKET_STATE_STOPPED] ∧
    (WebSocketClient.readLoop.received connectedClient Received.eof).events.filter
      Event.isOnException = [] :=
  ⟨by decide, rfl, rfl, rfl⟩

/-- C19, amended: every receive failure forces the state to Stopped and ends the read
loop; at the end of the stream `OnException` is not called; at another failure it is
called exactly once, with the `read error` `WebSocketError` around the cause, when the
state at that moment is neither Stopping nor Stopped and there is a listener, and not at
all when the state is Stopping or Stopped. -/
theorem C19_receive_failure (c : WebSocketClient) (err : GoError) :
    ((WebSocketClient.readLoop.received c Received.eof).client.state = WEB_SOCKET_STATE_STOPPED ∧
      (WebSocketClient.readLoop.received c Received.eof).ret = Turn.returned ∧
      (WebSocketClient.readLoop.received c Received.eof).events.filter Event.isOnException = []) ∧
    ((WebSocketClient.readLoop.received c (Received.failed err)).client.state
        = WEB_SOCKET_STATE_STOPPED ∧
      (WebSocketClient.readLoop.received c (Received.failed err)).ret = Turn.returned) ∧
    (c.state = WEB_SOCKET_STATE_STOPPING ∨ c.state = WEB_SOCKET_STATE_STOPPED →
      (WebSocketClient.readLoop.received c (Received.failed err)).events.filter
        Event.isOnException = []) ∧
    (c.state ≠ WEB_SOCKET_STATE_STOPPING → c.state ≠ WEB_SOCKET_STATE_STOPPED →
      ∀ l, c.listener = some l →
        (WebSocketClient.readLoop.received c (Received.failed err)).events.filter
          Event.isOnException
          = [Event.OnException (GoError.WebSocketError "read error" (some err))]) ∧
    (c.listener = none →
      (WebSocketClient.readLoop.received c (Received.failed err)).events.filter
        Event.isOnException = []) := by
  refine ⟨⟨rfl, rfl, ?_⟩, ⟨rfl, rfl⟩, ?_, ?_, ?_⟩
  · cases hl : c.listener <;>
      simp [WebSocketClient.readLoop.received, WebSocketClient.setState, hl,
        Event.isOnException]
  · intro hs
    cases hl : c.listener <;>
      simp [WebSocketClient.readLoop.received, WebSocketClient.setState, hl,
        WebSocketClient.GetState, hs, Event.isOnException]
  · intro h1 h2 l hl
    simp [WebSocketClient.readLoop.received, WebSocketClient.setState, hl,
      WebSocketClient.GetState, h1, h2, Event.isOnException, NewWebSocketError]
  · intro hl
    by_cases hs : c.state = WEB_SOCKET_STATE_STOPPING ∨ c.state = WEB_SOCKET_STATE_STOPPED <;>
      simp [WebSocketClient.readLoop.received, WebSocketClient.setState, hl,
        WebSocketClient.GetState, hs, Event.isOnException]

/-- C19, amended, at the connected sample client, and at the same client once its read
loop has met an error. -/
theorem C19_receive_failure_witness :
    (connectedClient.state ≠ WEB_SOCKET_STATE_STOPPING ∧
      connectedClient.state ≠ WEB_SOCKET_STATE_STOPPED ∧
      connectedClient.listener = some { name := 0 } ∧
      (WebSocketClient.readLoop.received connectedClient
          (Received.failed (GoError.External "connection reset by peer"))).events.filter
          Event.isOnException
        = [Event.OnException (GoError.WebSocketError "read error"
            (some (GoError.External "connection reset by peer")))]) ∧
    ((droppedClient.state = WEB_SOCKET_STATE_STOPPING ∨
        droppedClient.state = WEB_SOCKET_STATE_STOPPED) ∧
      (WebSocketClient.readLoop.received droppedClient
          (Received.failed (GoError.External "connection reset by peer"))).events.filter
          Event.isOnException = []) :=
  ⟨⟨by decide, by decide, rfl,
      (C19_receive_failure connectedClient
        (GoError.External "connection reset by peer")).2.2.2.1 (by decide) (by decide)
        { name := 0 } rfl⟩,
    ⟨Or.inr (by decide),
      (C19_receive_failure droppedClient
        (GoError.External "connection reset by peer")).2.2.1 (Or.inr (by decide))⟩⟩

/-- C20, at the failing input: the client constructed, connected, and then hit by a
receive error in its read loop is in state Stopped and still holds the socket it got
from the dial; the same after the end of the stream and after a send error of the write
loop; and `Disconnect` then returns without releasing it. -/
theorem C20_forced_stop_keeps_socket :
    droppedClient
      = (freshClient.run
          [Op.Connect dialOk,
           Op.readLoopTurn (Received.failed (GoError.External "connection reset by peer"))]).1 ∧
    droppedClient.state = WEB_SOCKET_STATE_STOPPED ∧
    droppedClient.conn = some { fd := 3 } ∧
    (freshClient.run [Op.Connect dialOk, Op.readLoopTurn Received.eof]).1.state
      = WEB_SOCKET_STATE_STOPPED ∧
    (freshClient.run [Op.Connect dialOk, Op.readLoopTurn Received.eof]).1.conn
      = some { fd := 3 } ∧
    (freshClient.run
        [Op.Connect dialOk, Op.start "printer.info" Any.null Second,
         Op.writeLoopTurn WriteCase.message (some (GoError.External "broken pipe"))]).1.state
      = WEB_SOCKET_STATE_STOPPED ∧
    (freshClient.run
        [Op.Connect dialOk, Op.start "printer.info" Any.null Second,
         Op.writeLoopTurn WriteCase.message (some (GoError.External "broken pipe"))]).1.conn
      = some { fd := 3 } ∧
    droppedClient.Disconnect.client.conn = some { fd := 3 } :=
  ⟨rfl, by decide, by decide, by decide, by decide, by decide, by decide, by decide⟩

/-- Without a failure of an I/O loop the socket is held only in the states Connected and
Stopping: `connectOnce` and `Disconnect` keep that. -/
theorem conn_only_while_connected (c : WebSocketClient) (env : ConnectEnv)
    (h : c.conn ≠ none →
      c.state = WEB_SOCKET_STATE_CONNECTED ∨ c.state = WEB_SOCKET_STATE_STOPPING) :
    ((c.connectOnce env).client.conn ≠ none →
      (c.connectOnce env).client.state = WEB_SOCKET_STATE_CONNECTED ∨
      (c.connectOnce env).client.state = WEB_SOCKET_STATE_STOPPING) ∧
    c.Disconnect.client.conn = none := by
  constructor
  · unfold WebSocketClient.connectOnce
    split
    · exact h
    · rename_i hs
      have hs' : c.state = WEB_SOCKET_STATE_STOPPED := by simpa using hs
      have hnone : c.conn = none := by
        by_contra hc
        rcases h hc with h1 | h1 <;> (rw [hs'] at h1; revert h1; decide)
      rcases env with ⟨p, q, d⟩
      cases p <;> cases q <;> cases d <;> simp [WebSocketClient.setState, hnone]
  · by_cases hs : c.state = WEB_SOCKET_STATE_STOPPED
    · have hnone : c.conn = none := by
        by_contra hc
        rcases h hc with h1 | h1 <;> (rw [hs] at h1; revert h1; decide)
      unfold WebSocketClient.Disconnect
      simp [hs, hnone]
    · unfold WebSocketClient.Disconnect
      cases hc : c.conn <;> cases hcl : c.closeChan.closed <;>
        simp [hs, WebSocketClient.setState, hc, hcl]

/-! ## The request side across connections, and the classification of frames -/

theorem connectOnce_ok_client (c : WebSocketClient) (env : ConnectEnv)
    (h : (c.connectOnce env).ret = none) :
    (c.connectOnce env).client.state = WEB_SOCKET_STATE_CONNECTED ∧
    (c.connectOnce env).client.sendChan = Chan.make 100 := by
  unfold WebSocketClient.connectOnce at h ⊢
  split at h
  · simp [NewClientAlreadyConnectedError] at h
  · rename_i hst
    simp only [hst, if_false]
    rcases env with ⟨p, q, d⟩
    cases p <;> cases q <;> cases d <;> simp_all [WebSocketClient.setState]

/-- C21: a failure of the read loop (a receive error or the end of the stream), a failure
of the write loop, and `Disconnect` leave the table of pending requests, the counter
`nextID` and the response channels exactly as they were, and so do `connectOnce`,
`Connect` and `reconnectLoop`; when a later `connectOnce` succeeds, the next request
gets the id that the counter held before the disconnection. -/
theorem C21_disconnection_keeps_requests (c : WebSocketClient) (err : GoError)
    (env : ConnectEnv) (method : String) (params : Any) (timeout : Int) :
    SameRequestSide c (WebSocketClient.readLoop.received c (Received.failed err)).client ∧
    SameRequestSide c (WebSocketClient.readLoop.received c Received.eof).client ∧
    (∀ r, WebSocketClient.writeLoop.turn c WriteCase.message (some err) = some r →
      SameRequestSide c r.client) ∧
    SameRequestSide c c.Disconnect.client ∧
    SameRequestSide c (c.connectOnce env).client ∧
    SameRequestSide c (c.Connect env).client ∧
    (∀ envs o, c.reconnectLoop envs = some o → SameRequestSide c o.client) ∧
    ((c.connectOnce env).ret = none →
      ∃ w, (WebSocketClient.SendRequestWithTimeout.start (c.connectOnce env).client method params
              timeout).ret = Started.waiting w ∧ w.req.ID = c.nextID) := by
  refine ⟨readLoop_received_side c _ (fun m h => by cases h),
    readLoop_received_side c _ (fun m h => by cases h),
    fun r h => writeLoop_turn_side c _ _ r h, Disconnect_side c, connectOnce_side c env,
    Connect_side c env, fun envs o h => reconnectLoop_side envs c o h, ?_⟩
  intro h
  obtain ⟨hs, hq⟩ := connectOnce_ok_client c env h
  have hw := start_waiting (c.connectOnce env).client method params timeout hs
    (by rw [hq]; rfl) (by rw [hq]; decide)
  rw [hw]
  exact ⟨_, rfl, (connectOnce_side c env).2.1⟩

/-- The pair that `SendRequestWithTimeout` returns is an error without a message, or a
message without an error whose `Error` field is nil. -/
theorem SendRequestWithTimeout_shape (c : WebSocketClient) (method : String) (params : Any)
    (timeout : Int) (inbound : List WebSocketMessage) (sel : SelectCase)
    (r : Out (Option WebSocketMessage × Option GoError))
    (h : c.SendRequestWithTimeout method params timeout inbound sel = some r) :
    (∃ err, r.ret = (none, some err)) ∨
    (∃ msg, r.ret = (some msg, none) ∧ msg.Error = none) := by
  unfold WebSocketClient.SendRequestWithTimeout at h
  simp only at h
  split at h
  · cases h; exact Or.inl ⟨_, rfl⟩
  · cases h; exact Or.inl ⟨_, rfl⟩
  · cases h
  · rename_i w hw
    split at h
    · cases h
    · rename_i r' hr'
      cases h
      unfold WebSocketClient.SendRequestWithTimeout.await at hr'
      cases sel with
      | timer => simp only at hr'; cases hr'; exact Or.inl ⟨_, rfl⟩
      | response =>
        simp only at hr'
        split at hr'
        · cases hr'
        · split at hr'
          · cases hr'; exact Or.inl ⟨_, rfl⟩
          · cases hr'; exact Or.inr ⟨_, rfl, rfl⟩

/-- Under a live context `Request` returns when `SendRequest` does, with the same error,
the same client and the same events. -/
theorem Request_of_SendRequest (c : WebSocketClient) (ctx : Context) (method : String)
    (params : Any) (inbound : List WebSocketMessage) (sel : SelectCase) (hctx : ctx.Err = none) :
    (c.Request ctx method params inbound sel).map (fun r => (r.ret.2, r.client, r.events)) =
    (c.SendRequest method params inbound sel).map (fun r => (r.ret.2, r.client, r.events)) := by
  unfold WebSocketClient.Request
  rw [hctx]
  simp only
  cases hr : c.SendRequest method params inbound sel with
  | none => rfl
  | some r =>
    rcases SendRequestWithTimeout_shape c method params _ inbound sel r hr with
      ⟨err, he⟩ | ⟨msg, he, _⟩
    · simp [he]
    · simp [he]

theorem int64_of_range (x : Int) (hlo : -9223372036854775808 ≤ x)
    (hhi : x ≤ 9223372036854775807) : int64 x = x := by
  unfold int64
  omega

/-- The response case of the `select` does not look at the clock. -/
theorem Request_timed_response (c : WebSocketClient) (ctx : Context) (method : String)
    (params : Any) (inbound : List WebSocketMessage) (elapsed : Int) :
    WebSocketClient.Request.timed c ctx method params inbound elapsed SelectCase.response =
      c.Request ctx method params inbound SelectCase.response := rfl

/-- A call of `SendRequestWithTimeout` that waits takes the timer case exactly when the
time passed has reached `timeout`, and then returns the time-out error. -/
theorem SendRequestWithTimeout_timed_timer (c : WebSocketClient) (method : String)
    (params : Any) (timeout : Int) (inbound : List WebSocketMessage) (elapsed : Int)
    (hs : c.state = WEB_SOCKET_STATE_CONNECTED) (hopen : c.sendChan.closed = false)
    (hroom : c.sendChan.buf.length < c.sendChan.cap) :
    (elapsed < timeout →
      WebSocketClient.SendRequestWithTimeout.timed c method params timeout inbound elapsed
        SelectCase.timer = none) ∧
    (timeout ≤ elapsed →
      (WebSocketClient.SendRequestWithTimeout.timed c method params timeout inbound elapsed
        SelectCase.timer).map (fun r => r.ret) =
        some (none, some (NewWebSocketTimeoutError "request timeout"))) := by
  unfold WebSocketClient.SendRequestWithTimeout.timed
  rw [start_waiting c method params timeout hs hopen hroom]
  simp only [WebSocketClient.SendRequestWithTimeout.awaitAt]
  constructor
  · intro h
    rw [if_pos h]
  · intro h
    rw [if_neg (by omega)]
    rfl

/-- C22, counterexample: the client is made with `Timeout: 5`, so `GetTimeout` is 5 s.  A
request made through `Request` that gets no answer has not timed out when 5 s have
passed, nor a nanosecond before 30 s; it times out when 30 s have passed. -/
theorem C22_configured_timeout_counterexample :
    shortTimeoutClient.config.Timeout = 5 ∧
    shortTimeoutClient.config.GetTimeout = 5 * Second ∧
    WebSocketClient.Request.timed shortTimeoutClient background "printer.info" Any.null []
      shortTimeoutClient.config.GetTimeout SelectCase.timer = none ∧
    WebSocketClient.Request.timed shortTimeoutClient background "printer.info" Any.null []
      (30 * Second - 1) SelectCase.timer = none ∧
    (WebSocketClient.Request.timed shortTimeoutClient background "printer.info" Any.null []
      (30 * Second) SelectCase.timer).map (fun r => r.ret) =
      some (none, some (NewWebSocketTimeoutError "request timeout")) := by
  refine ⟨rfl, by decide, ?_, ?_, ?_⟩
  · rfl
  · rfl
  · rfl

/-- C22, amended: a request made through `Request` or `CallMethod` that waits for its
answer is not timed out before 30 s have passed since it began to wait, and is timed out
(with the time-out error) by the timer once 30 s have passed, whatever the
configuration of the client; the answer is taken without regard to the clock.
`GetTimeout` is 30 s when `Timeout` is not positive and `Timeout` seconds when it is
positive and at most 9223372036, so within that range the deadline equals `GetTimeout`
exactly when `Timeout` is 30 or is not positive. -/
theorem C22_request_timer_is_30s (c : WebSocketClient) (ctx : Context) (method : String)
    (params : Any) (inbound : List WebSocketMessage) (elapsed : Int)
    (hctx : ctx.Err = none) (hs : c.state = WEB_SOCKET_STATE_CONNECTED)
    (hopen : c.sendChan.closed = false) (hroom : c.sendChan.buf.length < c.sendChan.cap) :
    (elapsed < 30 * Second →
      WebSocketClient.Request.timed c ctx method params inbound elapsed SelectCase.timer = none ∧
      moonraker.Client.CallMethod.timed { wsClient := c } ctx method params inbound elapsed
        SelectCase.timer = none) ∧
    (30 * Second ≤ elapsed →
      (WebSocketClient.Request.timed c ctx method params inbound elapsed SelectCase.timer).map
          (fun r => r.ret) =
        some (none, some (NewWebSocketTimeoutError "request timeout")) ∧
      (moonraker.Client.CallMethod.timed { wsClient := c } ctx method params inbound elapsed
          SelectCase.timer).map (fun r => r.ret) =
        some (Any.null, some (NewWebSocketTimeoutError "request timeout"))) ∧
    WebSocketClient.Request.timed c ctx method params inbound elapsed SelectCase.response =
      c.Request ctx method params inbound SelectCase.response ∧
    (c.config.Timeout ≤ 0 → c.config.GetTimeout = 30 * Second) ∧
    (0 < c.config.Timeout → c.config.Timeout ≤ 9223372036 →
      c.config.GetTimeout = c.config.Timeout * Second) ∧
    (c.config.Timeout ≤ 9223372036 →
      (30 * Second = c.config.GetTimeout ↔ (c.config.Timeout ≤ 0 ∨ c.config.Timeout = 30))) := by
  have hS : Second = 1000000000 := rfl
  have ht := SendRequestWithTimeout_timed_timer c method params (30 * Second) inbound elapsed
    hs hopen hroom
  have hdefault : config.MoonrakerConfig.GetTimeout c.config = 30 * Second ∨
      (0 < c.config.Timeout ∧
        config.MoonrakerConfig.GetTimeout c.config = int64 (c.config.Timeout * Second)) := by
    unfold config.MoonrakerConfig.GetTimeout
    split
    · left; rfl
    · right; exact ⟨by omega, rfl⟩
  refine ⟨?_, ?_, Request_timed_response c ctx method params inbound elapsed, ?_, ?_, ?_⟩
  · intro h
    have hnone := ht.1 h
    have hreq : WebSocketClient.Request.timed c ctx method params inbound elapsed
        SelectCase.timer = none := by
      unfold WebSocketClient.Request.timed WebSocketClient.SendRequest.timed
      rw [hctx, hnone]
    refine ⟨hreq, ?_⟩
    unfold moonraker.Client.CallMethod.timed
    rw [hreq]
  · intro h
    obtain ⟨r, hr, hret⟩ := Option.map_eq_some'.1 (ht.2 h)
    have hreq : (WebSocketClient.Request.timed c ctx method params inbound elapsed
        SelectCase.timer).map (fun r => r.ret) =
        some (none, some (NewWebSocketTimeoutError "request timeout")) := by
      unfold WebSocketClient.Request.timed WebSocketClient.SendRequest.timed
      rw [hctx, hr]
      rcases r with ⟨ret, cl, ev⟩
      simp only at hret
      subst hret
      rfl
    refine ⟨hreq, ?_⟩
    obtain ⟨r', hr', hret'⟩ := Option.map_eq_some'.1 hreq
    unfold moonraker.Client.CallMethod.timed
    simp only [hr']
    rcases r' with ⟨ret, cl, ev⟩
    simp only at hret'
    subst hret'
    rfl
  · intro h
    unfold config.MoonrakerConfig.GetTimeout
    rw [if_pos h]
    rfl
  · intro h1 h2
    unfold config.MoonrakerConfig.GetTimeout
    rw [if_neg (by omega)]
    exact int64_of_range _ (by rw [hS]; omega) (by rw [hS]; omega)
  · intro h
    rcases hdefault with hd | ⟨hpos, hd⟩
    · rw [hd]
      constructor
      · intro _
        by_cases h0 : c.config.Timeout ≤ 0
        · exact Or.inl h0
        · right
          have : config.MoonrakerConfig.GetTimeout c.config =
              int64 (c.config.Timeout * Second) := by
            unfold config.MoonrakerConfig.GetTimeout
            rw [if_neg h0]
          rw [this, int64_of_range _ (by rw [hS]; omega) (by rw [hS]; omega)] at hd
          rw [hS] at hd
          omega
      · intro _; rfl
    · rw [hd, int64_of_range _ (by rw [hS]; omega) (by rw [hS]; omega), hS]
      constructor
      · intro h'; right; omega
      · rintro (h' | h')
        · omega
        · omega

/-- C22 at a connected client whose configuration says `Timeout: 5`, a nanosecond before
30 s and at 30 s. -/
theorem C22_request_timer_is_30s_witness :
    WebSocketClient.Request.timed shortTimeoutClient background "printer.info" Any.null []
      (30 * Second - 1) SelectCase.timer = none ∧
    (moonraker.Client.CallMethod.timed { wsClient := shortTimeoutClient } background
        "printer.info" Any.null [] (30 * Second) SelectCase.timer).map (fun r => r.ret) =
      some (Any.null, some (NewWebSocketTimeoutError "request timeout")) :=
  ⟨((C22_request_timer_is_30s shortTimeoutClient background "printer.info" Any.null []
      (30 * Second - 1) rfl (by decide) (by decide) (by decide)).1 (by decide)).1,
    ((C22_request_timer_is_30s shortTimeoutClient background "printer.info" Any.null []
      (30 * Second) rfl (by decide) (by decide) (by decide)).2.1 (by decide)).2⟩

/-- C29: when `Request` returns a nil error, it returns a response whose `Error` is nil,
so `IsError` is false for it and `CallMethod` returns its `Result` with a nil error: the
branch of `CallMethod` under `response.IsError()` is not taken. -/
theorem C29_nil_error_response_has_no_rpc_error (c : moonraker.Client) (ctx : Context)
    (method : String) (params : Any) (inbound : List WebSocketMessage) (sel : SelectCase)
    (r : Out (Option WebSocketResponse × Option GoError))
    (h : c.wsClient.Request ctx method params inbound sel = some r) (hnil : r.ret.2 = none) :
    ∃ response, r.ret = (some response, none) ∧ response.Error = none ∧
      response.IsError = false ∧
      c.CallMethod ctx method params inbound sel =
        some { ret := (response.Result, none), client := r.client, events := r.events } := by
  have key : ∃ response, r.ret = (some response, none) ∧ response.Error = none := by
    unfold WebSocketClient.Request at h
    split at h
    · cases h; simp at hnil
    · split at h
      · cases h
      · rename_i r' hr'
        rcases SendRequestWithTimeout_shape c.wsClient method params _ inbound sel r' hr' with
          ⟨err, he⟩ | ⟨msg, he, hm⟩
        · rw [he] at h
          simp only at h
          cases h
          simp at hnil
        · rw [he] at h
          simp only at h
          cases h
          exact ⟨_, rfl, hm⟩
  obtain ⟨response, hr, he⟩ := key
  refine ⟨response, hr, he, by simp [WebSocketResponse.IsError, he], ?_⟩
  unfold moonraker.Client.CallMethod
  rw [h]
  simp only [hr]
  simp [WebSocketResponse.IsError, he]

/-- C29 at the call of the connected client that the frame `readyFrame` answers. -/
theorem C29_nil_error_response_witness :
    answeredCall.ret.2 = none ∧
    ∃ response : WebSocketResponse,
      response.Error = none ∧
      ({ wsClient := connectedClient } : moonraker.Client).CallMethod background "printer.info"
          Any.null [readyFrame] SelectCase.response =
        some
          { ret := (response.Result, none)
            client := answeredCall.client
            events := answeredCall.events } := by
  obtain ⟨response, _, he, _, hc⟩ :=
    C29_nil_error_response_has_no_rpc_error { wsClient := connectedClient } background
      "printer.info" Any.null [readyFrame] SelectCase.response answeredCall
      (Option.some_get _).symm rfl
  exact ⟨rfl, response, he, hc⟩

/-- C30: for a frame with an id and a non-empty method, `IsResponse` is true and
`IsNotification` false, and `handleMessage` does what it does for the same frame without
the method: it calls no data handler and no listener, removes the pending entry of the
id if there is one, and leaves the client alone if there is none.  For a frame with
neither an id nor a method both predicates are false and `handleMessage` returns with
the client unchanged and no call made. -/
theorem C30_id_has_priority_over_method (c : WebSocketClient) (message : WebSocketMessage) :
    (∀ id, message.ID = some id → message.Method ≠ "" →
      message.IsResponse = true ∧ message.IsNotification = false ∧
      (c.handleMessage message).events = [] ∧
      c.handleMessage message = c.handleMessage { message with Method := "" } ∧
      (c.handleMessage message).client.dataHandlers = c.dataHandlers ∧
      (∀ req, c.requests id = some req → (c.handleMessage message).client.requests id = none) ∧
      (c.requests id = none → (c.handleMessage message).client = c)) ∧
    (message.ID = none → message.Method = "" →
      message.IsResponse = false ∧ message.IsNotification = false ∧
      c.handleMessage message = { ret := none, client := c, events := [] }) := by
  constructor
  · intro id hid hm
    refine ⟨by simp [WebSocketMessage.IsResponse, hid],
      by simp [WebSocketMessage.IsNotification, hid], ?_, ?_, ?_, ?_, ?_⟩
    · unfold WebSocketClient.handleMessage
      rw [hid]
      simp only
      split
      · split
        · split <;> rfl
        · rfl
        · rfl
      · rfl
    · unfold WebSocketClient.handleMessage
      rw [hid]
    · unfold WebSocketClient.handleMessage
      rw [hid]
      simp only
      split
      · split
        · split <;> rfl
        · rfl
        · rfl
      · rfl
    · intro req hreq
      unfold WebSocketClient.handleMessage
      rw [hid]
      simp only [hreq]
      split
      · split <;> simp [mapDelete]
      · simp [mapDelete]
      · simp [mapDelete]
    · intro hnone
      unfold WebSocketClient.handleMessage
      rw [hid]
      simp only [hnone]
  · intro hid hm
    refine ⟨by simp [WebSocketMessage.IsResponse, hid],
      by simp [WebSocketMessage.IsNotification, hm], ?_⟩
    unfold WebSocketClient.handleMessage
    rw [hid]
    simp [hm]

/-- C21 at the client that waits for the answer to its request 1 when the read loop
fails: after a new connection the next request has the id 2. -/
theorem C21_disconnection_keeps_requests_witness :
    (WebSocketClient.readLoop.received waitingClient
      (Received.failed (GoError.External "connection reset by peer"))).client.nextID = 2 ∧
    ∃ w,
      (WebSocketClient.SendRequestWithTimeout.start
        (((WebSocketClient.readLoop.received waitingClient
          (Received.failed (GoError.External "connection reset by peer"))).client).connectOnce
          dialOk).client "printer.objects.list" Any.null Second).ret = Started.waiting w ∧
      w.req.ID = 2 :=
  ⟨by decide,
    (C21_disconnection_keeps_requests
      (WebSocketClient.readLoop.received waitingClient
        (Received.failed (GoError.External "connection reset by peer"))).client
      (GoError.External "broken pipe") dialOk "printer.objects.list" Any.null
      Second).2.2.2.2.2.2.2 rfl⟩

/-- C30 at the frame that answers the request 1 and names a notification method. -/
theorem C30_id_has_priority_witness :
    waitingClient.dataHandlers = [] ∧ hybridFrame.Method ≠ "" ∧
    (waitingClient.requests 1).isSome = true ∧
    (waitingClient.handleMessage hybridFrame).events = [] ∧
    (waitingClient.handleMessage hybridFrame).client.requests 1 = none :=
  ⟨rfl, by decide, rfl,
    ((C30_id_has_priority_over_method waitingClient hybridFrame).1 1 rfl (by decide)).2.2.1,
    ((C30_id_has_priority_over_method waitingClient hybridFrame).1 1 rfl (by decide)).2.2.2.2.2.1
      { ID := 1, Method := "printer.info", Params := Any.null, Response := 0, timeout := 0 } rfl⟩

/-- C24: `GetWebSocketURL` is the scheme, `://`, the host, `:`, the port in decimal and
`/websocket`, the scheme being `wss` with SSL and `ws` without.  A `connectOnce` that
gets to dial does so once, with that URL and with a header that holds `X-Api-Key`
exactly when `APIKey` is not empty, its value being the key. -/
theorem C24_websocket_url_and_api_key (m : config.MoonrakerConfig) (c : WebSocketClient)
    (env : ConnectEnv) :
    m.GetWebSocketURL =
      (if m.SSL then "wss" else "ws") ++ "://" ++ m.Host ++ ":" ++ toString m.Port ++ "/websocket" ∧
    (c.state = WEB_SOCKET_STATE_STOPPED → env.parseErr = none → env.configErr = none →
      ∃ header,
        Event.goDialConfig c.config.GetWebSocketURL header ∈ (c.connectOnce env).events ∧
        (∀ url h, Event.goDialConfig url h ∈ (c.connectOnce env).events →
          url = c.config.GetWebSocketURL ∧ h = header) ∧
        ((∃ value, ("X-Api-Key", value) ∈ header) ↔ c.config.APIKey ≠ "") ∧
        (c.config.APIKey ≠ "" → header = [("X-Api-Key", c.config.APIKey)]) ∧
        (c.config.APIKey = "" → header = [])) := by
  refine ⟨rfl, ?_⟩
  intro hs hp hq
  refine ⟨if c.config.APIKey ≠ "" then [("X-Api-Key", c.config.APIKey)] else [], ?_, ?_, ?_, ?_, ?_⟩
  · unfold WebSocketClient.connectOnce
    rw [if_neg (by simp [hs])]
    rcases env with ⟨p, q, d⟩
    simp only at hp hq
    subst hp hq
    cases d <;> simp
  · intro url h
    unfold WebSocketClient.connectOnce
    rw [if_neg (by simp [hs])]
    rcases env with ⟨p, q, d⟩
    simp only at hp hq
    subst hp hq
    cases d <;> cases hl : c.listener <;> simp [WebSocketClient.setState, hl]
  · by_cases hk : c.config.APIKey = "" <;> simp [hk]
  · intro hk; simp [hk]
  · intro hk; simp [hk]

/-- C24 at a client made with SSL and the API key `s3cret`. -/
theorem C24_websocket_url_witness :
    keyedClient.config.GetWebSocketURL = "wss://localhost:7125/websocket" ∧
    sampleConfig.GetWebSocketURL = "ws://localhost:7125/websocket" ∧
    ∃ header,
      Event.goDialConfig "wss://localhost:7125/websocket" header ∈
        (keyedClient.connectOnce dialOk).events ∧
      header = [("X-Api-Key", "s3cret")] := by
  obtain ⟨header, h1, _, _, h4, _⟩ :=
    (C24_websocket_url_and_api_key sampleConfig keyedClient dialOk).2 rfl rfl rfl
  exact ⟨by decide, by decide, header, h1, h4 (by decide)⟩

end websocket

namespace config

open websocket

/-! ## The configuration -/

theorem checkFields_none_iff (objectName : String) (items : List Any) :
    ∀ i, checkFields objectName i items = none ↔ items.all Any.isString = true := by
  induction items with
  | nil => intro i; simp [checkFields]
  | cons item rest ih =>
    intro i
    cases item <;> simp [checkFields, ih, Any.isString]

theorem checkObjects_none_iff (objects : List (String × Any)) :
    checkObjects objects = none ↔ objects.all (fun kv => kv.2.isNullOrStrings) = true := by
  induction objects with
  | nil => simp [checkObjects]
  | cons kv rest ih =>
    rcases kv with ⟨name, value⟩
    cases value with
    | null => simp [checkObjects, ih, Any.isNullOrStrings]
    | arr v =>
      simp only [checkObjects]
      cases hf : checkFields name 0 v with
      | some err =>
        have hne : ¬ v.all Any.isString = true := by
          rw [← checkFields_none_iff name v 0, hf]; simp
        simp only [reduceCtorEq, List.all_cons, Any.isNullOrStrings, Bool.and_eq_true, false_iff]
        exact fun h => hne h.1
      | none =>
        have hall := (checkFields_none_iff name v 0).1 hf
        simp only [List.all_cons, Any.isNullOrStrings, Bool.and_eq_true, hall, true_and]
        exact ih
    | bool b => simp [checkObjects, Any.isNullOrStrings]
    | num n => simp [checkObjects, Any.isNullOrStrings]
    | str s => simp [checkObjects, Any.isNullOrStrings]
    | obj kvs => simp [checkObjects, Any.isNullOrStrings]

theorem GetMonitoredObjects_ok_iff (lib : Stdlib) (m : MoonrakerConfig)
    (hne : m.MonitoredObjects ≠ "") (objects : List (String × Any)) :
    m.GetMonitoredObjects lib = Except.ok objects ↔
      HasPrefix (TrimSpace m.MonitoredObjects) "\x7b" = true ∧
      HasSuffix (TrimSpace m.MonitoredObjects) "\x7d" = true ∧
      lib.Unmarshal (TrimSpace m.MonitoredObjects) = Except.ok objects ∧
      objects.all (fun kv => kv.2.isNullOrStrings) = true := by
  unfold MoonrakerConfig.GetMonitoredObjects
  rw [if_neg hne]
  simp only
  cases hp : HasPrefix (TrimSpace m.MonitoredObjects) "\x7b"
  · simp
  cases hs : HasSuffix (TrimSpace m.MonitoredObjects) "\x7d"
  · simp
  simp only [Bool.not_true, Bool.or_self, Bool.false_eq_true, if_false, true_and]
  cases hu : lib.Unmarshal (TrimSpace m.MonitoredObjects) with
  | error err => simp
  | ok decoded =>
    simp only
    cases hc : checkObjects decoded with
    | some err =>
      have hno := mt (checkObjects_none_iff decoded).2 (by rw [hc]; simp)
      simp only [Except.ok.injEq, reduceCtorEq, false_iff, not_and]
      intro he
      subst he
      exact hno
    | none =>
      have hall := (checkObjects_none_iff decoded).1 hc
      simp only [Except.ok.injEq]
      constructor
      · intro he; subst he; exact ⟨rfl, hall⟩
      · intro he; exact he.1

theorem MoonrakerConfig_Validate_none_iff (lib : Stdlib) (m : MoonrakerConfig) :
    m.Validate lib = none ↔
      TrimSpace m.Host ≠ "" ∧ 1 ≤ m.Port ∧ m.Port ≤ 65535 ∧ 0 < m.Timeout ∧
      0 ≤ m.MaxReconnectAttempts ∧ 0 < m.CallInterval ∧
      (m.MonitoredObjects = "" ∨ ∃ objects, m.GetMonitoredObjects lib = Except.ok objects) := by
  unfold MoonrakerConfig.Validate
  split
  · rename_i h; simp [h]
  · rename_i h1
    split
    · rename_i h; simp only [reduceCtorEq, false_iff]; omega
    · rename_i h2
      split
      · rename_i h; simp only [reduceCtorEq, false_iff]; omega
      · rename_i h3
        split
        · rename_i h; simp only [reduceCtorEq, false_iff]; omega
        · rename_i h4
          split
          · rename_i h; simp only [reduceCtorEq, false_iff]; omega
          · rename_i h5
            have hrange : 1 ≤ m.Port ∧ m.Port ≤ 65535 ∧ 0 < m.Timeout ∧
                0 ≤ m.MaxReconnectAttempts ∧ 0 < m.CallInterval := by omega
            split
            · rename_i h6
              cases hg : m.GetMonitoredObjects lib with
              | error err => simp [h6]
              | ok objects => simp [h1, hrange]
            · rename_i h6
              simp only [ne_eq, not_not] at h6
              simp [h1, hrange, h6]

/-- C25: `MoonrakerConfig.Validate` returns nil exactly when the six checks pass, and
otherwise the error of the first check, in the order of the code, that fails. -/
theorem C25_moonraker_validate (lib : Stdlib) (m : MoonrakerConfig) :
    (m.Validate lib = none ↔
      TrimSpace m.Host ≠ "" ∧ 1 ≤ m.Port ∧ m.Port ≤ 65535 ∧ 0 < m.Timeout ∧
      0 ≤ m.MaxReconnectAttempts ∧ 0 < m.CallInterval ∧
      (m.MonitoredObjects = "" ∨ ∃ objects, m.GetMonitoredObjects lib = Except.ok objects)) ∧
    (TrimSpace m.Host = "" →
      m.Validate lib = some (newError "moonraker host cannot be empty")) ∧
    (TrimSpace m.Host ≠ "" → (m.Port < 1 ∨ 65535 < m.Port) →
      m.Validate lib =
        some (newError ("moonraker port must be between 1 and 65535, got " ++ toString m.Port))) ∧
    (TrimSpace m.Host ≠ "" → 1 ≤ m.Port → m.Port ≤ 65535 → m.Timeout ≤ 0 →
      m.Validate lib =
        some (newError ("moonraker timeout must be positive, got " ++ toString m.Timeout))) ∧
    (TrimSpace m.Host ≠ "" → 1 ≤ m.Port → m.Port ≤ 65535 → 0 < m.Timeout →
      m.MaxReconnectAttempts < 0 →
      m.Validate lib =
        some
          (newError
            ("moonraker max reconnect attempts must be non-negative, got " ++
              toString m.MaxReconnectAttempts))) ∧
    (TrimSpace m.Host ≠ "" → 1 ≤ m.Port → m.Port ≤ 65535 → 0 < m.Timeout →
      0 ≤ m.MaxReconnectAttempts → m.CallInterval ≤ 0 →
      m.Validate lib =
        some
          (newError ("moonraker call interval must be positive, got " ++ toString m.CallInterval))) ∧
    (TrimSpace m.Host ≠ "" → 1 ≤ m.Port → m.Port ≤ 65535 → 0 < m.Timeout →
      0 ≤ m.MaxReconnectAttempts → 0 < m.CallInterval → m.MonitoredObjects ≠ "" →
      ∀ err, m.GetMonitoredObjects lib = Except.error err →
        m.Validate lib = some (GoError.Errorf "invalid monitored objects: %w" err)) := by
  refine ⟨MoonrakerConfig_Validate_none_iff lib m, ?_, ?_, ?_, ?_, ?_, ?_⟩
  · intro h
    unfold MoonrakerConfig.Validate
    rw [if_pos h]
  · intro h1 h2
    unfold MoonrakerConfig.Validate
    rw [if_neg h1, if_pos (by omega)]
  · intro h1 h2 h3 h4
    unfold MoonrakerConfig.Validate
    rw [if_neg h1, if_neg (by omega), if_pos h4]
  · intro h1 h2 h3 h4 h5
    unfold MoonrakerConfig.Validate
    rw [if_neg h1, if_neg (by omega), if_neg (by omega), if_pos h5]
  · intro h1 h2 h3 h4 h5 h6
    unfold MoonrakerConfig.Validate
    rw [if_neg h1, if_neg (by omega), if_neg (by omega), if_neg (by omega), if_pos h6]
  · intro h1 h2 h3 h4 h5 h6 h7 err herr
    unfold MoonrakerConfig.Validate
    rw [if_neg h1, if_neg (by omega), if_neg (by omega), if_neg (by omega), if_neg (by omega),
      if_pos h7, herr]

/-- C25 at the default section with the port 0, and with an object whose value is a
string. -/
theorem C25_moonraker_validate_witness :
    ({ DefaultConfig.Moonraker with Port := 0 } : MoonrakerConfig).Validate sampleLib =
      some (newError "moonraker port must be between 1 and 65535, got 0") ∧
    ({ DefaultConfig.Moonraker with
        MonitoredObjects := " \x7b\"toolhead\":\"position\"\x7d " } : MoonrakerConfig).Validate
        sampleLib =
      some
        (GoError.Errorf "invalid monitored objects: %w"
          (newError
            "monitored object \x27toolhead\x27 must be null or an array of strings, got string")) :=
  ⟨(C25_moonraker_validate sampleLib { DefaultConfig.Moonraker with Port := 0 }).2.2.1
      (by decide) (by decide),
    (C25_moonraker_validate sampleLib
      { DefaultConfig.Moonraker with
        MonitoredObjects := " \x7b\"toolhead\":\"position\"\x7d " }).2.2.2.2.2.2
      (by decide) (by decide) (by decide) (by decide) (by decide) (by decide) (by decide) _ rfl⟩

/-- C26: `Config.Validate` returns nil exactly when the three sections validate and the
environment is one of the three names; with valid sections and another environment it
returns the error `invalid environment`. -/
theorem C26_config_validate (lib : Stdlib) (c : Config) :
    (c.Validate lib = none ↔
      c.Moonraker.Validate lib = none ∧ c.MQTT.Validate = none ∧ c.Logging.Validate lib = none ∧
      (c.Environment = "development" ∨ c.Environment = "production" ∨
        c.Environment = "testing")) ∧
    (c.Moonraker.Validate lib = none → c.MQTT.Validate = none → c.Logging.Validate lib = none →
      c.Environment ≠ "development" → c.Environment ≠ "production" →
      c.Environment ≠ "testing" →
      c.Validate lib =
        some
          (newError
            ("invalid environment \x27" ++ c.Environment ++ "\x27, must be one of: " ++
              "development, production, testing"))) := by
  constructor
  · unfold Config.Validate
    cases h1 : c.Moonraker.Validate lib with
    | some e => simp
    | none =>
      cases h2 : c.MQTT.Validate with
      | some e => simp
      | none =>
        cases h3 : c.Logging.Validate lib with
        | some e => simp
        | none =>
          simp only [validEnvs, List.contains_cons, List.contains_nil, Bool.or_false,
            Bool.not_eq_true', Bool.or_eq_false_iff, beq_eq_false_iff_ne, ne_eq, true_and,
            ite_eq_right_iff, reduceCtorEq, imp_false, not_and, Classical.not_not]
          tauto
  · intro h1 h2 h3 h4 h5 h6
    unfold Config.Validate
    simp only [h1, h2, h3]
    rw [if_pos (by simp [validEnvs, h4, h5, h6])]
    have hjoin : ", ".intercalate validEnvs = "development, production, testing" := by decide
    rw [hjoin]

/-- C26 at the default configuration with the environment `staging`. -/
theorem C26_config_validate_witness :
    ({ DefaultConfig with Environment := "staging" } : Config).Validate sampleLib =
      some
        (newError
          "invalid environment \x27staging\x27, must be one of: development, production, testing") :=
  (C26_config_validate sampleLib { DefaultConfig with Environment := "staging" }).2
    rfl rfl rfl (by decide) (by decide) (by decide)

/-- C27: `GetMonitoredObjects` returns the four default objects for the empty setting;
for another setting it returns the decoded object exactly when the trimmed text is
written between braces, decodes, and every value is null or an array of strings, and an
error in every other case. -/
theorem C27_monitored_objects (lib : Stdlib) (m : MoonrakerConfig) :
    (m.MonitoredObjects = "" →
      m.GetMonitoredObjects lib = Except.ok defaultMonitoredObjects) ∧
    defaultMonitoredObjects.map Prod.fst = ["print_stats", "toolhead", "extruder", "heater_bed"] ∧
    (m.MonitoredObjects ≠ "" →
      (∀ objects, m.GetMonitoredObjects lib = Except.ok objects ↔
        HasPrefix (TrimSpace m.MonitoredObjects) "\x7b" = true ∧
        HasSuffix (TrimSpace m.MonitoredObjects) "\x7d" = true ∧
        lib.Unmarshal (TrimSpace m.MonitoredObjects) = Except.ok objects ∧
        objects.all (fun kv => kv.2.isNullOrStrings) = true) ∧
      ((HasPrefix (TrimSpace m.MonitoredObjects) "\x7b" = false ∨
          HasSuffix (TrimSpace m.MonitoredObjects) "\x7d" = false) →
        m.GetMonitoredObjects lib =
          Except.error
            (newError
              ("monitored objects must be a valid JSON object, got: " ++
                TrimSpace m.MonitoredObjects))) ∧
      (HasPrefix (TrimSpace m.MonitoredObjects) "\x7b" = true →
        HasSuffix (TrimSpace m.MonitoredObjects) "\x7d" = true →
        (∀ err, lib.Unmarshal (TrimSpace m.MonitoredObjects) = Except.error err →
          m.GetMonitoredObjects lib =
            Except.error (GoError.Errorf "failed to parse monitored objects JSON: %w" err)) ∧
        (∀ objects, lib.Unmarshal (TrimSpace m.MonitoredObjects) = Except.ok objects →
          objects.all (fun kv => kv.2.isNullOrStrings) = false →
          ∃ err, m.GetMonitoredObjects lib = Except.error err))) := by
  refine ⟨?_, rfl, ?_⟩
  · intro h
    unfold MoonrakerConfig.GetMonitoredObjects
    rw [if_pos h]
  · intro hne
    refine ⟨GetMonitoredObjects_ok_iff lib m hne, ?_, ?_⟩
    · intro h
      unfold MoonrakerConfig.GetMonitoredObjects
      rw [if_neg hne]
      simp only
      rw [if_pos (by rcases h with h | h <;> simp [h])]
    · intro hp hs
      constructor
      · intro err herr
        unfold MoonrakerConfig.GetMonitoredObjects
        rw [if_neg hne]
        simp only [hp, hs, herr]
        rfl
      · intro objects hobj hbad
        unfold MoonrakerConfig.GetMonitoredObjects
        rw [if_neg hne]
        simp only [hp, hs, hobj]
        cases hc : checkObjects objects with
        | some err => exact ⟨err, rfl⟩
        | none =>
          rw [(checkObjects_none_iff objects).1 hc] at hbad
          cases hbad

/-- C27 at the default setting between blanks, and at an object whose value is a
string. -/
theorem C27_monitored_objects_witness :
    ({ DefaultConfig.Moonraker with
        MonitoredObjects := "  " ++ DefaultConfig.Moonraker.MonitoredObjects ++ "\n" } :
      MoonrakerConfig).GetMonitoredObjects sampleLib = Except.ok defaultMonitoredObjects ∧
    ∃ err,
      ({ DefaultConfig.Moonraker with
          MonitoredObjects := "\x7b\"toolhead\":\"position\"\x7d" } :
        MoonrakerConfig).GetMonitoredObjects sampleLib = Except.error err :=
  ⟨(((C27_monitored_objects sampleLib
      { DefaultConfig.Moonraker with
        MonitoredObjects := "  " ++ DefaultConfig.Moonraker.MonitoredObjects ++ "\n" }).2.2
      (by decide)).1 defaultMonitoredObjects).2 ⟨by decide, by decide, rfl, by decide⟩,
    (((C27_monitored_objects sampleLib
      { DefaultConfig.Moonraker with
        MonitoredObjects := "\x7b\"toolhead\":\"position\"\x7d" }).2.2
      (by decide)).2.2 (by decide) (by decide)).2 [("toolhead", Any.str "position")] rfl
      (by decide)⟩

theorem DefaultConfig_Validate (lib : Stdlib) (objects : List (String × Any))
    (hjson : lib.Unmarshal DefaultConfig.Moonraker.MonitoredObjects = Except.ok objects)
    (hmembers : ∀ kv ∈ objects, kv ∈ defaultMonitoredObjects)
    (hinfo : lib.ToLower "info" = "info") (htext : lib.ToLower "text" = "text") :
    DefaultConfig.Validate lib = none := by
  have htrim : TrimSpace DefaultConfig.Moonraker.MonitoredObjects =
      DefaultConfig.Moonraker.MonitoredObjects := by decide
  have hall : objects.all (fun kv => kv.2.isNullOrStrings) = true := by
    rw [List.all_eq_true]
    intro kv hkv
    have hmem := hmembers kv hkv
    revert hmem
    generalize kv = x
    intro hmem
    simp only [defaultMonitoredObjects, List.mem_cons, List.mem_singleton, List.not_mem_nil,
      or_false] at hmem
    rcases hmem with h | h | h | h <;> subst h <;> rfl
  have hmoon : DefaultConfig.Moonraker.Validate lib = none := by
    rw [MoonrakerConfig_Validate_none_iff]
    refine ⟨by decide, by decide, by decide, by decide, by decide, by decide, Or.inr ⟨objects, ?_⟩⟩
    rw [GetMonitoredObjects_ok_iff lib _ (by decide)]
    rw [htrim]
    exact ⟨by decide, by decide, hjson, hall⟩
  have hlog : DefaultConfig.Logging.Validate lib = none := by
    unfold LoggingConfig.Validate
    have h1 : DefaultConfig.Logging.Level = "info" := rfl
    have h2 : DefaultConfig.Logging.Format = "text" := rfl
    simp only [h1, h2, hinfo, htext]
    rfl
  unfold Config.Validate
  rw [hmoon]
  have hmqtt : DefaultConfig.MQTT.Validate = none := by rfl
  simp only [hmqtt, hlog]
  rfl

/-- C28: with a standard library that decodes the default `monitored_objects` text into
members written in that text and that leaves `info` and `text` as they are in lower
case, `DefaultConfig` passes `Config.Validate`; its environment is `development` and its
ports are 7125 and 1883.  So `LoadOrCreateConfig` on a missing file returns the default
configuration, or the error `failed to save default config` around the error of
`SaveConfig`, and never the error `default config validation failed`. -/
theorem C28_default_config_is_valid (lib : Stdlib) (objects : List (String × Any))
    (env : FileEnv)
    (hjson : lib.Unmarshal DefaultConfig.Moonraker.MonitoredObjects = Except.ok objects)
    (hmembers : ∀ kv ∈ objects, kv ∈ defaultMonitoredObjects)
    (hinfo : lib.ToLower "info" = "info") (htext : lib.ToLower "text" = "text") :
    DefaultConfig.Validate lib = none ∧
    DefaultConfig.Environment = "development" ∧ DefaultConfig.Moonraker.Port = 7125 ∧
    DefaultConfig.MQTT.Port = 1883 ∧
    (env.notExist = true →
      (env.saveErr = none ∧ LoadOrCreateConfig lib env = Except.ok DefaultConfig) ∨
      (∃ err, env.saveErr = some err ∧
        LoadOrCreateConfig lib env =
          Except.error (GoError.Errorf "failed to save default config: %w" err))) := by
  have hv := DefaultConfig_Validate lib objects hjson hmembers hinfo htext
  refine ⟨hv, rfl, rfl, rfl, ?_⟩
  intro hmissing
  unfold LoadOrCreateConfig
  rw [if_pos hmissing]
  simp only [hv]
  cases hs : env.saveErr with
  | none => exact Or.inl ⟨rfl, rfl⟩
  | some err => exact Or.inr ⟨err, rfl, rfl⟩

/-- C28 with the stand-in library, the file missing and the save succeeding. -/
theorem C28_default_config_is_valid_witness :
    DefaultConfig.Validate sampleLib = none ∧
    LoadOrCreateConfig sampleLib
      { notExist := true, saveErr := none
        loaded := Except.error (GoError.External "no such file") } = Except.ok DefaultConfig := by
  have h := C28_default_config_is_valid sampleLib defaultMonitoredObjects
    { notExist := true, saveErr := none
      loaded := Except.error (GoError.External "no such file") }
    rfl (fun kv hkv => hkv) rfl rfl
  refine ⟨h.1, ?_⟩
  rcases h.2.2.2.2 rfl with ⟨_, hok⟩ | ⟨err, herr, _⟩
  · exact hok
  · cases herr

end config

namespace cmd

open websocket

/-! ## Periodic monitoring -/

theorem loop_append (a : App) (outcomes : List Bool) (failed : Bool) :
    ∀ s, App.periodicMonitoring.loop a s (outcomes ++ [failed]) =
      (App.periodicMonitoring.loop a s outcomes).bind
        (fun s' => App.periodicMonitoring.tick a s' failed) := by
  induction outcomes with
  | nil =>
    intro s
    simp only [List.nil_append, App.periodicMonitoring.loop, Option.some_bind]
    cases App.periodicMonitoring.tick a s failed <;> rfl
  | cons x rest ih =>
    intro s
    simp only [List.cons_append, App.periodicMonitoring.loop]
    cases App.periodicMonitoring.tick a s x with
    | none => rfl
    | some s' => exact ih s'

theorem failureStreak_append (outcomes : List Bool) (failed : Bool) :
    failureStreak (outcomes ++ [failed]) = if failed then failureStreak outcomes + 1 else 0 := by
  cases failed <;> simp [failureStreak, List.takeWhile]

/-- The variables of the loop after any ticks, for a call interval whose double, in
seconds, is a `time.Duration`. -/
theorem periodicMonitoring_state (a : App) (h : 0 < a.config.Moonraker.CallInterval)
    (hmax : a.config.Moonraker.CallInterval ≤ 4611686018) (outcomes : List Bool) :
    a.periodicMonitoring outcomes =
      some
        { consecutiveErrors := failureStreak outcomes
          ticker :=
            if 5 ≤ failureStreak outcomes then (a.config.Moonraker.CallInterval * 2) * Second
            else a.config.Moonraker.CallInterval * Second } := by
  have hS : Second = 1000000000 := rfl
  have h1 : NewTicker (int64 (a.config.Moonraker.CallInterval * Second)) =
      some (a.config.Moonraker.CallInterval * Second) := by
    rw [int64_of_range _ (by rw [hS]; omega) (by rw [hS]; omega)]
    unfold NewTicker
    rw [if_neg (by rw [hS]; omega)]
  have h2 : NewTicker (int64 (int64 (a.config.Moonraker.CallInterval * 2) * Second)) =
      some ((a.config.Moonraker.CallInterval * 2) * Second) := by
    rw [int64_of_range (a.config.Moonraker.CallInterval * 2) (by omega) (by omega)]
    rw [int64_of_range _ (by rw [hS]; omega) (by rw [hS]; omega)]
    unfold NewTicker
    rw [if_neg (by rw [hS]; omega)]
  induction outcomes using List.reverseRecOn with
  | nil =>
    unfold App.periodicMonitoring
    rw [h1]
    rfl
  | append_singleton rest failed ih =>
    unfold App.periodicMonitoring at ih ⊢
    rw [h1] at ih ⊢
    simp only at ih ⊢
    rw [loop_append, ih, Option.some_bind, failureStreak_append]
    unfold App.periodicMonitoring.tick
    cases failed with
    | true =>
      simp only [if_true, h2]
      by_cases h5 : 5 ≤ failureStreak rest + 1
      · have : (failureStreak rest : Int) + 1 ≥ 5 := by omega
        simp only [this, if_true, h5]
        simp
      · have : ¬ ((failureStreak rest : Int) + 1 ≥ 5) := by omega
        have h5' : ¬ 5 ≤ failureStreak rest := by omega
        simp only [this, if_false, h5, h5']
        simp
    | false =>
      simp only [Bool.false_eq_true, if_false, h1]
      by_cases hz : failureStreak rest = 0
      · simp [hz]
      · have : (failureStreak rest : Int) > 0 := by omega
        simp [this]

/-- C23, counterexample: the call interval 4611686019 passes `Validate`, the loop runs
through four failures with the period 4611686019 s, and the fifth failure, where the
period would be doubled, ends in the panic of `time.NewTicker`: the doubled number of
seconds is not a `time.Duration`.  With the call interval 9223372037 the first
`time.NewTicker` panics. -/
theorem C23_polling_interval_counterexample :
    ({ config.DefaultConfig.Moonraker with CallInterval := 4611686019 } :
      config.MoonrakerConfig).Validate config.sampleLib = none ∧
    App.periodicMonitoring
        { config :=
            { config.DefaultConfig with
              Moonraker := { config.DefaultConfig.Moonraker with CallInterval := 4611686019 } } }
        [true, true, true, true] =
      some { consecutiveErrors := 4, ticker := 4611686019 * Second } ∧
    App.periodicMonitoring
        { config :=
            { config.DefaultConfig with
              Moonraker := { config.DefaultConfig.Moonraker with CallInterval := 4611686019 } } }
        [true, true, true, true, true] = none ∧
    int64 (int64 (4611686019 * 2) * Second) = -9223372035709551616 ∧
    App.periodicMonitoring
        { config :=
            { config.DefaultConfig with
              Moonraker := { config.DefaultConfig.Moonraker with CallInterval := 9223372037 } } }
        [] = none := by
  refine ⟨rfl, by decide, by decide, by decide, by decide⟩

/-- C23, amended: with a call interval from 1 to 4611686018, after any ticks of
`periodicMonitoring` the loop is running, the counter is the length of the current run
of failures (0 after a success), and the period of the ticker is twice the call
interval when that run has reached 5 and the call interval otherwise; it is never more
than twice the call interval. -/
theorem C23_polling_interval (a : App) (outcomes : List Bool)
    (h : 0 < a.config.Moonraker.CallInterval)
    (hmax : a.config.Moonraker.CallInterval ≤ 4611686018) :
    ∃ s, a.periodicMonitoring outcomes = some s ∧
      s.consecutiveErrors = failureStreak outcomes ∧
      (5 ≤ failureStreak outcomes → s.ticker = 2 * (a.config.Moonraker.CallInterval * Second)) ∧
      (failureStreak outcomes < 5 → s.ticker = a.config.Moonraker.CallInterval * Second) ∧
      (outcomes.getLast? = some false → s.consecutiveErrors = 0) ∧
      s.ticker ≤ 2 * (a.config.Moonraker.CallInterval * Second) := by
  have hS : Second = 1000000000 := rfl
  refine ⟨_, periodicMonitoring_state a h hmax outcomes, rfl, ?_, ?_, ?_, ?_⟩
  · intro h5
    simp only [h5, if_true]
    ring
  · intro h5
    have : ¬ 5 ≤ failureStreak outcomes := by omega
    simp only [this, if_false]
  · intro hlast
    have : failureStreak outcomes = 0 := by
      rcases List.eq_nil_or_concat outcomes with hnil | ⟨rest, x, hx⟩
      · subst hnil; simp at hlast
      · subst hx
        simp at hlast
        subst hlast
        rw [List.concat_eq_append, failureStreak_append]
        rfl
    simp [this]
  · simp only
    split
    · rw [hS]; omega
    · rw [hS]; omega

/-- C23 at the default configuration (call interval 2 s): six failures, then a success,
then a failure; and at the largest call interval of the range, six failures. -/
theorem C23_polling_interval_witness :
    sampleApp.periodicMonitoring [true, true, true, true] =
      some { consecutiveErrors := 4, ticker := 2 * Second } ∧
    sampleApp.periodicMonitoring [true, true, true, true, true, true] =
      some { consecutiveErrors := 6, ticker := 4 * Second } ∧
    sampleApp.periodicMonitoring [true, true, true, true, true, true, false] =
      some { consecutiveErrors := 0, ticker := 2 * Second } ∧
    (∃ s, sampleApp.periodicMonitoring [true, true, true, true, true, true, false, true] = some s ∧
      s.consecutiveErrors = 1 ∧ s.ticker = 2 * Second) ∧
    App.periodicMonitoring
        { config :=
            { config.DefaultConfig with
              Moonraker := { config.DefaultConfig.Moonraker with CallInterval := 4611686018 } } }
        [true, true, true, true, true, true] =
      some { consecutiveErrors := 6, ticker := 9223372036 * Second } := by
  obtain ⟨s, hs, hc, _, ht, _, _⟩ :=
    C23_polling_interval sampleApp [true, true, true, true, true, true, false, true] (by decide)
      (by decide)
  exact ⟨by decide, by decide, by decide, ⟨s, hs, hc, ht (by decide)⟩, by decide⟩

end cmd
